import Mathlib

/-!
skippyHLS: the M3U8 client model and the HLS demuxer streaming loop

A shallow embedding of `src/src/skippy_m3u8.cpp` (the playlist model with its
cursor), of the streaming task, the seek handling and the src pad queries of
`src/src/skippy_hlsdemux.c`, and of the decryptor of the older revision
`src/c/skippy_hlsdemux.c`.

Conventions of the embedding:

* `guint64` / `GstClockTime` values are natural numbers; where the C code can
  wrap (sums and differences of clock times) the arithmetic is written with an
  explicit `% 2 ^ 64`.
* A C function that mutates `client->priv` or `demux` becomes a function that
  returns the new state (paired with the C return value when there is one).
* Calls into collaborators that are not part of these files (the M3U8 parser,
  `g_utf8_validate`, the URI downloader, the GStreamer task, pads and bus,
  the AES primitive of nettle) are either parameters (`Env`,
  `StreamLoopInput`, `Nettle`) or are recorded, in program order, in the
  `effects` trace of the demuxer state.
* The one double-precision expression of the code, the exponential branch of
  the retry timer, is the parameter `Env.exp_backoff`; where a statement
  relates it to its exact value, it does so in the real numbers.
-/

namespace SkippyHLS

/-! ## Data model of the playlist (`skippy_m3u8.cpp`) -/

/-- `GST_NSECOND`: the unit of `GstClockTime`. -/
def GST_NSECOND : Nat := 1

/-- `GST_USECOND`. -/
def GST_USECOND : Nat := 1000

/-- `GST_MSECOND`. -/
def GST_MSECOND : Nat := 1000000

/-- `GST_SECOND`. -/
def GST_SECOND : Nat := 1000000000

/-- `GST_CLOCK_TIME_NONE`, the all-ones `guint64`. -/
def GST_CLOCK_TIME_NONE : Nat := 2 ^ 64 - 1

/-- The macro `NANOSECONDS_TO_GST_TIME(t)`, `((GstClockTime)t*GST_NSECOND)`, on an
unsigned 64-bit operand. -/
def NANOSECONDS_TO_GST_TIME (t : Nat) : Nat := t * GST_NSECOND

/-- The macro `GST_TIME_AS_NSECONDS(time)`, `time / 1`. -/
def GST_TIME_AS_NSECONDS (time : Nat) : Nat := time / 1

/-- Modelled from the spec: the type `SkippyM3UItem` is declared in
`skippy_m3u8_parser.hpp`, which is not among the sources; the fields are the
ones `skippy_m3u8.cpp` reads (`url`, `start`, `end`, `duration`, all time
offsets in nanoseconds). The C++ field `end` is spelled `end_` here. -/
structure SkippyM3UItem where
  url : String
  start : Nat
  end_ : Nat
  duration : Nat
  deriving DecidableEq, Repr

/-- Modelled from the spec: the type `SkippyM3UPlaylist` is declared in
`skippy_m3u8_parser.hpp`, which is not among the sources; the fields are the
ones `skippy_m3u8.cpp` reads. -/
structure SkippyM3UPlaylist where
  uri : String
  type : String
  targetDuration : Nat
  totalDuration : Nat
  isComplete : Bool
  items : List SkippyM3UItem
  deriving DecidableEq, Repr

/-- The playlist built by `playlist("")` in the constructor of
`SkippyM3U8ClientPrivate`: the given uri, no items, not complete. -/
def SkippyM3UPlaylist.new (uri : String) : SkippyM3UPlaylist :=
  { uri := uri, type := "", targetDuration := 0, totalDuration := 0,
    isComplete := false, items := [] }

/-- The struct `SkippyM3U8ClientPrivate` without its mutex. `current_index` is a C
`int` that is only ever assigned `0`, a loop index, or its own successor, so
it is a natural number here. `playlist_raw` is `none` for `NULL`, otherwise
the bytes of the retained allocation (terminating zero included). -/
structure SkippyM3U8ClientPrivate where
  current_index : Nat
  playlist_raw : Option (List Nat)
  playlist : SkippyM3UPlaylist
  deriving DecidableEq, Repr

/-- The state made by `skippy_m3u8_client_new`: the constructor of
`SkippyM3U8ClientPrivate`. -/
def skippy_m3u8_client_new : SkippyM3U8ClientPrivate :=
  { current_index := 0, playlist_raw := none, playlist := SkippyM3UPlaylist.new "" }

/-- Modelled from the spec: `SkippyFragment` and `skippy_fragment_new` live in
`skippy_fragment.c`, which is not among the sources. The fields are the ones
the two source files read or write; a byte range of `-1` means unset. -/
structure SkippyFragment where
  uri : String
  start_time : Nat
  stop_time : Nat
  duration : Nat
  range_start : Int
  range_end : Int
  download_start_time : Nat
  download_stop_time : Nat
  size : Nat
  deriving DecidableEq, Repr

/-- Modelled from the spec: `skippy_fragment_new (uri)` of `skippy_fragment.c`
(not among the sources): a fragment for `uri` with no byte range and nothing
downloaded yet. -/
def skippy_fragment_new (uri : String) : SkippyFragment :=
  { uri := uri, start_time := 0, stop_time := 0, duration := 0,
    range_start := -1, range_end := -1,
    download_start_time := 0, download_stop_time := 0, size := 0 }

/-- The values of `SkippyHlsInternalError` that `skippy_m3u8_client_load_playlist`
returns (the enum is declared in `skippy_hls_priv.h`). -/
inductive SkippyHlsInternalError where
  | NO_ERROR
  | PLAYLIST_INVALID_UTF_CONTENT
  | PLAYLIST_INCOMPLETE
  deriving DecidableEq, Repr

/-- A `GstBuffer` as far as `buf_to_utf8_playlist` looks at it: whether
`gst_buffer_map (buf, &info, GST_MAP_READ)` succeeds, and the mapped bytes. -/
structure GstBuffer where
  readable : Bool
  data : List Nat
  deriving DecidableEq, Repr

/-- The collaborators of the two source files that are not part of them:
`g_utf8_validate` of GLib (on the mapped bytes), `SkippyM3UParser::parse`
(playlist uri and playlist text to a playlist), the integer value the
compiler gives each `SkippyHlsInternalError` enumerator, and the
double-precision expression `RETRY_TIME_BASE * (exp (k / 6.0) / M_E)` of the
retry timer, converted to `GstClockTime`. -/
structure Env where
  g_utf8_validate : List Nat → Bool
  parse : String → List Nat → SkippyM3UPlaylist
  error_value : SkippyHlsInternalError → Int
  exp_backoff : Nat → Nat

/-- What a `gchar*` denotes as a C string: the bytes before the first zero. -/
def c_string (bytes : List Nat) : List Nat :=
  bytes.takeWhile (fun b => b != 0)

/-- The static function `buf_to_utf8_playlist`: `none` is `NULL`; otherwise the
zero-terminated copy of the buffer. -/
def buf_to_utf8_playlist (env : Env) (buf : GstBuffer) : Option (List Nat) :=
  if !buf.readable then
    none
  else
    let playlist := buf.data ++ [0]
    if !env.g_utf8_validate buf.data then
      none
    else
      some playlist

/-- The function `skippy_m3u8_client_load_playlist`; `uri = none` is a `NULL` uri. -/
def skippy_m3u8_client_load_playlist (env : Env) (client : SkippyM3U8ClientPrivate)
    (uri : Option String) (playlist_buffer : GstBuffer) :
    SkippyHlsInternalError × SkippyM3U8ClientPrivate :=
  match buf_to_utf8_playlist env playlist_buffer with
  | none => (SkippyHlsInternalError.PLAYLIST_INVALID_UTF_CONTENT, client)
  | some playlist =>
    let loaded_playlist_uri :=
      match uri with
      | some u => u
      | none => client.playlist.uri
    let loaded_playlist := env.parse loaded_playlist_uri (c_string playlist)
    -- update raw playlist
    let client1 := { client with playlist_raw := some playlist }
    if !loaded_playlist.isComplete then
      (SkippyHlsInternalError.PLAYLIST_INCOMPLETE, client1)
    else
      (SkippyHlsInternalError.NO_ERROR, { client1 with playlist := loaded_playlist })

/-- The function `skippy_m3u8_client_get_current_raw_data`. -/
def skippy_m3u8_client_get_current_raw_data (client : SkippyM3U8ClientPrivate) :
    Option (List Nat) :=
  client.playlist_raw

/-- The fragment both getters build from an item. -/
def fragment_of_item (item : SkippyM3UItem) : SkippyFragment :=
  { skippy_fragment_new item.url with
    start_time := NANOSECONDS_TO_GST_TIME item.start
    stop_time := NANOSECONDS_TO_GST_TIME item.end_
    duration := NANOSECONDS_TO_GST_TIME item.duration }

/-- The function `skippy_m3u8_client_get_fragment`; `none` is `NULL`. -/
def skippy_m3u8_client_get_fragment (client : SkippyM3U8ClientPrivate)
    (sequence_number : Nat) : Option SkippyFragment :=
  if h : sequence_number ≥ client.playlist.items.length then
    none
  else
    some (fragment_of_item (client.playlist.items.get ⟨sequence_number, Nat.lt_of_not_ge h⟩))

/-- The function `skippy_m3u8_client_get_current_fragment`; `none` is `NULL`. -/
def skippy_m3u8_client_get_current_fragment (client : SkippyM3U8ClientPrivate) :
    Option SkippyFragment :=
  if h : client.current_index ≥ client.playlist.items.length then
    none
  else
    some (fragment_of_item
      (client.playlist.items.get ⟨client.current_index, Nat.lt_of_not_ge h⟩))

/-- The function `skippy_m3u8_client_advance_to_next_fragment`. -/
def skippy_m3u8_client_advance_to_next_fragment (client : SkippyM3U8ClientPrivate) :
    SkippyM3U8ClientPrivate :=
  if client.current_index < client.playlist.items.length then
    { client with current_index := client.current_index + 1 }
  else
    client

/-- The `for` loop of `skippy_m3u8_client_seek_to`, entered at index `i` with the
items from `i` on still to visit: `some j` when the loop body hits at index
`j` (the index it stores and returns `TRUE` on), `none` when the loop runs
out. -/
def seek_to_loop (target_pos : Nat) : List SkippyM3UItem → Nat → Option Nat
  | [], _ => none
  | item :: rest, i =>
    if target_pos ≥ item.start ∧ target_pos < item.end_ then
      some i
    else
      seek_to_loop target_pos rest (i + 1)

/-- The function `skippy_m3u8_client_seek_to`: the returned `gboolean` and the
state afterwards. -/
def skippy_m3u8_client_seek_to (client : SkippyM3U8ClientPrivate) (target : Nat) :
    Bool × SkippyM3U8ClientPrivate :=
  let target_pos := GST_TIME_AS_NSECONDS target
  match seek_to_loop target_pos client.playlist.items 0 with
  | some i => (true, { client with current_index := i })
  | none => (false, client)

/-- The function `skippy_m3u8_client_get_uri`. -/
def skippy_m3u8_client_get_uri (client : SkippyM3U8ClientPrivate) : String :=
  client.playlist.uri

/-- The function `skippy_m3u8_client_get_current_playlist`. -/
def skippy_m3u8_client_get_current_playlist (client : SkippyM3U8ClientPrivate) : String :=
  client.playlist.uri

/-- The function `skippy_m3u8_client_get_total_duration`. -/
def skippy_m3u8_client_get_total_duration (client : SkippyM3U8ClientPrivate) : Nat :=
  NANOSECONDS_TO_GST_TIME client.playlist.totalDuration

/-- The function `skippy_m3u8_client_get_target_duration`. -/
def skippy_m3u8_client_get_target_duration (client : SkippyM3U8ClientPrivate) : Nat :=
  NANOSECONDS_TO_GST_TIME client.playlist.targetDuration

/-- The function `skippy_m3u8_client_is_live`. -/
def skippy_m3u8_client_is_live (client : SkippyM3U8ClientPrivate) : Bool :=
  if client.playlist.type = "event" then true else false

/-- The function `skippy_m3u8_client_is_caching_allowed`. -/
def skippy_m3u8_client_is_caching_allowed (_client : SkippyM3U8ClientPrivate) : Bool :=
  true

/-- The cursor invariant of the spec: `0 ≤ cursor ≤ len`. -/
def cursor_inv (client : SkippyM3U8ClientPrivate) : Prop :=
  client.current_index ≤ client.playlist.items.length

instance (client : SkippyM3U8ClientPrivate) : Decidable (cursor_inv client) := by
  unfold cursor_inv; infer_instance

/-- Adjacent items are contiguous: `items[i].end == items[i+1].start`. -/
def contiguous : List SkippyM3UItem → Prop
  | [] => True
  | [_] => True
  | a :: b :: rest => a.end_ = b.start ∧ contiguous (b :: rest)

/-- The three-item VOD playlist A, B, C of the spec, 10 s each. -/
def vod_abc : SkippyM3UPlaylist :=
  { uri := "http://host/list.m3u8", type := "vod",
    targetDuration := 10 * GST_SECOND, totalDuration := 30 * GST_SECOND,
    isComplete := true,
    items := [
      { url := "A", start := 0, end_ := 10 * GST_SECOND, duration := 10 * GST_SECOND },
      { url := "B", start := 10 * GST_SECOND, end_ := 20 * GST_SECOND,
        duration := 10 * GST_SECOND },
      { url := "C", start := 20 * GST_SECOND, end_ := 30 * GST_SECOND,
        duration := 10 * GST_SECOND } ] }

/-- A client with `vod_abc` loaded and the cursor at `i`. -/
def client_abc (i : Nat) : SkippyM3U8ClientPrivate :=
  { current_index := i, playlist_raw := none, playlist := vod_abc }

/-! ## The demuxer state and its collaborators (`skippy_hlsdemux.c`) -/

/-- `RETRY_TIME_BASE`, `(500*GST_MSECOND)`. -/
def RETRY_TIME_BASE : Nat := 500 * GST_MSECOND

/-- `RETRY_THRESHOLD`: when the retry timer switches from constant to exponential. -/
def RETRY_THRESHOLD : Nat := 6

/-- `RETRY_MAX_TIME_UNTIL`, `(60*GST_SECOND)`. -/
def RETRY_MAX_TIME_UNTIL : Nat := 60 * GST_SECOND

/-- `DEFAULT_BUFFER_DURATION`, `(30*GST_SECOND)`. -/
def DEFAULT_BUFFER_DURATION : Nat := 30 * GST_SECOND

/-- Reduction of a value to `guint64`. -/
def to_guint64 (x : Int) : Nat := (x % (2 ^ 64 : Int)).toNat

/-- Sum of two `guint64` values, as the C `+` computes it. -/
def add64 (a b : Nat) : Nat := (a + b) % 2 ^ 64

/-- Difference of two `guint64` values, as the C `-` computes it. -/
def sub64 (a b : Nat) : Nat := (a % 2 ^ 64 + 2 ^ 64 - b % 2 ^ 64) % 2 ^ 64

/-- The enum `SkippyHLSDemuxStats`. -/
inductive SkippyHLSDemuxStats where
  | STAT_TIME_OF_FIRST_PLAYLIST
  | STAT_TIME_TO_PLAYLIST
  | STAT_TIME_TO_DOWNLOAD_FRAGMENT
  deriving DecidableEq, Repr

/-- The enum `SkippyUriDownloaderFetchReturn` of the URI downloader. -/
inductive SkippyUriDownloaderFetchReturn where
  | SKIPPY_URI_DOWNLOADER_VOID
  | SKIPPY_URI_DOWNLOADER_CANCELLED
  | SKIPPY_URI_DOWNLOADER_FAILED
  | SKIPPY_URI_DOWNLOADER_COMPLETED
  deriving DecidableEq, Repr

/-- The error domains (quarks) a `GError` of the pipeline can carry. -/
inductive GErrorDomain where
  | GST_CORE_ERROR
  | GST_LIBRARY_ERROR
  | GST_RESOURCE_ERROR
  | GST_STREAM_ERROR
  | OTHER_DOMAIN
  deriving DecidableEq, Repr

/-- A `GError`: domain and code (the message plays no part in control flow). -/
structure GError where
  domain : GErrorDomain
  code : Int
  deriving DecidableEq, Repr

/-- `GST_RESOURCE_ERROR_NOT_FOUND` of `GstResourceError`. -/
def GST_RESOURCE_ERROR_NOT_FOUND : Int := 3

/-- `GST_RESOURCE_ERROR_NOT_AUTHORIZED` of `GstResourceError`. -/
def GST_RESOURCE_ERROR_NOT_AUTHORIZED : Int := 15

/-- `GST_STREAM_ERROR_DECODE` of `GstStreamError`. -/
def GST_STREAM_ERROR_DECODE : Int := 7

/-- `g_error_matches (err, domain, code)`; `none` is a `NULL` error. -/
def g_error_matches (err : Option GError) (domain : GErrorDomain) (code : Int) : Bool :=
  match err with
  | none => false
  | some e => e.domain = domain && e.code = code

/-- Modelled from the spec: the outcome of `skippy_uri_downloader_fetch_fragment`
(`skippy_uridownloader.c` is not among the sources), section 4.2:
`Completed(bytes,timing) | Failed(err) | Cancelled | Void`. On `Completed` the
downloader has filled the timing and size fields of the fragment; only
`Failed` carries an error. -/
inductive FetchOutcome where
  | Completed (download_start_time download_stop_time size : Nat)
  | Failed (err : GError)
  | Cancelled
  | Void
  deriving DecidableEq, Repr

/-- The `SkippyUriDownloaderFetchReturn` a fetch outcome is returned as. -/
def FetchOutcome.fetch_ret : FetchOutcome → SkippyUriDownloaderFetchReturn
  | FetchOutcome.Completed _ _ _ => SkippyUriDownloaderFetchReturn.SKIPPY_URI_DOWNLOADER_COMPLETED
  | FetchOutcome.Failed _ => SkippyUriDownloaderFetchReturn.SKIPPY_URI_DOWNLOADER_FAILED
  | FetchOutcome.Cancelled => SkippyUriDownloaderFetchReturn.SKIPPY_URI_DOWNLOADER_CANCELLED
  | FetchOutcome.Void => SkippyUriDownloaderFetchReturn.SKIPPY_URI_DOWNLOADER_VOID

/-- What a fetch outcome leaves in the `GError **` out-parameter. -/
def FetchOutcome.err : FetchOutcome → Option GError
  | FetchOutcome.Failed e => some e
  | _ => none

/-- The fragment after the fetch: timing and size filled in on `Completed`. -/
def FetchOutcome.fill (o : FetchOutcome) (fragment : SkippyFragment) : SkippyFragment :=
  match o with
  | FetchOutcome.Completed t0 t1 size =>
    { fragment with download_start_time := t0, download_stop_time := t1, size := size }
  | _ => fragment

/-- The enum `GstFormat`. -/
inductive GstFormat where
  | GST_FORMAT_UNDEFINED
  | GST_FORMAT_DEFAULT
  | GST_FORMAT_BYTES
  | GST_FORMAT_TIME
  | GST_FORMAT_BUFFERS
  | GST_FORMAT_PERCENT
  deriving DecidableEq, Repr

/-- The enum `GstSeekType`. -/
inductive GstSeekType where
  | GST_SEEK_TYPE_NONE
  | GST_SEEK_TYPE_SET
  | GST_SEEK_TYPE_END
  deriving DecidableEq, Repr

/-- `GST_SEEK_FLAG_FLUSH` of `GstSeekFlags`. -/
def GST_SEEK_FLAG_FLUSH : Nat := 1

/-- What `gst_event_parse_seek` reads from a seek event. `rate` is the bit pattern
of the `gdouble` (it is only handed on); `flags` is the `GstSeekFlags` bit
set; `start` and `stop` are `gint64`. -/
structure GstSeekEvent where
  rate : Nat
  format : GstFormat
  flags : Nat
  start_type : GstSeekType
  start : Int
  stop_type : GstSeekType
  stop : Int
  deriving DecidableEq, Repr

/-- The two downloader members of the demuxer. -/
inductive Downloader where
  | downloader
  | playlist_downloader
  deriving DecidableEq, Repr

/-- The events the demuxer sends to `queue_sinkpad`. -/
inductive QueueEvent where
  | flush_start
  | flush_stop
  | eos
  deriving DecidableEq, Repr

/-- The state of a `GstTask`. -/
inductive GstTaskState where
  | GST_TASK_STARTED
  | GST_TASK_STOPPED
  | GST_TASK_PAUSED
  deriving DecidableEq, Repr

/-- The calls the demuxer makes on its collaborators, recorded in program order:
`skippy_hls_demux_post_stat_msg`, `skippy_uri_downloader_fetch_fragment`,
`skippy_uri_downloader_cancel`, `gst_pad_send_event (demux->queue_sinkpad, ..)`,
`GST_ELEMENT_ERROR`, a timed wait on the task condition (with the `max_wait`
it was given), `g_usleep`, `gst_task_pause`, `gst_task_start`,
`GST_TASK_SIGNAL`, and the update of the downloader segment by
`gst_segment_do_seek` with the seek parameters it was given. -/
inductive Effect where
  | post_stat_msg (metric : SkippyHLSDemuxStats) (time_val size : Nat)
  | fetch_fragment (d : Downloader) (fragment : SkippyFragment) (referrer : String)
      (compress refresh allow_cache : Bool)
  | cancel (d : Downloader)
  | send_event (e : QueueEvent)
  | element_error (domain : GErrorDomain) (code : Int)
  | cond_wait (max_wait : Nat)
  | usleep (microseconds : Nat)
  | task_pause
  | task_start
  | task_signal
  | segment_do_seek (event : GstSeekEvent)
  deriving DecidableEq, Repr

/-- The fields of `SkippyHLSDemux` the streaming task works on. `srcpad` is
whether the pointer is non-`NULL`; `client` is the state behind
`demux->client`; `stream_task` is the state of `demux->stream_task`;
`download_failed_count` is a C `gint` that only counts up from zero;
`effects` is the trace of calls on collaborators, oldest first. -/
structure SkippyHLSDemux where
  srcpad : Bool
  position : Nat
  download_failed_count : Nat
  continuing : Bool
  client : SkippyM3U8ClientPrivate
  stream_task : GstTaskState
  effects : List Effect
  deriving DecidableEq, Repr

/-- What one run of the streaming task function receives from outside:
* `position_query`: the position downstream answers to the TIME position
  query (a `gint64`), `none` when the query fails or is not in TIME format;
* `max_buffer_duration`: the value `skippy_hls_demux_get_max_buffer_duration`
  reads from the parent (`DEFAULT_BUFFER_DURATION` when it has no such property);
* `buffer_wait_signalled`, `retry_wait_signalled`: whether another thread set
  `continuing` and signalled the task condition during the respective wait
  (otherwise the wait timed out);
* `fetch`: the outcome of the fragment fetch, when one is made;
* `playlist_fetch`, `playlist_buffer`: the outcome of the playlist fetch and
  the buffer `skippy_uri_downloader_get_buffer` hands out (not readable
  stands for `NULL`), when the playlist is refreshed. -/
structure StreamLoopInput where
  position_query : Option Int
  max_buffer_duration : Nat
  buffer_wait_signalled : Bool
  fetch : FetchOutcome
  playlist_fetch : FetchOutcome
  playlist_buffer : GstBuffer
  retry_wait_signalled : Bool
  deriving DecidableEq, Repr

/-- Appends one call to the trace. -/
def SkippyHLSDemux.emit (demux : SkippyHLSDemux) (e : Effect) : SkippyHLSDemux :=
  { demux with effects := demux.effects ++ [e] }

/-- `gst_task_pause (demux->stream_task)`. -/
def gst_task_pause (demux : SkippyHLSDemux) : SkippyHLSDemux :=
  { demux with stream_task := GstTaskState.GST_TASK_PAUSED,
               effects := demux.effects ++ [Effect.task_pause] }

/-- `gst_task_start (demux->stream_task)`. -/
def gst_task_start (demux : SkippyHLSDemux) : SkippyHLSDemux :=
  { demux with stream_task := GstTaskState.GST_TASK_STARTED,
               effects := demux.effects ++ [Effect.task_start] }

/-- The function `skippy_hls_demux_post_stat_msg`. -/
def skippy_hls_demux_post_stat_msg (demux : SkippyHLSDemux) (metric : SkippyHLSDemuxStats)
    (time_val size : Nat) : SkippyHLSDemux :=
  demux.emit (Effect.post_stat_msg metric time_val size)

/-- The function `skippy_hls_demux_query_position`: the `gint64` it returns. -/
def skippy_hls_demux_query_position (inp : StreamLoopInput) : Int :=
  match inp.position_query with
  | some pos => pos
  | none => -1  -- `GST_CLOCK_TIME_NONE` read as a `gint64`

/-- The function `skippy_hls_handle_end_of_playlist`. -/
def skippy_hls_handle_end_of_playlist (demux : SkippyHLSDemux) : SkippyHLSDemux :=
  let demux := { demux with position := 0 }
  let demux := gst_task_pause demux
  demux.emit (Effect.send_event QueueEvent.eos)

/-- The function `skippy_hls_demux_is_caching_allowed`. -/
def skippy_hls_demux_is_caching_allowed (demux : SkippyHLSDemux) : Bool :=
  skippy_m3u8_client_is_caching_allowed demux.client

/-- The function `skippy_hls_demux_refresh_playlist`. The early return on a `NULL`
`current_playlist` cannot be taken: `g_strdup` of a `c_str ()` is never `NULL`. -/
def skippy_hls_demux_refresh_playlist (env : Env) (demux : SkippyHLSDemux)
    (inp : StreamLoopInput) : Bool × SkippyHLSDemux :=
  let current_playlist := skippy_m3u8_client_get_current_playlist demux.client
  let main_playlist_uri := skippy_m3u8_client_get_uri demux.client
  -- Create a download
  let download : SkippyFragment :=
    { skippy_fragment_new current_playlist with
      start_time := 0
      stop_time := skippy_m3u8_client_get_total_duration demux.client }
  -- Download it
  let demux := demux.emit (Effect.fetch_fragment Downloader.playlist_downloader download
    main_playlist_uri true true (skippy_hls_demux_is_caching_allowed demux))
  let download := inp.playlist_fetch.fill download
  -- Handle fetch result
  match inp.playlist_fetch.fetch_ret with
  | SkippyUriDownloaderFetchReturn.SKIPPY_URI_DOWNLOADER_COMPLETED =>
    let demux := skippy_hls_demux_post_stat_msg demux SkippyHLSDemuxStats.STAT_TIME_TO_PLAYLIST
      (sub64 download.download_stop_time download.download_start_time) 0
    -- Load M3U8 buffer into parser
    let loaded := skippy_m3u8_client_load_playlist env demux.client (some current_playlist)
      inp.playlist_buffer
    let demux := { demux with client := loaded.2 }
    if env.error_value loaded.1 = 0 then
      (false, demux.emit (Effect.element_error GErrorDomain.GST_STREAM_ERROR
        GST_STREAM_ERROR_DECODE))
    else
      (true, demux)
  | SkippyUriDownloaderFetchReturn.SKIPPY_URI_DOWNLOADER_FAILED => (false, demux)
  | SkippyUriDownloaderFetchReturn.SKIPPY_URI_DOWNLOADER_CANCELLED => (false, demux)
  | SkippyUriDownloaderFetchReturn.SKIPPY_URI_DOWNLOADER_VOID => (false, demux)

/-- The function `skippy_hls_demux_get_time_until_retry`. The double-precision
expression of the exponential branch is `env.exp_backoff`; the cap and the
branch on the failure count are the code. -/
def skippy_hls_demux_get_time_until_retry (env : Env) (demux : SkippyHLSDemux) : Nat :=
  if demux.download_failed_count ≥ RETRY_THRESHOLD then
    let retry_timer := env.exp_backoff demux.download_failed_count
    -- Cap the value
    if retry_timer > RETRY_MAX_TIME_UNTIL then RETRY_MAX_TIME_UNTIL else retry_timer
  else
    RETRY_TIME_BASE

/-- The function `skippy_hls_stream_loop_wait_locked`: no wait when `continuing` is
already set; otherwise a timed wait that ends either by timeout or, when
`signalled`, with `continuing` set by the signalling thread. -/
def skippy_hls_stream_loop_wait_locked (demux : SkippyHLSDemux) (max_wait : Nat)
    (signalled : Bool) : SkippyHLSDemux :=
  if demux.continuing then
    demux
  else
    { demux with effects := demux.effects ++ [Effect.cond_wait max_wait],
                 continuing := signalled }

/-- The function `skippy_hls_check_buffer_ahead`: the returned `gboolean` and the
state afterwards. The value of `skippy_hls_demux_get_max_buffer_duration` is
an input; the pad it stores in `demux->srcpad` in this revision replaces a
pointer that is already non-`NULL` at that point, so `srcpad` stays set. -/
def skippy_hls_check_buffer_ahead (demux : SkippyHLSDemux) (inp : StreamLoopInput) :
    Bool × SkippyHLSDemux :=
  -- Check if we are linked yet
  if !demux.srcpad then
    (false, demux.emit (Effect.usleep 100))
  -- Check if wait condition is enabled - if not we can just continue
  else if demux.continuing then
    (true, demux)
  else
    let pos := to_guint64 (skippy_hls_demux_query_position inp)
    let max_buffer_duration := inp.max_buffer_duration % 2 ^ 64
    -- Check for wether we should limit downloading
    if pos ≠ GST_CLOCK_TIME_NONE ∧ max_buffer_duration ≠ GST_CLOCK_TIME_NONE
        ∧ pos ≥ 2 * RETRY_TIME_BASE
        ∧ demux.position > add64 pos max_buffer_duration then
      let max_wait := sub64 (sub64 demux.position pos) max_buffer_duration
      (false, skippy_hls_stream_loop_wait_locked demux max_wait inp.buffer_wait_signalled)
    else
      -- No waiting needed
      (true, demux)

/-- The locals of `skippy_hls_demux_stream_loop` after the fetch step. -/
structure StreamLoopLocals where
  fragment : Option SkippyFragment
  fetch_ret : SkippyUriDownloaderFetchReturn
  err : Option GError
  demux : SkippyHLSDemux
  deriving DecidableEq, Repr

/-- The fetch step of `skippy_hls_demux_stream_loop` ("Get next fragment from M3U8
list"): `fetch_ret` stays `SKIPPY_URI_DOWNLOADER_VOID` and `err` stays `NULL`
when there is no current fragment. -/
def stream_loop_fetch (demux : SkippyHLSDemux) (inp : StreamLoopInput) : StreamLoopLocals :=
  let referrer_uri := skippy_m3u8_client_get_uri demux.client
  match skippy_m3u8_client_get_current_fragment demux.client with
  | some fragment =>
    -- Tell downloader to push data
    let demux := demux.emit (Effect.fetch_fragment Downloader.downloader fragment
      referrer_uri false false (skippy_hls_demux_is_caching_allowed demux))
    { fragment := some (inp.fetch.fill fragment), fetch_ret := inp.fetch.fetch_ret,
      err := inp.fetch.err, demux := demux }
  | none =>
    { fragment := none, fetch_ret := SkippyUriDownloaderFetchReturn.SKIPPY_URI_DOWNLOADER_VOID,
      err := none, demux := demux }

/-- The `switch (fetch_ret)` of `skippy_hls_demux_stream_loop`: the local
`playlist_refresh` and the state afterwards. -/
def stream_loop_handle_result (env : Env) (inp : StreamLoopInput) (l : StreamLoopLocals) :
    Bool × SkippyHLSDemux :=
  match l.fetch_ret with
  | SkippyUriDownloaderFetchReturn.SKIPPY_URI_DOWNLOADER_VOID =>
    (false, skippy_hls_handle_end_of_playlist l.demux)
  | SkippyUriDownloaderFetchReturn.SKIPPY_URI_DOWNLOADER_CANCELLED =>
    (false, l.demux)
  | SkippyUriDownloaderFetchReturn.SKIPPY_URI_DOWNLOADER_FAILED =>
    -- Actual download failure
    let demux := { l.demux with download_failed_count := l.demux.download_failed_count + 1 }
    -- We only want to refetch the playlist if we get a 403 or a 404
    if g_error_matches l.err GErrorDomain.GST_RESOURCE_ERROR
        GST_RESOURCE_ERROR_NOT_AUTHORIZED then
      (true, (skippy_hls_demux_refresh_playlist env demux inp).2)
    else
      (false, demux)
  | SkippyUriDownloaderFetchReturn.SKIPPY_URI_DOWNLOADER_COMPLETED =>
    match l.fragment with
    | some fragment =>
      -- Post stats message
      let demux := skippy_hls_demux_post_stat_msg l.demux
        SkippyHLSDemuxStats.STAT_TIME_TO_DOWNLOAD_FRAGMENT
        (sub64 fragment.download_stop_time fragment.download_start_time) fragment.size
      -- Reset failure counter, position and scheduling condition
      let demux := { demux with position := fragment.start_time,
                                download_failed_count := 0,
                                continuing := false }
      -- Go to next fragment
      (false, { demux with client := skippy_m3u8_client_advance_to_next_fragment demux.client })
    | none =>
      -- not reached: `fetch_ret` is only assigned by a fetch of a fragment
      (false, l.demux)

/-- The function `skippy_hls_demux_stream_loop`: one run of the streaming task
function. -/
def skippy_hls_demux_stream_loop (env : Env) (demux : SkippyHLSDemux)
    (inp : StreamLoopInput) : SkippyHLSDemux :=
  -- Check current playback position against buffer levels
  let gate := skippy_hls_check_buffer_ahead demux inp
  if !gate.1 then
    gate.2
  else
    -- Get next fragment from M3U8 list
    let l := stream_loop_fetch gate.2 inp
    -- Handle result from current attempt
    let handled := stream_loop_handle_result env inp l
    let playlist_refresh := handled.1
    let demux := handled.2
    -- Handle error
    if l.err.isSome && !playlist_refresh then
      let time_until_retry := skippy_hls_demux_get_time_until_retry env demux
      let demux := skippy_hls_stream_loop_wait_locked demux time_until_retry
        inp.retry_wait_signalled
      -- If there was an error we should not schedule but retry right away
      { demux with continuing := true }
    else
      demux

/-- The `fetch_ret` a run of the streaming task function switches on: `none` when
the buffer-ahead check makes it return before the fetch step. -/
def stream_loop_fetch_ret (demux : SkippyHLSDemux) (inp : StreamLoopInput) :
    Option SkippyUriDownloaderFetchReturn :=
  let gate := skippy_hls_check_buffer_ahead demux inp
  if !gate.1 then none else some (stream_loop_fetch gate.2 inp).fetch_ret

/-- Consecutive runs of the streaming task function, one per input. -/
def stream_loop_run (env : Env) (demux : SkippyHLSDemux) :
    List StreamLoopInput → SkippyHLSDemux
  | [] => demux
  | inp :: rest => stream_loop_run env (skippy_hls_demux_stream_loop env demux inp) rest

/-- Every run of the streaming task function along the inputs switches on
`SKIPPY_URI_DOWNLOADER_COMPLETED`. -/
def all_completed (env : Env) (demux : SkippyHLSDemux) : List StreamLoopInput → Prop
  | [] => True
  | inp :: rest =>
    stream_loop_fetch_ret demux inp
      = some SkippyUriDownloaderFetchReturn.SKIPPY_URI_DOWNLOADER_COMPLETED ∧
    all_completed env (skippy_hls_demux_stream_loop env demux inp) rest

/-- Every run of the streaming task function along the inputs switches on
`SKIPPY_URI_DOWNLOADER_FAILED` with an error other than "not authorized". -/
def all_failed_generic (env : Env) (demux : SkippyHLSDemux) : List StreamLoopInput → Prop
  | [] => True
  | inp :: rest =>
    stream_loop_fetch_ret demux inp
      = some SkippyUriDownloaderFetchReturn.SKIPPY_URI_DOWNLOADER_FAILED ∧
    g_error_matches inp.fetch.err GErrorDomain.GST_RESOURCE_ERROR
      GST_RESOURCE_ERROR_NOT_AUTHORIZED = false ∧
    all_failed_generic env (skippy_hls_demux_stream_loop env demux inp) rest

/-! ## Pausing, seeking and the src pad queries (`skippy_hlsdemux.c`) -/

/-- Reduction of a value to `gint64` (two's complement). -/
def to_gint64 (x : Int) : Int := (x + 2 ^ 63) % (2 ^ 64 : Int) - 2 ^ 63

/-- The macro `GST_CLOCK_TIME_IS_VALID`. -/
def GST_CLOCK_TIME_IS_VALID (time : Nat) : Bool := time != GST_CLOCK_TIME_NONE

/-- The function `skippy_hls_demux_pause`. The final lock and unlock of
`stream_lock` only waits for a running task function to return. -/
def skippy_hls_demux_pause (demux : SkippyHLSDemux) : SkippyHLSDemux :=
  -- Pause the task
  let demux := gst_task_pause demux
  -- Signal the thread in case it's waiting
  let demux := { demux with continuing := true }
  let demux := demux.emit Effect.task_signal
  -- Now cancel all downloads
  let demux := demux.emit (Effect.cancel Downloader.downloader)
  demux.emit (Effect.cancel Downloader.playlist_downloader)

/-- The function `skippy_hls_demux_restart`. -/
def skippy_hls_demux_restart (demux : SkippyHLSDemux) : SkippyHLSDemux :=
  -- If we are already paused, this is just about restarting
  if demux.stream_task = GstTaskState.GST_TASK_PAUSED then
    gst_task_start demux
  else if demux.download_failed_count ≥ RETRY_THRESHOLD then
    let demux := skippy_hls_demux_pause demux
    -- At this point the stream loop is paused
    let demux := { demux with download_failed_count := 0 }
    gst_task_start demux
  else
    demux

/-- The function `skippy_hls_demux_handle_seek`: the returned `gboolean` and the
state afterwards. -/
def skippy_hls_demux_handle_seek (demux : SkippyHLSDemux) (event : GstSeekEvent) :
    Bool × SkippyHLSDemux :=
  -- Not seeking on a live stream
  if skippy_m3u8_client_is_live demux.client then
    (false, demux)
  -- Parse seek event
  else if event.format ≠ GstFormat.GST_FORMAT_TIME then
    (false, demux)
  else
    -- Pausing streaming task (blocking)
    let demux := skippy_hls_demux_pause demux
    -- Seek on M3U8 data model
    let demux := { demux with
      client := (skippy_m3u8_client_seek_to demux.client (to_guint64 event.start)).2 }
    -- Update downloader segment after seek
    let demux := demux.emit (Effect.segment_do_seek event)
    -- Flush start
    let demux :=
      if event.flags &&& GST_SEEK_FLAG_FLUSH ≠ 0 then
        demux.emit (Effect.send_event QueueEvent.flush_start)
      else demux
    -- Flush stop
    let demux :=
      if event.flags &&& GST_SEEK_FLAG_FLUSH ≠ 0 then
        demux.emit (Effect.send_event QueueEvent.flush_stop)
      else demux
    -- Restart the streaming task
    let demux := gst_task_start demux
    (true, demux)

/-- The queries `skippy_hls_demux_src_query` tells apart, with the format read by
`gst_query_parse_duration` and `gst_query_parse_seeking`. -/
inductive GstQuery where
  | GST_QUERY_DURATION (fmt : GstFormat)
  | GST_QUERY_URI
  | GST_QUERY_SEEKING (fmt : GstFormat)
  | OTHER_QUERY
  deriving DecidableEq, Repr

/-- What `skippy_hls_demux_src_query` writes into the query: the arguments of
`gst_query_set_duration`, `gst_query_set_uri` and `gst_query_set_seeking`
(durations and segment bounds are `gint64` there). -/
inductive GstQueryAnswer where
  | duration (fmt : GstFormat) (duration : Int)
  | uri (uri : String)
  | seeking (fmt : GstFormat) (seekable : Bool) (segment_start segment_end : Int)
  deriving DecidableEq, Repr

/-- The function `skippy_hls_demux_src_query` of `src/src/skippy_hlsdemux.c`: the
returned `gboolean` and what was written into the query, if anything.
`query = none` is a `NULL` query. -/
def skippy_hls_demux_src_query (demux : SkippyHLSDemux) (query : Option GstQuery) :
    Bool × Option GstQueryAnswer :=
  match query with
  | none => (false, none)
  | some (GstQuery.GST_QUERY_DURATION fmt) =>
    if fmt ≠ GstFormat.GST_FORMAT_TIME then
      (false, none)
    else
      let duration := skippy_m3u8_client_get_total_duration demux.client % 2 ^ 64
      if GST_CLOCK_TIME_IS_VALID duration && decide (duration > 0) then
        (true, some (GstQueryAnswer.duration GstFormat.GST_FORMAT_TIME (to_gint64 duration)))
      else
        (false, none)
  | some GstQuery.GST_QUERY_URI =>
    (true, some (GstQueryAnswer.uri (skippy_m3u8_client_get_uri demux.client)))
  | some (GstQuery.GST_QUERY_SEEKING fmt) =>
    if fmt ≠ GstFormat.GST_FORMAT_TIME then
      (false, none)
    else
      let duration := skippy_m3u8_client_get_total_duration demux.client % 2 ^ 64
      if GST_CLOCK_TIME_IS_VALID duration && decide (duration > 0) then
        let stop := to_gint64 duration
        (true, some (GstQueryAnswer.seeking fmt (!skippy_m3u8_client_is_live demux.client)
          0 stop))
      else
        (false, none)
  | some GstQuery.OTHER_QUERY => (false, none)

/-- The `GST_QUERY_SEEKING` case of `skippy_hls_demux_src_query` in the older
revision `src/c/skippy_hlsdemux.c`, given what `skippy_m3u8_client_get_duration`
and `skippy_m3u8_client_is_live` of that revision return: a TIME query is
always answered, with `stop = -1` unless the duration is valid and positive. -/
def skippy_hls_demux_src_query_seeking_c (fmt : GstFormat) (duration : Nat) (is_live : Bool) :
    Bool × Option GstQueryAnswer :=
  if fmt = GstFormat.GST_FORMAT_TIME then
    let duration := duration % 2 ^ 64
    let stop : Int :=
      if GST_CLOCK_TIME_IS_VALID duration && decide (duration > 0) then to_gint64 duration
      else -1
    (true, some (GstQueryAnswer.seeking fmt (!is_live) 0 stop))
  else
    (false, none)

/-- An upstream URI query that was answered (`gst_pad_peer_query` returned
`TRUE`): the uri the peer has set, the redirection target (`none` is `NULL`)
and the permanent flag. -/
structure GstUriQueryAnswer where
  uri : String
  uri_redirection : Option String
  uri_redirection_permanent : Bool
  deriving DecidableEq, Repr

/-- The function `skippy_hls_demux_query_location`; `peer = none` is a failed
`gst_pad_peer_query`, the result `none` is `NULL`. -/
def skippy_hls_demux_query_location (peer : Option GstUriQueryAnswer) : Option String :=
  match peer with
  | some query =>
    let uri := query.uri_redirection
    let permanent := query.uri_redirection_permanent
    -- Only use the redirect target for permanent redirects
    if !permanent || uri.isNone then
      some query.uri
    else
      uri
  | none => none

/-! ## The decryptor of `src/c/skippy_hlsdemux.c` -/

/-- The AES primitive of nettle as used through `aes_set_decrypt_key` and
`aes_decrypt`: the decryption of one 16-byte block under a 16-byte key. -/
structure Nettle where
  aes_decrypt : List Nat → List Nat → List Nat

/-- Byte-wise exclusive or of two 16-byte blocks (`memxor` over `AES_BLOCK_SIZE`). -/
def xor_block (a b : List Nat) : List Nat :=
  (List.range 16).map (fun i => (a.getD i 0) ^^^ (b.getD i 0))

/-- The macro `CBC_DECRYPT` of nettle over `nblocks` blocks of `src`: every block
is decrypted and combined with the previous ciphertext block, the first one
with the initialisation vector. -/
def cbc_decrypt (nettle : Nettle) (key : List Nat) : Nat → List Nat → List Nat → List Nat
  | 0, _, _ => []
  | nblocks + 1, iv, src =>
    xor_block (nettle.aes_decrypt key (src.take 16)) iv
      ++ cbc_decrypt nettle key nblocks (src.take 16) (src.drop 16)

/-- The static function `decrypt_fragment`: `none` is `FALSE`, otherwise the
contents written to `decrypted_data`. -/
def decrypt_fragment (nettle : Nettle) (length : Nat)
    (encrypted_data key_data iv_data : List Nat) : Option (List Nat) :=
  if length % 16 ≠ 0 then
    none
  else
    some (cbc_decrypt nettle key_data (length / 16) iv_data encrypted_data)

/-- The members `key_url` and `key_fragment` of the demuxer, which are only set and
cleared together: `none` is both `NULL`, otherwise the cached key uri and the
bytes of the cached key fragment. -/
structure KeyCacheEntry where
  key_url : String
  key_fragment : List Nat
  deriving DecidableEq, Repr

/-- `gst_buffer_resize (buffer, 0, size)` on a buffer holding `data`: a size within
the buffer shortens it; a size beyond it (here always a wrapped-around
`gsize`) fails the range check of GStreamer and leaves the buffer as it is. -/
def gst_buffer_resize (data : List Nat) (size : Nat) : List Nat :=
  if size ≤ data.length then data.take size else data

/-- How a call of `skippy_hls_demux_decrypt_fragment` ends: `key_failed` and
`decrypt_error` return `NULL` (the latter after setting a
`GST_STREAM_ERROR_DECRYPT` error), `completed` returns a fragment with the
given bytes, `invalid_read` is the read of `decrypted_info.data[-1]` that an
empty payload leads to. -/
inductive DecryptOutcome where
  | key_failed
  | decrypt_error
  | completed (data : List Nat)
  | invalid_read
  deriving DecidableEq, Repr

/-- The result of `skippy_hls_demux_decrypt_fragment`: how it ends, the key cache
afterwards and the key uris it has fetched. -/
structure DecryptResult where
  ret : DecryptOutcome
  cache : Option KeyCacheEntry
  key_fetches : List String
  deriving DecidableEq, Repr

/-- The part of `skippy_hls_demux_decrypt_fragment` after the key has been
obtained: the size checks, the decryption and the pkcs7 unpadding. -/
def decrypt_with_key (nettle : Nettle) (key_info encrypted_info iv : List Nat) :
    DecryptOutcome :=
  if key_info.length ≠ 16 then
    DecryptOutcome.decrypt_error
  else
    match decrypt_fragment nettle encrypted_info.length encrypted_info key_info iv with
    | none => DecryptOutcome.decrypt_error
    | some decrypted_info =>
      -- Handle pkcs7 unpadding here
      match decrypted_info.getLast? with
      | none => DecryptOutcome.invalid_read
      | some last =>
        let unpadded_size := sub64 decrypted_info.length last
        DecryptOutcome.completed (gst_buffer_resize decrypted_info unpadded_size)

/-- The `else` branch of the key lookup in `skippy_hls_demux_decrypt_fragment`: the
cache is cleared, the key is fetched and, if that succeeds, installed in the
cache before the rest of the function runs. -/
def decrypt_fetch_key (nettle : Nettle) (encrypted : List Nat) (key : String) (iv : List Nat)
    (key_fetch : Option (List Nat)) : DecryptResult :=
  match key_fetch with
  | none => { ret := DecryptOutcome.key_failed, cache := none, key_fetches := [key] }
  | some key_fragment =>
    { ret := decrypt_with_key nettle key_fragment encrypted iv,
      cache := some { key_url := key, key_fragment := key_fragment },
      key_fetches := [key] }

/-- The function `skippy_hls_demux_decrypt_fragment`. `cache` is the key cache
before the call, `encrypted` the payload of the encrypted fragment, `key` the
key uri, `key_fetch` what `skippy_uri_downloader_fetch_uri` returns for the
key uri if it is called (`none` is `NULL`, otherwise the body). -/
def skippy_hls_demux_decrypt_fragment (nettle : Nettle) (cache : Option KeyCacheEntry)
    (encrypted : List Nat) (key : String) (iv : List Nat) (key_fetch : Option (List Nat)) :
    DecryptResult :=
  match cache with
  | some entry =>
    if entry.key_url = key then
      { ret := decrypt_with_key nettle entry.key_fragment encrypted iv,
        cache := cache, key_fetches := [] }
    else
      decrypt_fetch_key nettle encrypted key iv key_fetch
  | none => decrypt_fetch_key nettle encrypted key iv key_fetch

/-- The PKCS#7 padding the round trip of the spec refers to: a plaintext is
brought to a multiple of 16 bytes by appending between 1 and 16 bytes, each
holding the number of bytes appended. -/
def pkcs7_pad (plaintext : List Nat) : List Nat :=
  plaintext ++ List.replicate (16 - plaintext.length % 16) (16 - plaintext.length % 16)

/-- The CBC encryption the round trip of the spec refers to, over `nblocks`
blocks of `src` with the block encryption `aes_encrypt`: every plaintext
block is combined with the previous ciphertext block (the first one with the
initialisation vector) and then encrypted. -/
def cbc_encrypt (aes_encrypt : List Nat → List Nat → List Nat) (key : List Nat) :
    Nat → List Nat → List Nat → List Nat
  | 0, _, _ => []
  | nblocks + 1, iv, src =>
    aes_encrypt key (xor_block (src.take 16) iv)
      ++ cbc_encrypt aes_encrypt key nblocks (aes_encrypt key (xor_block (src.take 16) iv))
          (src.drop 16)

/-! ## Concrete playlists, environments and inputs -/

/-- The playlist of the counterexample to C3: two contiguous items, the second
one ending before it starts. -/
def playlist_backwards : SkippyM3UPlaylist :=
  { uri := "", type := "vod", targetDuration := 10, totalDuration := 5, isComplete := true,
    items := [ { url := "A", start := 0, end_ := 10, duration := 10 },
               { url := "B", start := 10, end_ := 5, duration := 0 } ] }

/-- A client with `playlist_backwards` loaded and the cursor at the start. -/
def client_backwards : SkippyM3U8ClientPrivate :=
  { current_index := 0, playlist_raw := none, playlist := playlist_backwards }

/-- The first two items of `vod_abc` as a complete playlist of their own. -/
def vod_ab : SkippyM3UPlaylist :=
  { vod_abc with totalDuration := 20 * GST_SECOND, items := vod_abc.items.take 2 }

/-- The playlist `vod_abc` before its end marker has arrived: not complete. -/
def vod_abc_incomplete : SkippyM3UPlaylist :=
  { vod_abc with isComplete := false }

/-- A concrete environment for running the model: the validator accepts the
byte strings made of non-zero 7-bit characters, the parser answers every
text with the playlist `p` under the uri it is called with, `NO_ERROR` has
the value 0 and the other two codes the values 1 and 2. -/
def env_of (p : SkippyM3UPlaylist) : Env :=
  { g_utf8_validate := fun bytes => bytes.all (fun b => decide (0 < b ∧ b < 128))
    parse := fun uri _ => { p with uri := uri }
    error_value := fun e =>
      match e with
      | SkippyHlsInternalError.NO_ERROR => 0
      | SkippyHlsInternalError.PLAYLIST_INVALID_UTF_CONTENT => 1
      | SkippyHlsInternalError.PLAYLIST_INCOMPLETE => 2
    exp_backoff := fun _ => RETRY_TIME_BASE }

/-- The bytes of the text `#EXTM3U`. -/
def bytes_extm3u : List Nat := [35, 69, 88, 84, 77, 51, 85]

/-- A readable buffer holding `#EXTM3U`. -/
def buffer_extm3u : GstBuffer := { readable := true, data := bytes_extm3u }

/-- A readable buffer holding the single byte `0xFF`, which is not UTF-8. -/
def buffer_ff : GstBuffer := { readable := true, data := [255] }

/-- The demuxer in PLAYING with `vod_abc` loaded, the src pad linked, the cursor
at `i` and nothing requested from the collaborators yet. -/
def demux_abc (i : Nat) : SkippyHLSDemux :=
  { srcpad := true, position := 0, download_failed_count := 0, continuing := false,
    client := client_abc i, stream_task := GstTaskState.GST_TASK_STARTED, effects := [] }

/-- An input under which downstream does not answer the position query and the
fragment fetch completes (download from 100 to 250, 4096 bytes). -/
def input_completed : StreamLoopInput :=
  { position_query := none, max_buffer_duration := DEFAULT_BUFFER_DURATION,
    buffer_wait_signalled := false,
    fetch := FetchOutcome.Completed 100 250 4096,
    playlist_fetch := FetchOutcome.Void,
    playlist_buffer := { readable := false, data := [] },
    retry_wait_signalled := false }

/-- An input under which the fragment fetch fails with "not authorized" and the
playlist refresh that follows completes with the text `#EXTM3U`. -/
def input_not_authorized : StreamLoopInput :=
  { input_completed with
    fetch := FetchOutcome.Failed
      { domain := GErrorDomain.GST_RESOURCE_ERROR, code := GST_RESOURCE_ERROR_NOT_AUTHORIZED }
    playlist_fetch := FetchOutcome.Completed 300 400 7
    playlist_buffer := buffer_extm3u }

/-- An input under which the fragment fetch fails with a generic error (a read
error of the resource) and no wait is cut short. -/
def input_failed : StreamLoopInput :=
  { input_completed with
    fetch := FetchOutcome.Failed { domain := GErrorDomain.GST_RESOURCE_ERROR, code := 9 } }

/-- An input under which the fragment fetch fails with "not found" (HTTP 404);
the playlist fetch, were it made, would complete with the text `#EXTM3U`. -/
def input_not_found : StreamLoopInput :=
  { input_not_authorized with
    fetch := FetchOutcome.Failed
      { domain := GErrorDomain.GST_RESOURCE_ERROR, code := GST_RESOURCE_ERROR_NOT_FOUND } }

/-- The values of `RETRY_TIME_BASE * (exp (k / 6.0) / M_E)` for `k = 0, .., 39` in
IEEE-754 double precision, converted to `GstClockTime`. -/
def exp_backoff_table : List Nat :=
  [183939720, 217299104, 256708559, 303265329, 358265655, 423240862, 500000000, 590680206,
   697806212, 824360635, 973867020, 1150487945, 1359140914, 1605635271, 1896833947,
   2240844535, 2647245025, 3127350475, 3694528049, 4364569181, 5156129250, 6091246980,
   7195958047, 8501019970, 10042768461, 11864129096, 14015812447, 16557725979, 19560641999,
   23108168107, 27299075016, 32250046532, 38098928286, 45008565650, 53171337699,
   62814513456, 74206579551, 87664715456, 103563624444, 122345966132]

/-- The environment `env_of p` with the retry timer expression taken from
`exp_backoff_table` (and a value above the cap beyond the table). -/
def env_double (p : SkippyM3UPlaylist) : Env :=
  { env_of p with exp_backoff := fun k => exp_backoff_table.getD k (2 * RETRY_MAX_TIME_UNTIL) }

/-- A TIME seek to `start` nanoseconds with the given flags, at rate 1.0, start
type SET and no stop. -/
def seek_event (start : Int) (flags : Nat) : GstSeekEvent :=
  { rate := 4607182418800017408, format := GstFormat.GST_FORMAT_TIME, flags := flags,
    start_type := GstSeekType.GST_SEEK_TYPE_SET, start := start,
    stop_type := GstSeekType.GST_SEEK_TYPE_NONE, stop := -1 }

/-- A stand-in for the AES block decryption in concrete runs: the identity on
blocks, under which the CBC plaintext is the ciphertext combined with the
preceding ciphertext block. -/
def nettle_id : Nettle := { aes_decrypt := fun _ block => block }

/-- Sixteen zero bytes. -/
def zeros16 : List Nat := List.replicate 16 0

/-- A complete VOD playlist without items: total duration 0. -/
def vod_empty : SkippyM3UPlaylist :=
  { uri := "http://host/list.m3u8", type := "vod", targetDuration := 10 * GST_SECOND,
    totalDuration := 0, isComplete := true, items := [] }

/-- The demuxer in PLAYING with `vod_empty` loaded and the src pad linked. -/
def demux_empty : SkippyHLSDemux :=
  { demux_abc 0 with client := { current_index := 0, playlist_raw := none, playlist := vod_empty } }

/-- The demuxer `demux_abc i` after three failed fetches in a row. -/
def demux_abc_failing (i : Nat) : SkippyHLSDemux :=
  { demux_abc i with download_failed_count := 3, continuing := true }

/-- Seven inputs, each with a fetch that fails with a generic error. -/
def failed7 : List StreamLoopInput :=
  [input_failed, input_failed, input_failed, input_failed, input_failed, input_failed,
   input_failed]

/-- The environment `env_of p` with the load result codes numbered in the order of
the public enum `GstSkippyHlsError`: invalid UTF-8 content 0, incomplete
playlist 1, no error 2. -/
def env_header (p : SkippyM3UPlaylist) : Env :=
  { env_of p with
    error_value := fun e =>
      match e with
      | SkippyHlsInternalError.PLAYLIST_INVALID_UTF_CONTENT => 0
      | SkippyHlsInternalError.PLAYLIST_INCOMPLETE => 1
      | SkippyHlsInternalError.NO_ERROR => 2 }

/-- The demuxer `demux_abc i` with the streaming task paused after six failed
fetches in a row. -/
def demux_abc_paused (i : Nat) : SkippyHLSDemux :=
  { demux_abc i with download_failed_count := 6, continuing := true,
                     stream_task := GstTaskState.GST_TASK_PAUSED }

/-- The demuxer `demux_abc i` with the streaming task running after six failed
fetches in a row. -/
def demux_abc_six_failures (i : Nat) : SkippyHLSDemux :=
  { demux_abc i with download_failed_count := 6, continuing := true }

/-- The demuxer `demux_abc i` after fragments up to 50 s have been fetched. -/
def demux_abc_ahead (i : Nat) : SkippyHLSDemux :=
  { demux_abc i with position := 50 * GST_SECOND }

/-- An input under which downstream reports the playback position 5 s and the
buffer duration is the default of 30 s. -/
def input_playing : StreamLoopInput :=
  { input_completed with position_query := some (5 * GST_SECOND) }

/-- The sixteen bytes of the text `0123456789abcdef`, used as a key. -/
def key16 : List Nat :=
  [48, 49, 50, 51, 52, 53, 54, 55, 56, 57, 97, 98, 99, 100, 101, 102]


/-! ## The playlist model: seeking and advancing -/

/-- When the loop of `skippy_m3u8_client_seek_to` hits, it hits at the first item,
counted from where it was entered, whose interval holds the target. -/
theorem seek_to_loop_some (t : Nat) (items : List SkippyM3UItem) (i j : Nat)
    (h : seek_to_loop t items i = some j) :
    ∃ (k : Nat) (item : SkippyM3UItem), j = i + k ∧ items[k]? = some item ∧ item.start ≤ t ∧ t < item.end_ ∧
      ∀ (m : Nat) (item' : SkippyM3UItem), m < k → items[m]? = some item' → ¬ (item'.start ≤ t ∧ t < item'.end_) := by
  induction items generalizing i with
  | nil => simp [seek_to_loop] at h
  | cons a rest ih =>
    unfold seek_to_loop at h
    by_cases hc : t ≥ a.start ∧ t < a.end_
    · rw [if_pos hc] at h
      refine ⟨0, a, ?_, by simp, hc.1, hc.2, ?_⟩
      · simpa using (Option.some.inj h).symm
      · intro m item' hm; omega
    · rw [if_neg hc] at h
      obtain ⟨k, item, hj, hget, h1, h2, hmin⟩ := ih (i + 1) h
      refine ⟨k + 1, item, by omega, by simpa using hget, h1, h2, ?_⟩
      intro m item' hm hget'
      cases m with
      | zero =>
        simp at hget'
        subst hget'
        exact hc
      | succ m =>
        simp at hget'
        exact hmin m item' (by omega) hget'

/-- The loop of `skippy_m3u8_client_seek_to` runs out exactly when no item it
visits holds the target. -/
theorem seek_to_loop_none (t : Nat) (items : List SkippyM3UItem) (i : Nat) :
    seek_to_loop t items i = none ↔
      ∀ (k : Nat) (item : SkippyM3UItem),
        items[k]? = some item → ¬ (item.start ≤ t ∧ t < item.end_) := by
  induction items generalizing i with
  | nil => simp [seek_to_loop]
  | cons a rest ih =>
    unfold seek_to_loop
    by_cases hc : t ≥ a.start ∧ t < a.end_
    · rw [if_pos hc]
      constructor
      · intro h; cases h
      · intro h; exact absurd hc (h 0 a (by simp))
    · rw [if_neg hc, ih (i + 1)]
      constructor
      · intro h k item hget
        cases k with
        | zero =>
          simp at hget
          subst hget
          exact hc
        | succ k =>
          simp at hget
          exact h k item hget
      · intro h k item hget
        exact h (k + 1) item (by simpa using hget)

/-- `GST_TIME_AS_NSECONDS` is the identity on clock times. -/
theorem GST_TIME_AS_NSECONDS_eq (t : Nat) : GST_TIME_AS_NSECONDS t = t := by
  simp [GST_TIME_AS_NSECONDS]

/-- `NANOSECONDS_TO_GST_TIME` is the identity on nanosecond counts. -/
theorem NANOSECONDS_TO_GST_TIME_eq (t : Nat) : NANOSECONDS_TO_GST_TIME t = t := by
  simp [NANOSECONDS_TO_GST_TIME, GST_NSECOND]

/-- With the cursor on an item, the current fragment is built from that item. -/
theorem get_current_fragment_of_getElem (client : SkippyM3U8ClientPrivate)
    (item : SkippyM3UItem)
    (h : client.playlist.items[client.current_index]? = some item) :
    skippy_m3u8_client_get_current_fragment client = some (fragment_of_item item) := by
  unfold skippy_m3u8_client_get_current_fragment
  obtain ⟨hlt, hget⟩ := List.getElem?_eq_some_iff.mp h
  have hn : ¬ client.current_index ≥ client.playlist.items.length := by omega
  rw [dif_neg hn]
  simp [List.get_eq_getElem, hget]

/-- The return value of `skippy_m3u8_client_seek_to` in terms of the items. -/
theorem seek_to_first_hit_iff (client : SkippyM3U8ClientPrivate) (T : Nat) :
    (skippy_m3u8_client_seek_to client T).1 = true ↔
      ∃ (i : Nat) (item : SkippyM3UItem),
        client.playlist.items[i]? = some item ∧ item.start ≤ T ∧ T < item.end_ := by
  unfold skippy_m3u8_client_seek_to
  simp only [GST_TIME_AS_NSECONDS_eq]
  cases hl : seek_to_loop T client.playlist.items 0 with
  | none =>
    have hn := (seek_to_loop_none T _ 0).mp hl
    refine ⟨fun h => by simp at h, ?_⟩
    rintro ⟨i, item, hget, h1, h2⟩
    exact absurd ⟨h1, h2⟩ (hn i item hget)
  | some j =>
    obtain ⟨k, item, hj, hget, h1, h2, -⟩ := seek_to_loop_some T _ 0 j hl
    have hjk : j = k := by omega
    subst hjk
    exact ⟨fun _ => ⟨j, item, hget, h1, h2⟩, fun _ => rfl⟩

/-- A call of `skippy_m3u8_client_seek_to` either stores the index of an item and
returns `TRUE`, or changes nothing and returns `FALSE`. -/
theorem seek_to_cases (client : SkippyM3U8ClientPrivate) (T : Nat) :
    (∃ j : Nat, j < client.playlist.items.length ∧
      skippy_m3u8_client_seek_to client T = (true, { client with current_index := j })) ∨
    skippy_m3u8_client_seek_to client T = (false, client) := by
  unfold skippy_m3u8_client_seek_to
  simp only [GST_TIME_AS_NSECONDS_eq]
  cases hl : seek_to_loop T client.playlist.items 0 with
  | none => exact Or.inr rfl
  | some j =>
    obtain ⟨k, item, hj, hget, -, -, -⟩ := seek_to_loop_some T _ 0 j hl
    have hjk : j = k := by omega
    subst hjk
    exact Or.inl ⟨j, (List.getElem?_eq_some_iff.mp hget).1, rfl⟩

/-- The cursor is not touched by `skippy_m3u8_client_load_playlist`. -/
theorem load_playlist_current_index (env : Env) (client : SkippyM3U8ClientPrivate)
    (uri : Option String) (buf : GstBuffer) :
    (skippy_m3u8_client_load_playlist env client uri buf).2.current_index
      = client.current_index := by
  unfold skippy_m3u8_client_load_playlist
  split
  · rfl
  · simp only; split <;> rfl

/-- The playlist is only replaced by a `skippy_m3u8_client_load_playlist` that
returns `NO_ERROR`. -/
theorem load_playlist_playlist_of_ne (env : Env) (client : SkippyM3U8ClientPrivate)
    (uri : Option String) (buf : GstBuffer)
    (h : (skippy_m3u8_client_load_playlist env client uri buf).1
      ≠ SkippyHlsInternalError.NO_ERROR) :
    (skippy_m3u8_client_load_playlist env client uri buf).2.playlist = client.playlist := by
  revert h
  unfold skippy_m3u8_client_load_playlist
  split
  · intro _; rfl
  · simp only; split
    · intro _; rfl
    · intro hne; exact absurd rfl hne


/-- C1. After a call of `skippy_m3u8_client_seek_to` with target `T` that returns
`TRUE`, `skippy_m3u8_client_get_current_fragment` returns a fragment (not
`NULL`) whose interval contains the target: `start_time ≤ T < stop_time`.
This holds for every target, so in particular for `0 ≤ T < total_duration`. -/
theorem seek_to_current_fragment_contains_target (client : SkippyM3U8ClientPrivate)
    (T : Nat) (h : (skippy_m3u8_client_seek_to client T).1 = true) :
    ∃ fragment : SkippyFragment,
      skippy_m3u8_client_get_current_fragment (skippy_m3u8_client_seek_to client T).2
        = some fragment ∧
      fragment.start_time ≤ T ∧ T < fragment.stop_time := by
  unfold skippy_m3u8_client_seek_to at h ⊢
  simp only [GST_TIME_AS_NSECONDS_eq] at h ⊢
  cases hl : seek_to_loop T client.playlist.items 0 with
  | none => rw [hl] at h; simp at h
  | some j =>
    obtain ⟨k, item, hj, hget, h1, h2, -⟩ := seek_to_loop_some T _ 0 j hl
    have hjk : j = k := by omega
    subst hjk
    refine ⟨fragment_of_item item, ?_, ?_, ?_⟩
    · exact get_current_fragment_of_getElem _ item hget
    · simpa [fragment_of_item, NANOSECONDS_TO_GST_TIME_eq] using h1
    · simpa [fragment_of_item, NANOSECONDS_TO_GST_TIME_eq] using h2

/-- C1, on the three-item VOD playlist: seeking to 15 s succeeds and the current
fragment then contains 15 s. -/
theorem seek_to_current_fragment_contains_target_witness :
    (skippy_m3u8_client_seek_to (client_abc 0) (15 * GST_SECOND)).1 = true ∧
    ∃ fragment : SkippyFragment,
      skippy_m3u8_client_get_current_fragment
        (skippy_m3u8_client_seek_to (client_abc 0) (15 * GST_SECOND)).2 = some fragment ∧
      fragment.start_time ≤ 15 * GST_SECOND ∧ 15 * GST_SECOND < fragment.stop_time :=
  ⟨by decide, seek_to_current_fragment_contains_target (client_abc 0) (15 * GST_SECOND)
    (by decide)⟩

/-- C2. `skippy_m3u8_client_seek_to (T)` returns `TRUE` exactly when some item `i`
has `items[i].start ≤ T < items[i].end`; in that case the cursor becomes the
smallest such index (and nothing else in the model changes), and when it
returns `FALSE` the whole model, the cursor included, is left unchanged. -/
theorem seek_to_first_hit (client : SkippyM3U8ClientPrivate) (T : Nat) :
    ((skippy_m3u8_client_seek_to client T).1 = true ↔
      ∃ (i : Nat) (item : SkippyM3UItem),
        client.playlist.items[i]? = some item ∧ item.start ≤ T ∧ T < item.end_) ∧
    ((skippy_m3u8_client_seek_to client T).1 = true →
      (∃ item : SkippyM3UItem,
        client.playlist.items[(skippy_m3u8_client_seek_to client T).2.current_index]?
          = some item ∧ item.start ≤ T ∧ T < item.end_) ∧
      (∀ (j : Nat) (item' : SkippyM3UItem),
        j < (skippy_m3u8_client_seek_to client T).2.current_index →
        client.playlist.items[j]? = some item' → ¬ (item'.start ≤ T ∧ T < item'.end_)) ∧
      (skippy_m3u8_client_seek_to client T).2.playlist = client.playlist ∧
      (skippy_m3u8_client_seek_to client T).2.playlist_raw = client.playlist_raw) ∧
    ((skippy_m3u8_client_seek_to client T).1 = false →
      (skippy_m3u8_client_seek_to client T).2 = client) := by
  unfold skippy_m3u8_client_seek_to
  simp only [GST_TIME_AS_NSECONDS_eq]
  cases hl : seek_to_loop T client.playlist.items 0 with
  | none =>
    have hn := (seek_to_loop_none T _ 0).mp hl
    refine ⟨⟨fun h => by simp at h, ?_⟩, fun h => by simp at h, fun _ => rfl⟩
    rintro ⟨i, item, hget, h1, h2⟩
    exact absurd ⟨h1, h2⟩ (hn i item hget)
  | some j =>
    obtain ⟨k, item, hj, hget, h1, h2, hmin⟩ := seek_to_loop_some T _ 0 j hl
    have hjk : j = k := by omega
    subst hjk
    refine ⟨⟨fun _ => ⟨j, item, hget, h1, h2⟩, fun _ => rfl⟩, fun _ => ?_, fun h => by simp at h⟩
    exact ⟨⟨item, hget, h1, h2⟩, hmin, rfl, rfl⟩

/-- Under contiguity and `start ≤ end` for every item, no item ends after the
last one. -/
theorem end_le_last_end (items : List SkippyM3UItem) (hne : items ≠ [])
    (hc : contiguous items) (hord : ∀ item ∈ items, item.start ≤ item.end_)
    (k : Nat) (item : SkippyM3UItem) (hget : items[k]? = some item) :
    item.end_ ≤ (items.getLast hne).end_ := by
  induction items generalizing k item with
  | nil => exact absurd rfl hne
  | cons a rest ih =>
    cases rest with
    | nil =>
      cases k with
      | zero => simp at hget; subst hget; simp
      | succ k => simp at hget
    | cons b r =>
      have hc2 : contiguous (b :: r) := hc.2
      have hord2 : ∀ item ∈ b :: r, item.start ≤ item.end_ :=
        fun x hx => hord x (List.mem_cons_of_mem _ hx)
      have hlast : (a :: b :: r).getLast hne = (b :: r).getLast (by simp) := by
        simp [List.getLast_cons]
      rw [hlast]
      cases k with
      | zero =>
        simp at hget
        subst hget
        have hb := ih (by simp) hc2 hord2 0 b (by simp)
        have hb2 := hord b (by simp)
        have := hc.1
        omega
      | succ k =>
        simp at hget
        exact ih (by simp) hc2 hord2 k item (by simpa using hget)

/-- In a contiguous item list, every time from the first start up to (not
including) the last end lies in the interval of some item. -/
theorem exists_hit_of_contiguous (T : Nat) (items : List SkippyM3UItem) (hne : items ≠ [])
    (hc : contiguous items) (h0 : (items.head hne).start ≤ T)
    (hT : T < (items.getLast hne).end_) :
    ∃ (i : Nat) (item : SkippyM3UItem),
      items[i]? = some item ∧ item.start ≤ T ∧ T < item.end_ := by
  induction items with
  | nil => exact absurd rfl hne
  | cons a rest ih =>
    by_cases ha : T < a.end_
    · exact ⟨0, a, by simp, by simpa using h0, ha⟩
    · cases rest with
      | nil => simp at hT; omega
      | cons b r =>
        have hlast : (a :: b :: r).getLast hne = (b :: r).getLast (by simp) := by
          simp [List.getLast_cons]
        rw [hlast] at hT
        have hb : ((b :: r).head (by simp)).start ≤ T := by
          have := hc.1
          simp
          omega
        obtain ⟨i, item, hget, h1, h2⟩ := ih (by simp) hc.2 hb hT
        exact ⟨i + 1, item, by simpa using hget, h1, h2⟩

/-- C3, as stated, fails: `playlist_backwards` is non-empty and contiguous, starts
at 0 and its last item ends at the total duration 5, yet
`skippy_m3u8_client_seek_to (7)` returns `TRUE` (7 lies in the first item,
`[0, 10)`) although 7 is not below the total duration. -/
theorem seek_to_hit_at_or_after_total_duration :
    ∃ hne : client_backwards.playlist.items ≠ [],
      contiguous client_backwards.playlist.items ∧
      (client_backwards.playlist.items.head hne).start = 0 ∧
      (client_backwards.playlist.items.getLast hne).end_
        = skippy_m3u8_client_get_total_duration client_backwards ∧
      (skippy_m3u8_client_seek_to client_backwards 7).1 = true ∧
      ¬ (7 < skippy_m3u8_client_get_total_duration client_backwards) :=
  ⟨by decide, ⟨rfl, trivial⟩, rfl, rfl, by decide, by decide⟩

/-- C3, amended. For every non-empty playlist whose items are contiguous, with
`items[0].start == 0` and the last item ending at `total_duration`:
`skippy_m3u8_client_seek_to (T)` returns `TRUE` for every `T < total_duration`;
and when in addition every item has `start ≤ end`, it returns `TRUE` if and
only if `T < total_duration`. -/
theorem seek_to_true_iff_lt_total_duration (client : SkippyM3U8ClientPrivate) (T : Nat)
    (hne : client.playlist.items ≠ [])
    (hc : contiguous client.playlist.items)
    (h0 : (client.playlist.items.head hne).start = 0)
    (hlast : (client.playlist.items.getLast hne).end_
      = skippy_m3u8_client_get_total_duration client) :
    (T < skippy_m3u8_client_get_total_duration client →
      (skippy_m3u8_client_seek_to client T).1 = true) ∧
    ((∀ item ∈ client.playlist.items, item.start ≤ item.end_) →
      ((skippy_m3u8_client_seek_to client T).1 = true ↔
        T < skippy_m3u8_client_get_total_duration client)) := by
  have hhit : T < skippy_m3u8_client_get_total_duration client →
      (skippy_m3u8_client_seek_to client T).1 = true := by
    intro hT
    rw [seek_to_first_hit_iff client T]
    rw [← hlast] at hT
    exact exists_hit_of_contiguous T _ hne hc (by omega) hT
  refine ⟨hhit, fun hord => ⟨?_, hhit⟩⟩
  rw [seek_to_first_hit_iff client T, ← hlast]
  rintro ⟨i, item, hget, -, h2⟩
  exact lt_of_lt_of_le h2 (end_le_last_end _ hne hc hord i item hget)

/-- C3, amended, on the three-item VOD playlist with target 15 s. -/
theorem seek_to_true_iff_lt_total_duration_witness :
    ((skippy_m3u8_client_seek_to (client_abc 0) (15 * GST_SECOND)).1 = true ↔
      15 * GST_SECOND < skippy_m3u8_client_get_total_duration (client_abc 0)) ∧
    (skippy_m3u8_client_seek_to (client_abc 0) (15 * GST_SECOND)).1 = true :=
  ⟨(seek_to_true_iff_lt_total_duration (client_abc 0) (15 * GST_SECOND) (by decide)
      ⟨rfl, rfl, trivial⟩ rfl rfl).2 (by decide),
   by decide⟩

/-- C4. In a state with `cursor ≤ len`, `skippy_m3u8_client_advance_to_next_fragment`
sets the cursor to `min (cursor + 1, len)` and changes nothing else (items,
uri, durations, type, retained raw text). -/
theorem advance_to_next_fragment_min (client : SkippyM3U8ClientPrivate)
    (h : client.current_index ≤ client.playlist.items.length) :
    skippy_m3u8_client_advance_to_next_fragment client =
      { client with
        current_index := min (client.current_index + 1) client.playlist.items.length } := by
  unfold skippy_m3u8_client_advance_to_next_fragment
  by_cases hlt : client.current_index < client.playlist.items.length
  · rw [if_pos hlt, Nat.min_eq_left (by omega)]
  · rw [if_neg hlt]
    have : client.current_index = client.playlist.items.length := by omega
    rw [Nat.min_eq_right (by omega)]
    cases client
    simp_all

/-- C4 at the end of the three-item playlist: the cursor stays at 3. -/
theorem advance_to_next_fragment_min_witness :
    (client_abc 3).current_index ≤ (client_abc 3).playlist.items.length ∧
    skippy_m3u8_client_advance_to_next_fragment (client_abc 3) =
      { client_abc 3 with
        current_index :=
          min ((client_abc 3).current_index + 1) (client_abc 3).playlist.items.length } :=
  ⟨by decide, advance_to_next_fragment_min (client_abc 3) (by decide)⟩

/-- C5, as stated, fails for `skippy_m3u8_client_load_playlist`: with the cursor at
3 in the three-item playlist (invariant holds), a successful load of the
two-item playlist `vod_ab` leaves the cursor at 3, above the new length 2. -/
theorem load_playlist_breaks_cursor_inv :
    cursor_inv (client_abc 3) ∧
    (skippy_m3u8_client_load_playlist (env_of vod_ab) (client_abc 3) none buffer_extm3u).1
      = SkippyHlsInternalError.NO_ERROR ∧
    ¬ cursor_inv
      (skippy_m3u8_client_load_playlist (env_of vod_ab) (client_abc 3) none buffer_extm3u).2 := by
  decide

/-- C5, amended. The cursor invariant `0 ≤ cursor ≤ len` holds in the freshly
constructed model and is preserved by
`skippy_m3u8_client_advance_to_next_fragment` and `skippy_m3u8_client_seek_to`.
`skippy_m3u8_client_load_playlist` never changes the cursor, so it preserves
the invariant whenever it does not return `NO_ERROR`, and also when the
playlist it installs has at least `cursor` items. -/
theorem cursor_inv_preserved :
    cursor_inv skippy_m3u8_client_new ∧
    (∀ client : SkippyM3U8ClientPrivate, cursor_inv client →
      cursor_inv (skippy_m3u8_client_advance_to_next_fragment client)) ∧
    (∀ (client : SkippyM3U8ClientPrivate) (T : Nat), cursor_inv client →
      cursor_inv (skippy_m3u8_client_seek_to client T).2) ∧
    (∀ (env : Env) (client : SkippyM3U8ClientPrivate) (uri : Option String)
      (buf : GstBuffer),
      (skippy_m3u8_client_load_playlist env client uri buf).2.current_index
        = client.current_index) ∧
    (∀ (env : Env) (client : SkippyM3U8ClientPrivate) (uri : Option String)
      (buf : GstBuffer), cursor_inv client →
      ((skippy_m3u8_client_load_playlist env client uri buf).1
          ≠ SkippyHlsInternalError.NO_ERROR ∨
        client.current_index ≤
          (skippy_m3u8_client_load_playlist env client uri buf).2.playlist.items.length) →
      cursor_inv (skippy_m3u8_client_load_playlist env client uri buf).2) := by
  refine ⟨by decide, ?_, ?_, ?_, ?_⟩
  · intro client h
    unfold cursor_inv at h ⊢
    unfold skippy_m3u8_client_advance_to_next_fragment
    split
    · simp only; omega
    · exact h
  · intro client T h
    rcases seek_to_cases client T with ⟨j, hj, heq⟩ | heq
    · rw [heq]; exact le_of_lt hj
    · rw [heq]; exact h
  · intro env client uri buf
    exact load_playlist_current_index env client uri buf
  · intro env client uri buf h hor
    unfold cursor_inv at h ⊢
    rw [load_playlist_current_index]
    rcases hor with hne | hle
    · rw [load_playlist_playlist_of_ne env client uri buf hne]; exact h
    · exact hle

/-- C5, amended, at work: advancing, seeking and a failing load keep the cursor of
the three-item playlist within bounds. -/
theorem cursor_inv_preserved_witness :
    cursor_inv (skippy_m3u8_client_advance_to_next_fragment (client_abc 3)) ∧
    cursor_inv (skippy_m3u8_client_seek_to (client_abc 3) (15 * GST_SECOND)).2 ∧
    cursor_inv
      (skippy_m3u8_client_load_playlist (env_of vod_ab) (client_abc 3) none buffer_ff).2 :=
  ⟨cursor_inv_preserved.2.1 (client_abc 3) (by decide),
   cursor_inv_preserved.2.2.1 (client_abc 3) (15 * GST_SECOND) (by decide),
   cursor_inv_preserved.2.2.2.2 (env_of vod_ab) (client_abc 3) none buffer_ff (by decide)
     (Or.inl (by decide))⟩

/-- C6, as stated, fails: loading the valid text `#EXTM3U`, whose parse is not
complete, returns `PLAYLIST_INCOMPLETE` and replaces the retained raw text
(before: none; after: the new text), so the state is not the one before the
call. -/
theorem load_playlist_incomplete_replaces_raw :
    (skippy_m3u8_client_load_playlist (env_of vod_abc_incomplete) (client_abc 1) none
      buffer_extm3u).1 = SkippyHlsInternalError.PLAYLIST_INCOMPLETE ∧
    skippy_m3u8_client_get_current_raw_data (client_abc 1) = none ∧
    skippy_m3u8_client_get_current_raw_data
      (skippy_m3u8_client_load_playlist (env_of vod_abc_incomplete) (client_abc 1) none
        buffer_extm3u).2 = some (bytes_extm3u ++ [0]) ∧
    (skippy_m3u8_client_load_playlist (env_of vod_abc_incomplete) (client_abc 1) none
      buffer_extm3u).2 ≠ client_abc 1 := by
  decide

/-- C6, amended. Whenever `skippy_m3u8_client_load_playlist` does not return
`NO_ERROR`, the loaded playlist and the cursor are the same as before the
call. When it returns `PLAYLIST_INVALID_UTF_CONTENT` the whole state,
retained raw text included, is unchanged; when it returns
`PLAYLIST_INCOMPLETE` the retained raw text is the zero-terminated copy of
the new buffer. -/
theorem load_playlist_failure_frame (env : Env) (client : SkippyM3U8ClientPrivate)
    (uri : Option String) (buf : GstBuffer)
    (h : (skippy_m3u8_client_load_playlist env client uri buf).1
      ≠ SkippyHlsInternalError.NO_ERROR) :
    (skippy_m3u8_client_load_playlist env client uri buf).2.playlist = client.playlist ∧
    (skippy_m3u8_client_load_playlist env client uri buf).2.current_index
      = client.current_index ∧
    ((skippy_m3u8_client_load_playlist env client uri buf).1
        = SkippyHlsInternalError.PLAYLIST_INVALID_UTF_CONTENT →
      (skippy_m3u8_client_load_playlist env client uri buf).2 = client) ∧
    ((skippy_m3u8_client_load_playlist env client uri buf).1
        = SkippyHlsInternalError.PLAYLIST_INCOMPLETE →
      skippy_m3u8_client_get_current_raw_data
        (skippy_m3u8_client_load_playlist env client uri buf).2 = some (buf.data ++ [0])) := by
  refine ⟨load_playlist_playlist_of_ne env client uri buf h,
    load_playlist_current_index env client uri buf, ?_, ?_⟩
  · unfold skippy_m3u8_client_load_playlist
    split
    · intro _; rfl
    · simp only; split <;> intro hc <;> cases hc
  · unfold skippy_m3u8_client_load_playlist buf_to_utf8_playlist
    split
    · intro hc; cases hc
    · next playlist heq =>
      simp only
      split
      · intro _
        revert heq
        simp only [skippy_m3u8_client_get_current_raw_data]
        split
        · intro hc; cases hc
        · split
          · intro hc; cases hc
          · intro hc; exact hc.symm ▸ rfl
      · intro hc; cases hc

/-- C6, amended, on a load of the non-UTF-8 byte `0xFF`: it fails and the state is
the one before the call. -/
theorem load_playlist_failure_frame_witness :
    (skippy_m3u8_client_load_playlist (env_of vod_abc) (client_abc 1) none buffer_ff).1
      ≠ SkippyHlsInternalError.NO_ERROR ∧
    (skippy_m3u8_client_load_playlist (env_of vod_abc) (client_abc 1) none buffer_ff).2
      = client_abc 1 :=
  ⟨by decide,
   (load_playlist_failure_frame (env_of vod_abc) (client_abc 1) none buffer_ff
     (by decide)).2.2.1 (by decide)⟩

/-- C7. `skippy_m3u8_client_load_playlist` returns `NO_ERROR` if and only if the
buffer is valid UTF-8 (it can be read and its bytes pass `g_utf8_validate`)
and the parser's result for it has `isComplete` set; in that case the
playlist of the model afterwards is the parser's result for the uri and the
text of the buffer, where a `NULL` uri stands for the uri of the previously
loaded playlist. It returns `PLAYLIST_INVALID_UTF_CONTENT` exactly when the
buffer is not valid UTF-8, and `PLAYLIST_INCOMPLETE` exactly for valid UTF-8
whose parse is not complete. -/
theorem load_playlist_result (env : Env) (client : SkippyM3U8ClientPrivate)
    (uri : Option String) (buf : GstBuffer) :
    ((skippy_m3u8_client_load_playlist env client uri buf).1 = SkippyHlsInternalError.NO_ERROR ↔
      (buf.readable = true ∧ env.g_utf8_validate buf.data = true) ∧
      (env.parse (uri.getD client.playlist.uri) (c_string (buf.data ++ [0]))).isComplete
        = true) ∧
    ((skippy_m3u8_client_load_playlist env client uri buf).1 = SkippyHlsInternalError.NO_ERROR →
      (skippy_m3u8_client_load_playlist env client uri buf).2.playlist
        = env.parse (uri.getD client.playlist.uri) (c_string (buf.data ++ [0]))) ∧
    ((skippy_m3u8_client_load_playlist env client uri buf).1
        = SkippyHlsInternalError.PLAYLIST_INVALID_UTF_CONTENT ↔
      ¬ (buf.readable = true ∧ env.g_utf8_validate buf.data = true)) ∧
    ((skippy_m3u8_client_load_playlist env client uri buf).1
        = SkippyHlsInternalError.PLAYLIST_INCOMPLETE ↔
      (buf.readable = true ∧ env.g_utf8_validate buf.data = true) ∧
      (env.parse (uri.getD client.playlist.uri) (c_string (buf.data ++ [0]))).isComplete
        = false) := by
  have huri : (match uri with
      | some u => u
      | none => client.playlist.uri) = uri.getD client.playlist.uri := by
    cases uri <;> rfl
  unfold skippy_m3u8_client_load_playlist buf_to_utf8_playlist
  rw [huri]
  cases hr : buf.readable <;> cases hv : env.g_utf8_validate buf.data <;>
    cases hp : (env.parse (uri.getD client.playlist.uri)
      (c_string (buf.data ++ [0]))).isComplete <;> simp [hp]

/-! ## The streaming task -/

/-- When the buffer-ahead check lets the fetch proceed it has changed nothing. -/
theorem check_buffer_ahead_pass (demux : SkippyHLSDemux) (inp : StreamLoopInput)
    (h : (skippy_hls_check_buffer_ahead demux inp).1 = true) :
    (skippy_hls_check_buffer_ahead demux inp).2 = demux := by
  revert h
  unfold skippy_hls_check_buffer_ahead
  split
  · intro h; cases h
  · split
    · intro _; rfl
    · simp only
      split
      · intro h; cases h
      · intro _; rfl

/-- The buffer-ahead check never touches the playlist model. -/
theorem check_buffer_ahead_client (demux : SkippyHLSDemux) (inp : StreamLoopInput) :
    (skippy_hls_check_buffer_ahead demux inp).2.client = demux.client := by
  unfold skippy_hls_check_buffer_ahead
  split
  · rfl
  · split
    · rfl
    · simp only
      split
      · unfold skippy_hls_stream_loop_wait_locked
        split <;> rfl
      · rfl

/-- A timed wait never touches the playlist model. -/
theorem wait_locked_client (demux : SkippyHLSDemux) (max_wait : Nat) (signalled : Bool) :
    (skippy_hls_stream_loop_wait_locked demux max_wait signalled).client = demux.client := by
  unfold skippy_hls_stream_loop_wait_locked
  split <;> rfl

/-- A playlist refresh leaves the cursor where it is. -/
theorem refresh_playlist_current_index (env : Env) (demux : SkippyHLSDemux)
    (inp : StreamLoopInput) :
    (skippy_hls_demux_refresh_playlist env demux inp).2.client.current_index
      = demux.client.current_index := by
  unfold skippy_hls_demux_refresh_playlist
  simp only
  split
  · split
    · exact load_playlist_current_index _ _ _ _
    · exact load_playlist_current_index _ _ _ _
  · rfl
  · rfl
  · rfl

/-- The fetch step never touches the playlist model. -/
theorem stream_loop_fetch_client (demux : SkippyHLSDemux) (inp : StreamLoopInput) :
    (stream_loop_fetch demux inp).demux.client = demux.client := by
  unfold stream_loop_fetch
  split <;> rfl

/-- The fetch step reports `SKIPPY_URI_DOWNLOADER_COMPLETED` only after fetching
the current fragment with a completed outcome. -/
theorem stream_loop_fetch_completed (demux : SkippyHLSDemux) (inp : StreamLoopInput)
    (h : (stream_loop_fetch demux inp).fetch_ret
      = SkippyUriDownloaderFetchReturn.SKIPPY_URI_DOWNLOADER_COMPLETED) :
    ∃ (fragment : SkippyFragment) (t0 t1 size : Nat),
      skippy_m3u8_client_get_current_fragment demux.client = some fragment ∧
      inp.fetch = FetchOutcome.Completed t0 t1 size := by
  revert h
  unfold stream_loop_fetch
  cases hf : skippy_m3u8_client_get_current_fragment demux.client with
  | none => intro h; cases h
  | some fragment =>
    simp only
    cases hi : inp.fetch with
    | Completed t0 t1 size => intro _; exact ⟨fragment, t0, t1, size, rfl, rfl⟩
    | Failed e => intro h; cases h
    | Cancelled => intro h; cases h
    | Void => intro h; cases h

/-- What `stream_loop_fetch_ret` being "completed" says about the run. -/
theorem fetch_ret_completed_inv (demux : SkippyHLSDemux) (inp : StreamLoopInput)
    (h : stream_loop_fetch_ret demux inp
      = some SkippyUriDownloaderFetchReturn.SKIPPY_URI_DOWNLOADER_COMPLETED) :
    (skippy_hls_check_buffer_ahead demux inp).1 = true ∧
    ∃ (fragment : SkippyFragment) (t0 t1 size : Nat),
      skippy_m3u8_client_get_current_fragment demux.client = some fragment ∧
      inp.fetch = FetchOutcome.Completed t0 t1 size := by
  unfold stream_loop_fetch_ret at h
  simp only at h
  cases hg : (skippy_hls_check_buffer_ahead demux inp).1 with
  | false => rw [hg] at h; simp at h
  | true =>
    rw [hg] at h
    simp only [Bool.not_true, Bool.false_eq_true, if_false, Option.some.injEq] at h
    rw [check_buffer_ahead_pass demux inp hg] at h
    exact ⟨rfl, stream_loop_fetch_completed demux inp h⟩

/-- The state after a run that fetches `fragment` with a completed outcome. -/
theorem stream_loop_of_completed (env : Env) (demux : SkippyHLSDemux) (inp : StreamLoopInput)
    (fragment : SkippyFragment) (t0 t1 size : Nat)
    (hg : (skippy_hls_check_buffer_ahead demux inp).1 = true)
    (hf : skippy_m3u8_client_get_current_fragment demux.client = some fragment)
    (hi : inp.fetch = FetchOutcome.Completed t0 t1 size) :
    skippy_hls_demux_stream_loop env demux inp =
      { demux with
        position := fragment.start_time
        download_failed_count := 0
        continuing := false
        client := skippy_m3u8_client_advance_to_next_fragment demux.client
        effects := demux.effects ++
          [Effect.fetch_fragment Downloader.downloader fragment
             (skippy_m3u8_client_get_uri demux.client) false false true,
           Effect.post_stat_msg SkippyHLSDemuxStats.STAT_TIME_TO_DOWNLOAD_FRAGMENT
             (sub64 t1 t0) size] } := by
  unfold skippy_hls_demux_stream_loop
  simp only [hg, check_buffer_ahead_pass demux inp hg, Bool.not_true, Bool.false_eq_true,
    if_false]
  simp [stream_loop_fetch, hf, hi, stream_loop_handle_result, FetchOutcome.fetch_ret,
    FetchOutcome.err, FetchOutcome.fill, skippy_hls_demux_post_stat_msg, SkippyHLSDemux.emit,
    skippy_hls_demux_is_caching_allowed, skippy_m3u8_client_is_caching_allowed]

/-- A current fragment exists only below the end of the playlist. -/
theorem current_index_lt_of_fragment (client : SkippyM3U8ClientPrivate)
    (fragment : SkippyFragment)
    (h : skippy_m3u8_client_get_current_fragment client = some fragment) :
    client.current_index < client.playlist.items.length := by
  unfold skippy_m3u8_client_get_current_fragment at h
  split at h
  · cases h
  · omega

/-- There is no current fragment at or after the end of the playlist. -/
theorem current_fragment_none_of_le (client : SkippyM3U8ClientPrivate)
    (h : client.playlist.items.length ≤ client.current_index) :
    skippy_m3u8_client_get_current_fragment client = none := by
  unfold skippy_m3u8_client_get_current_fragment
  rw [dif_pos h]

/-- The state after a run that passes the buffer-ahead check and finds no current
fragment: the end-of-playlist path, without a fetch. -/
theorem stream_loop_of_no_fragment (env : Env) (demux : SkippyHLSDemux) (inp : StreamLoopInput)
    (hg : (skippy_hls_check_buffer_ahead demux inp).1 = true)
    (hf : skippy_m3u8_client_get_current_fragment demux.client = none) :
    skippy_hls_demux_stream_loop env demux inp =
      { demux with
        position := 0
        stream_task := GstTaskState.GST_TASK_PAUSED
        effects := demux.effects ++ [Effect.task_pause, Effect.send_event QueueEvent.eos] } := by
  unfold skippy_hls_demux_stream_loop
  simp only [hg, check_buffer_ahead_pass demux inp hg, Bool.not_true, Bool.false_eq_true,
    if_false]
  simp [stream_loop_fetch, hf, stream_loop_handle_result, skippy_hls_handle_end_of_playlist,
    gst_task_pause, SkippyHLSDemux.emit]

/-- Along completed runs the playlist stays the same and the cursor rises by one
per run, staying within the playlist. -/
theorem stream_loop_run_all_completed (env : Env) (inps : List StreamLoopInput)
    (demux : SkippyHLSDemux)
    (hinv : demux.client.current_index ≤ demux.client.playlist.items.length)
    (hall : all_completed env demux inps) :
    (stream_loop_run env demux inps).client.playlist = demux.client.playlist ∧
    (stream_loop_run env demux inps).client.current_index
      = demux.client.current_index + inps.length ∧
    demux.client.current_index + inps.length ≤ demux.client.playlist.items.length := by
  induction inps generalizing demux with
  | nil => exact ⟨rfl, rfl, hinv⟩
  | cons inp rest ih =>
    obtain ⟨h1, hrest⟩ := hall
    obtain ⟨hg, fragment, t0, t1, size, hf, hi⟩ := fetch_ret_completed_inv demux inp h1
    have hlt := current_index_lt_of_fragment demux.client fragment hf
    have hstep := stream_loop_of_completed env demux inp fragment t0 t1 size hg hf hi
    have hpl : (skippy_hls_demux_stream_loop env demux inp).client.playlist
        = demux.client.playlist := by
      rw [hstep]
      simp only [skippy_m3u8_client_advance_to_next_fragment, if_pos hlt]
    have hcur : (skippy_hls_demux_stream_loop env demux inp).client.current_index
        = demux.client.current_index + 1 := by
      rw [hstep]
      simp only [skippy_m3u8_client_advance_to_next_fragment, if_pos hlt]
    obtain ⟨hp, hc, hle⟩ := ih (skippy_hls_demux_stream_loop env demux inp)
      (by rw [hpl, hcur]; omega) hrest
    rw [hpl] at hp hle
    rw [hcur] at hc hle
    simp only [stream_loop_run, List.length_cons]
    exact ⟨hp, by omega, by omega⟩

/-- A prefix of completed runs consists of completed runs. -/
theorem all_completed_take (env : Env) (inps : List StreamLoopInput) (demux : SkippyHLSDemux)
    (hall : all_completed env demux inps) (k : Nat) :
    all_completed env demux (inps.take k) := by
  induction inps generalizing demux k with
  | nil => simpa using hall
  | cons inp rest ih =>
    cases k with
    | zero => exact trivial
    | succ k => exact ⟨hall.1, ih _ hall.2 k⟩

/-- With the src pad linked and `continuing` set, the buffer-ahead check lets the
fetch proceed at once. -/
theorem check_buffer_ahead_continuing (demux : SkippyHLSDemux) (inp : StreamLoopInput)
    (hpad : demux.srcpad = true) (hc : demux.continuing = true) :
    skippy_hls_check_buffer_ahead demux inp = (true, demux) := by
  unfold skippy_hls_check_buffer_ahead
  simp [hpad, hc]

/-- The fetch step when there is a current fragment. -/
theorem stream_loop_fetch_of_fragment (demux : SkippyHLSDemux) (inp : StreamLoopInput)
    (fragment : SkippyFragment)
    (hf : skippy_m3u8_client_get_current_fragment demux.client = some fragment) :
    (stream_loop_fetch demux inp).demux.effects
      = demux.effects ++ [Effect.fetch_fragment Downloader.downloader fragment
          (skippy_m3u8_client_get_uri demux.client) false false true] ∧
    (stream_loop_fetch demux inp).fetch_ret = inp.fetch.fetch_ret ∧
    (stream_loop_fetch demux inp).err = inp.fetch.err := by
  unfold stream_loop_fetch
  rw [hf]
  exact ⟨rfl, rfl, rfl⟩

/-- C8. In a run of the streaming task function whose fragment fetch returns
`SKIPPY_URI_DOWNLOADER_COMPLETED` (for the current fragment `fragment`, with
download times `t0`, `t1` and size `size`), the state afterwards has
`position` equal to the start time of the fetched fragment,
`download_failed_count == 0`, `continuing == FALSE`, the playlist model
advanced by `skippy_m3u8_client_advance_to_next_fragment`
(`cursor = min (cursor + 1, len)`), and the trace has grown by the fetch and
one statistics message carrying the download time `t1 - t0` and the size. -/
theorem stream_loop_completed (env : Env) (demux : SkippyHLSDemux) (inp : StreamLoopInput)
    (h : stream_loop_fetch_ret demux inp
      = some SkippyUriDownloaderFetchReturn.SKIPPY_URI_DOWNLOADER_COMPLETED) :
    ∃ (fragment : SkippyFragment) (t0 t1 size : Nat),
      skippy_m3u8_client_get_current_fragment demux.client = some fragment ∧
      inp.fetch = FetchOutcome.Completed t0 t1 size ∧
      (skippy_hls_demux_stream_loop env demux inp).position = fragment.start_time ∧
      (skippy_hls_demux_stream_loop env demux inp).download_failed_count = 0 ∧
      (skippy_hls_demux_stream_loop env demux inp).continuing = false ∧
      (skippy_hls_demux_stream_loop env demux inp).client
        = skippy_m3u8_client_advance_to_next_fragment demux.client ∧
      (skippy_hls_demux_stream_loop env demux inp).client.current_index
        = min (demux.client.current_index + 1) demux.client.playlist.items.length ∧
      (skippy_hls_demux_stream_loop env demux inp).effects
        = demux.effects ++
          [Effect.fetch_fragment Downloader.downloader fragment
             (skippy_m3u8_client_get_uri demux.client) false false true,
           Effect.post_stat_msg SkippyHLSDemuxStats.STAT_TIME_TO_DOWNLOAD_FRAGMENT
             (sub64 t1 t0) size] := by
  obtain ⟨hg, fragment, t0, t1, size, hf, hi⟩ := fetch_ret_completed_inv demux inp h
  have hlt := current_index_lt_of_fragment demux.client fragment hf
  refine ⟨fragment, t0, t1, size, hf, hi, ?_⟩
  rw [stream_loop_of_completed env demux inp fragment t0 t1 size hg hf hi]
  refine ⟨rfl, rfl, rfl, rfl, ?_, rfl⟩
  simp only [skippy_m3u8_client_advance_to_next_fragment, if_pos hlt]
  rw [Nat.min_eq_left (by omega)]

/-- C8 on the three-item VOD playlist with the cursor at B: the run completes,
the position becomes 10 s (the start of B), the cursor becomes 2 and the
statistics message reports 150 ns and 4096 bytes. -/
theorem stream_loop_completed_witness :
    stream_loop_fetch_ret (demux_abc 1) input_completed
      = some SkippyUriDownloaderFetchReturn.SKIPPY_URI_DOWNLOADER_COMPLETED ∧
    (skippy_hls_demux_stream_loop (env_of vod_abc) (demux_abc 1) input_completed).position
      = 10 * GST_SECOND ∧
    (skippy_hls_demux_stream_loop (env_of vod_abc) (demux_abc 1)
      input_completed).client.current_index = 2 ∧
    (skippy_hls_demux_stream_loop (env_of vod_abc) (demux_abc 1) input_completed).effects.getLast?
      = some (Effect.post_stat_msg SkippyHLSDemuxStats.STAT_TIME_TO_DOWNLOAD_FRAGMENT 150 4096) ∧
    ∃ (fragment : SkippyFragment) (t0 t1 size : Nat),
      skippy_m3u8_client_get_current_fragment (demux_abc 1).client = some fragment ∧
      input_completed.fetch = FetchOutcome.Completed t0 t1 size ∧
      (skippy_hls_demux_stream_loop (env_of vod_abc) (demux_abc 1) input_completed).position
        = fragment.start_time ∧
      (skippy_hls_demux_stream_loop (env_of vod_abc) (demux_abc 1)
        input_completed).download_failed_count = 0 ∧
      (skippy_hls_demux_stream_loop (env_of vod_abc) (demux_abc 1)
        input_completed).continuing = false ∧
      (skippy_hls_demux_stream_loop (env_of vod_abc) (demux_abc 1) input_completed).client
        = skippy_m3u8_client_advance_to_next_fragment (demux_abc 1).client ∧
      (skippy_hls_demux_stream_loop (env_of vod_abc) (demux_abc 1)
        input_completed).client.current_index
        = min ((demux_abc 1).client.current_index + 1)
            (demux_abc 1).client.playlist.items.length ∧
      (skippy_hls_demux_stream_loop (env_of vod_abc) (demux_abc 1) input_completed).effects
        = (demux_abc 1).effects ++
          [Effect.fetch_fragment Downloader.downloader fragment
             (skippy_m3u8_client_get_uri (demux_abc 1).client) false false true,
           Effect.post_stat_msg SkippyHLSDemuxStats.STAT_TIME_TO_DOWNLOAD_FRAGMENT
             (sub64 t1 t0) size] :=
  ⟨by decide, by decide, by decide, by decide,
   stream_loop_completed (env_of vod_abc) (demux_abc 1) input_completed (by decide)⟩

/-- C9. In a run of the streaming task function that does not switch on
`SKIPPY_URI_DOWNLOADER_COMPLETED` (the buffer-ahead check returns early, or
the fetch outcome is void, cancelled or failed with any error, a playlist
refresh included), the playlist cursor afterwards is the cursor before; so
the cursor changes within a run only on a completed fetch. -/
theorem stream_loop_cursor_unchanged (env : Env) (demux : SkippyHLSDemux)
    (inp : StreamLoopInput)
    (h : stream_loop_fetch_ret demux inp
      ≠ some SkippyUriDownloaderFetchReturn.SKIPPY_URI_DOWNLOADER_COMPLETED) :
    (skippy_hls_demux_stream_loop env demux inp).client.current_index
      = demux.client.current_index := by
  unfold stream_loop_fetch_ret at h
  unfold skippy_hls_demux_stream_loop
  simp only at h ⊢
  cases hg : (skippy_hls_check_buffer_ahead demux inp).1 with
  | false =>
    simp only [Bool.not_false, if_true]
    rw [check_buffer_ahead_client]
  | true =>
    rw [hg] at h
    simp only [Bool.not_true, Bool.false_eq_true, if_false] at h ⊢
    rw [check_buffer_ahead_pass demux inp hg] at h ⊢
    have hres : (stream_loop_handle_result env inp
        (stream_loop_fetch demux inp)).2.client.current_index
          = demux.client.current_index := by
      unfold stream_loop_handle_result
      split
      · simp only [skippy_hls_handle_end_of_playlist, gst_task_pause, SkippyHLSDemux.emit,
          stream_loop_fetch_client]
      · simp only [stream_loop_fetch_client]
      · simp only
        split
        · rw [refresh_playlist_current_index]
          simp only [stream_loop_fetch_client]
        · simp only [stream_loop_fetch_client]
      · next hc => exact absurd (congrArg some hc) h
    split
    · simp only [wait_locked_client]
      exact hres
    · exact hres

/-- C9 on a fetch that fails with "not authorized" and triggers a playlist
refresh: the run is not a completed one and the cursor stays at 1. -/
theorem stream_loop_cursor_unchanged_witness :
    stream_loop_fetch_ret (demux_abc 1) input_not_authorized
      = some SkippyUriDownloaderFetchReturn.SKIPPY_URI_DOWNLOADER_FAILED ∧
    (skippy_hls_demux_stream_loop (env_of vod_ab) (demux_abc 1)
      input_not_authorized).client.playlist.items.length = 2 ∧
    (skippy_hls_demux_stream_loop (env_of vod_ab) (demux_abc 1)
      input_not_authorized).client.current_index = (demux_abc 1).client.current_index :=
  ⟨by decide, by decide,
   stream_loop_cursor_unchanged (env_of vod_ab) (demux_abc 1) input_not_authorized
     (by decide)⟩

/-- C10. Start with the cursor at 0 in a playlist of `n` items and let `n` runs of
the streaming task function each complete their fetch. Then the cursor after
the first `k` runs is `k` for every `k ≤ n` (it rises by exactly one per
completion and never exceeds `n`), so it ends at `n`; and every further run
that passes the buffer-ahead check finds no current fragment, makes no
fetch, sets `position` to 0, pauses the streaming task and sends EOS to the
queue sink (the trace grows by exactly these two calls). -/
theorem stream_loop_reaches_end_of_playlist (env : Env) (demux : SkippyHLSDemux)
    (inps : List StreamLoopInput)
    (h0 : demux.client.current_index = 0)
    (hlen : inps.length = demux.client.playlist.items.length)
    (hall : all_completed env demux inps) :
    (∀ k : Nat, k ≤ inps.length →
      (stream_loop_run env demux (inps.take k)).client.current_index = k) ∧
    (stream_loop_run env demux inps).client.current_index
      = demux.client.playlist.items.length ∧
    (stream_loop_run env demux inps).client.playlist = demux.client.playlist ∧
    ∀ inp : StreamLoopInput,
      (skippy_hls_check_buffer_ahead (stream_loop_run env demux inps) inp).1 = true →
      skippy_m3u8_client_get_current_fragment (stream_loop_run env demux inps).client = none ∧
      (skippy_hls_demux_stream_loop env (stream_loop_run env demux inps) inp).effects
        = (stream_loop_run env demux inps).effects ++
          [Effect.task_pause, Effect.send_event QueueEvent.eos] ∧
      (skippy_hls_demux_stream_loop env (stream_loop_run env demux inps) inp).position = 0 ∧
      (skippy_hls_demux_stream_loop env (stream_loop_run env demux inps) inp).stream_task
        = GstTaskState.GST_TASK_PAUSED ∧
      (skippy_hls_demux_stream_loop env (stream_loop_run env demux inps) inp).client
        = (stream_loop_run env demux inps).client := by
  have hinv : demux.client.current_index ≤ demux.client.playlist.items.length := by omega
  obtain ⟨hp, hc, -⟩ := stream_loop_run_all_completed env inps demux hinv hall
  have hend : (stream_loop_run env demux inps).client.current_index
      = demux.client.playlist.items.length := by omega
  refine ⟨?_, hend, hp, ?_⟩
  · intro k hk
    obtain ⟨-, hck, -⟩ := stream_loop_run_all_completed env (inps.take k) demux hinv
      (all_completed_take env inps demux hall k)
    rw [hck, h0, List.length_take]
    omega
  · intro inp hg
    have hnone : skippy_m3u8_client_get_current_fragment
        (stream_loop_run env demux inps).client = none :=
      current_fragment_none_of_le _ (by rw [hp, hend])
    rw [stream_loop_of_no_fragment env _ inp hg hnone]
    exact ⟨hnone, rfl, rfl, rfl, rfl⟩

/-- C10 on the three-item VOD playlist A, B, C: three completed runs end with the
cursor at 3, and the next run pauses the task, sends EOS and leaves
`position` at 0. -/
theorem stream_loop_reaches_end_of_playlist_witness :
    (stream_loop_run (env_of vod_abc) (demux_abc 0)
      [input_completed, input_completed, input_completed]).client.current_index = 3 ∧
    (skippy_hls_demux_stream_loop (env_of vod_abc)
      (stream_loop_run (env_of vod_abc) (demux_abc 0)
        [input_completed, input_completed, input_completed]) input_completed).position = 0 ∧
    (skippy_hls_demux_stream_loop (env_of vod_abc)
      (stream_loop_run (env_of vod_abc) (demux_abc 0)
        [input_completed, input_completed, input_completed]) input_completed).effects
      = (stream_loop_run (env_of vod_abc) (demux_abc 0)
          [input_completed, input_completed, input_completed]).effects ++
        [Effect.task_pause, Effect.send_event QueueEvent.eos] :=
  have h := stream_loop_reaches_end_of_playlist (env_of vod_abc) (demux_abc 0)
    [input_completed, input_completed, input_completed] (by decide) (by decide)
    ⟨by decide, by decide, by decide, trivial⟩
  have hg : (skippy_hls_check_buffer_ahead
      (stream_loop_run (env_of vod_abc) (demux_abc 0)
        [input_completed, input_completed, input_completed]) input_completed).1 = true := by
    decide
  ⟨h.2.1, (h.2.2.2 input_completed hg).2.2.1, (h.2.2.2 input_completed hg).2.1⟩

/-! ## Seeking and the src pad queries -/

/-- Pausing touches neither the playlist model, nor `position`, nor the failure
count. -/
theorem pause_frame (demux : SkippyHLSDemux) :
    (skippy_hls_demux_pause demux).client = demux.client ∧
    (skippy_hls_demux_pause demux).position = demux.position ∧
    (skippy_hls_demux_pause demux).download_failed_count = demux.download_failed_count ∧
    (skippy_hls_demux_pause demux).srcpad = demux.srcpad ∧
    (skippy_hls_demux_pause demux).continuing = true :=
  ⟨rfl, rfl, rfl, rfl, rfl⟩

/-- The state after an accepted seek, field by field. -/
theorem handle_seek_accepted (demux : SkippyHLSDemux) (event : GstSeekEvent)
    (h : (skippy_hls_demux_handle_seek demux event).1 = true) :
    (skippy_hls_demux_handle_seek demux event).2.client
      = (skippy_m3u8_client_seek_to demux.client (to_guint64 event.start)).2 ∧
    (skippy_hls_demux_handle_seek demux event).2.download_failed_count
      = demux.download_failed_count ∧
    (skippy_hls_demux_handle_seek demux event).2.position = demux.position ∧
    (skippy_hls_demux_handle_seek demux event).2.srcpad = demux.srcpad ∧
    (skippy_hls_demux_handle_seek demux event).2.continuing = true ∧
    (skippy_hls_demux_handle_seek demux event).2.stream_task = GstTaskState.GST_TASK_STARTED := by
  revert h
  unfold skippy_hls_demux_handle_seek
  split
  · intro h; cases h
  · split
    · intro h; cases h
    · intro _
      by_cases hf : event.flags &&& GST_SEEK_FLAG_FLUSH ≠ 0
      · simp [hf, skippy_hls_demux_pause, gst_task_pause, gst_task_start, SkippyHLSDemux.emit]
      · simp [hf, skippy_hls_demux_pause, gst_task_pause, gst_task_start, SkippyHLSDemux.emit]

/-- A seek to a time at or after the end of every item misses. -/
theorem seek_to_miss_of_ends_le (client : SkippyM3U8ClientPrivate) (T : Nat)
    (hends : ∀ item ∈ client.playlist.items, item.end_ ≤ T) :
    skippy_m3u8_client_seek_to client T = (false, client) := by
  rcases seek_to_cases client T with ⟨j, hj, heq⟩ | heq
  · have htrue : (skippy_m3u8_client_seek_to client T).1 = true := by rw [heq]
    obtain ⟨i, item, hget, -, h2⟩ := (seek_to_first_hit_iff client T).mp htrue
    have hmem : item ∈ client.playlist.items := List.getElem?_mem hget
    have := hends item hmem
    omega
  · exact heq

/-- C15, as stated, fails: after three failed fetches an accepted seek (TIME
format, VOD playlist, to 15 s with the FLUSH flag) leaves
`download_failed_count` at 3. -/
theorem handle_seek_keeps_failed_count :
    (skippy_hls_demux_handle_seek (demux_abc_failing 0)
      (seek_event (15 * GST_SECOND) GST_SEEK_FLAG_FLUSH)).1 = true ∧
    (skippy_hls_demux_handle_seek (demux_abc_failing 0)
      (seek_event (15 * GST_SECOND) GST_SEEK_FLAG_FLUSH)).2.download_failed_count = 3 := by
  decide

/-- C15, amended. For every engine state, after `skippy_hls_demux_handle_seek`
accepts a seek, `download_failed_count` has the value it had before the
seek: a seek does not reset it (it is 0 afterwards exactly when it was 0
before). -/
theorem handle_seek_failed_count_unchanged (demux : SkippyHLSDemux) (event : GstSeekEvent)
    (h : (skippy_hls_demux_handle_seek demux event).1 = true) :
    (skippy_hls_demux_handle_seek demux event).2.download_failed_count
      = demux.download_failed_count :=
  (handle_seek_accepted demux event h).2.1

/-- C15, amended, on a seek in a state without failures: the count stays 0. -/
theorem handle_seek_failed_count_unchanged_witness :
    (skippy_hls_demux_handle_seek (demux_abc 0)
      (seek_event (15 * GST_SECOND) GST_SEEK_FLAG_FLUSH)).1 = true ∧
    (skippy_hls_demux_handle_seek (demux_abc 0)
      (seek_event (15 * GST_SECOND) GST_SEEK_FLAG_FLUSH)).2.download_failed_count
      = (demux_abc 0).download_failed_count :=
  ⟨by decide, handle_seek_failed_count_unchanged (demux_abc 0)
    (seek_event (15 * GST_SECOND) GST_SEEK_FLAG_FLUSH) (by decide)⟩

/-- C16, as stated, fails: with the cursor at B in the three-item VOD playlist
(total duration 30 s), an accepted TIME seek to 40 s leaves the cursor at 1;
the current fragment is B, not `NULL`, and the next run of the streaming task
function fetches B instead of sending EOS. -/
theorem handle_seek_beyond_duration_keeps_cursor :
    (skippy_hls_demux_handle_seek (demux_abc 1)
      (seek_event (40 * GST_SECOND) GST_SEEK_FLAG_FLUSH)).1 = true ∧
    skippy_m3u8_client_get_total_duration (demux_abc 1).client ≤ 40 * GST_SECOND ∧
    (skippy_hls_demux_handle_seek (demux_abc 1)
      (seek_event (40 * GST_SECOND) GST_SEEK_FLAG_FLUSH)).2.client.current_index = 1 ∧
    (skippy_m3u8_client_get_current_fragment
      (skippy_hls_demux_handle_seek (demux_abc 1)
        (seek_event (40 * GST_SECOND) GST_SEEK_FLAG_FLUSH)).2.client).map (fun f => f.uri)
      = some "B" ∧
    (skippy_hls_demux_stream_loop (env_of vod_abc)
      (skippy_hls_demux_handle_seek (demux_abc 1)
        (seek_event (40 * GST_SECOND) GST_SEEK_FLAG_FLUSH)).2 input_completed).effects
      = (skippy_hls_demux_handle_seek (demux_abc 1)
          (seek_event (40 * GST_SECOND) GST_SEEK_FLAG_FLUSH)).2.effects ++
        [Effect.fetch_fragment Downloader.downloader
           (fragment_of_item
             { url := "B", start := 10 * GST_SECOND, end_ := 20 * GST_SECOND,
               duration := 10 * GST_SECOND })
           "http://host/list.m3u8" false false true,
         Effect.post_stat_msg SkippyHLSDemuxStats.STAT_TIME_TO_DOWNLOAD_FRAGMENT 150 4096] ∧
    (skippy_hls_demux_stream_loop (env_of vod_abc)
      (skippy_hls_demux_handle_seek (demux_abc 1)
        (seek_event (40 * GST_SECOND) GST_SEEK_FLAG_FLUSH)).2 input_completed).position
      = 10 * GST_SECOND := by
  decide

/-- C16, amended. For every VOD playlist none of whose items ends after
`total_duration`, and every cursor position: after
`skippy_hls_demux_handle_seek` accepts a TIME seek whose start `T` satisfies
`T ≥ total_duration`, the playlist model is the one before the seek (the
seek on the model misses, and the cursor stays where it was). With the src
pad linked, the next run of the streaming task function takes the
end-of-playlist path (EOS, `position` 0, no fetch) if the cursor was already
at the end before the seek; if there was a current fragment before the seek,
the run fetches that fragment. -/
theorem handle_seek_beyond_duration (env : Env) (demux : SkippyHLSDemux)
    (event : GstSeekEvent) (inp : StreamLoopInput)
    (h : (skippy_hls_demux_handle_seek demux event).1 = true)
    (hT : skippy_m3u8_client_get_total_duration demux.client ≤ to_guint64 event.start)
    (hends : ∀ item ∈ demux.client.playlist.items,
      item.end_ ≤ skippy_m3u8_client_get_total_duration demux.client)
    (hpad : demux.srcpad = true) :
    (skippy_hls_demux_handle_seek demux event).2.client = demux.client ∧
    (demux.client.playlist.items.length ≤ demux.client.current_index →
      skippy_m3u8_client_get_current_fragment
        (skippy_hls_demux_handle_seek demux event).2.client = none ∧
      (skippy_hls_demux_stream_loop env (skippy_hls_demux_handle_seek demux event).2 inp).effects
        = (skippy_hls_demux_handle_seek demux event).2.effects ++
          [Effect.task_pause, Effect.send_event QueueEvent.eos] ∧
      (skippy_hls_demux_stream_loop env
        (skippy_hls_demux_handle_seek demux event).2 inp).position = 0) ∧
    (∀ fragment : SkippyFragment,
      skippy_m3u8_client_get_current_fragment demux.client = some fragment →
      stream_loop_fetch_ret (skippy_hls_demux_handle_seek demux event).2 inp
        = some inp.fetch.fetch_ret ∧
      (stream_loop_fetch (skippy_hls_demux_handle_seek demux event).2 inp).demux.effects
        = (skippy_hls_demux_handle_seek demux event).2.effects ++
          [Effect.fetch_fragment Downloader.downloader fragment
            (skippy_m3u8_client_get_uri demux.client) false false true]) := by
  obtain ⟨hcl, -, -, hsp, hcont, -⟩ := handle_seek_accepted demux event h
  have hmiss := seek_to_miss_of_ends_le demux.client (to_guint64 event.start)
    (fun item hi => le_trans (hends item hi) hT)
  rw [hmiss] at hcl
  simp only at hcl
  have hgate := check_buffer_ahead_continuing (skippy_hls_demux_handle_seek demux event).2 inp
    (by rw [hsp, hpad]) hcont
  refine ⟨hcl, ?_, ?_⟩
  · intro hle
    have hnone : skippy_m3u8_client_get_current_fragment
        (skippy_hls_demux_handle_seek demux event).2.client = none := by
      rw [hcl]; exact current_fragment_none_of_le _ hle
    rw [stream_loop_of_no_fragment env _ inp (by rw [hgate]) hnone]
    exact ⟨hnone, rfl, rfl⟩
  · intro fragment hf
    have hf2 : skippy_m3u8_client_get_current_fragment
        (skippy_hls_demux_handle_seek demux event).2.client = some fragment := by
      rw [hcl]; exact hf
    obtain ⟨he, hr, -⟩ := stream_loop_fetch_of_fragment _ inp fragment hf2
    refine ⟨?_, ?_⟩
    · unfold stream_loop_fetch_ret
      simp only [hgate, Bool.not_true, Bool.false_eq_true, if_false, hr]
    · rw [he, hcl]

/-- C16, amended, on the three-item VOD playlist with the cursor at B and a seek
to 40 s: the model is unchanged by the seek. -/
theorem handle_seek_beyond_duration_witness :
    (skippy_hls_demux_handle_seek (demux_abc 1)
      (seek_event (40 * GST_SECOND) GST_SEEK_FLAG_FLUSH)).2.client = (demux_abc 1).client :=
  (handle_seek_beyond_duration (env_of vod_abc) (demux_abc 1)
    (seek_event (40 * GST_SECOND) GST_SEEK_FLAG_FLUSH) input_completed
    (by decide) (by decide) (by decide) rfl).1

/-- C17. `skippy_hls_demux_handle_seek` returns `FALSE` if and only if the playlist
is live (its type is "event") or the seek format is not TIME; in that case
the engine state is untouched (cursor, `position`, `download_failed_count`,
`continuing`, task state and the trace of calls: nothing cancelled, no flush
event sent). In every other case it returns `TRUE`. -/
theorem handle_seek_rejects (demux : SkippyHLSDemux) (event : GstSeekEvent) :
    (skippy_m3u8_client_is_live demux.client = true ↔ demux.client.playlist.type = "event") ∧
    ((skippy_hls_demux_handle_seek demux event).1 = false ↔
      (skippy_m3u8_client_is_live demux.client = true ∨
        event.format ≠ GstFormat.GST_FORMAT_TIME)) ∧
    ((skippy_hls_demux_handle_seek demux event).1 = false →
      (skippy_hls_demux_handle_seek demux event).2 = demux) ∧
    (¬ (skippy_m3u8_client_is_live demux.client = true ∨
        event.format ≠ GstFormat.GST_FORMAT_TIME) →
      (skippy_hls_demux_handle_seek demux event).1 = true) := by
  refine ⟨?_, ?_, ?_, ?_⟩
  · unfold skippy_m3u8_client_is_live
    split <;> simp [*]
  · unfold skippy_hls_demux_handle_seek
    by_cases hl : skippy_m3u8_client_is_live demux.client = true
    · simp [hl]
    · by_cases hf : event.format = GstFormat.GST_FORMAT_TIME
      · simp [hl, hf]
      · simp [hl, hf]
  · unfold skippy_hls_demux_handle_seek
    by_cases hl : skippy_m3u8_client_is_live demux.client = true
    · simp [hl]
    · by_cases hf : event.format = GstFormat.GST_FORMAT_TIME
      · simp [hl, hf]
      · simp [hl, hf]
  · unfold skippy_hls_demux_handle_seek
    by_cases hl : skippy_m3u8_client_is_live demux.client = true
    · simp [hl]
    · by_cases hf : event.format = GstFormat.GST_FORMAT_TIME
      · simp [hl, hf]
      · simp [hl, hf]

/-- A duration below `2 ^ 63` is read back unchanged as a `gint64`. -/
theorem to_gint64_of_lt (d : Nat) (h : d < 2 ^ 63) : to_gint64 (d : Int) = d := by
  unfold to_gint64
  omega

/-- A duration that is positive and below `2 ^ 63` passes the validity test of the
query handlers and is written back unchanged. -/
theorem seeking_duration_ok (d : Nat) (h0 : 0 < d) (h63 : d < 2 ^ 63) :
    (GST_CLOCK_TIME_IS_VALID (d % 2 ^ 64) && decide (d % 2 ^ 64 > 0)) = true ∧
    to_gint64 ((d % 2 ^ 64 : Nat) : Int) = d := by
  have hmod : d % 2 ^ 64 = d := Nat.mod_eq_of_lt (by omega)
  rw [hmod]
  refine ⟨?_, to_gint64_of_lt d h63⟩
  have hne : d ≠ GST_CLOCK_TIME_NONE := by unfold GST_CLOCK_TIME_NONE; omega
  simp [GST_CLOCK_TIME_IS_VALID, hne, h0]

/-- C18, as stated, fails: with the complete but empty playlist `vod_empty`
(total duration 0) a SEEKING query in TIME format is not answered by
`skippy_hls_demux_src_query` (it returns `FALSE`); the older revision answers
it, but with range stop `-1` instead of the total duration 0. -/
theorem src_query_seeking_zero_duration :
    skippy_m3u8_client_get_total_duration demux_empty.client = 0 ∧
    skippy_hls_demux_src_query demux_empty
      (some (GstQuery.GST_QUERY_SEEKING GstFormat.GST_FORMAT_TIME)) = (false, none) ∧
    skippy_hls_demux_src_query_seeking_c GstFormat.GST_FORMAT_TIME 0 false
      = (true, some (GstQueryAnswer.seeking GstFormat.GST_FORMAT_TIME true 0 (-1))) := by
  decide

/-- C18, amended. For every playlist whose total duration is greater than 0 (and
below `2 ^ 63` ns), a SEEKING query in TIME format on the src pad is answered
successfully with seekable = (playlist is not live), range start 0 and range
stop equal to the total duration, in both revisions of the handler. When the
total duration is 0 or `GST_CLOCK_TIME_NONE`, `skippy_hls_demux_src_query`
does not answer the query (it returns `FALSE`). A SEEKING query in any other
format is not answered, in both revisions. -/
theorem src_query_seeking (demux : SkippyHLSDemux) :
    (0 < skippy_m3u8_client_get_total_duration demux.client →
      skippy_m3u8_client_get_total_duration demux.client < 2 ^ 63 →
      skippy_hls_demux_src_query demux
          (some (GstQuery.GST_QUERY_SEEKING GstFormat.GST_FORMAT_TIME))
        = (true, some (GstQueryAnswer.seeking GstFormat.GST_FORMAT_TIME
            (!skippy_m3u8_client_is_live demux.client) 0
            (skippy_m3u8_client_get_total_duration demux.client)))) ∧
    (∀ is_live : Bool, 0 < skippy_m3u8_client_get_total_duration demux.client →
      skippy_m3u8_client_get_total_duration demux.client < 2 ^ 63 →
      skippy_hls_demux_src_query_seeking_c GstFormat.GST_FORMAT_TIME
          (skippy_m3u8_client_get_total_duration demux.client) is_live
        = (true, some (GstQueryAnswer.seeking GstFormat.GST_FORMAT_TIME (!is_live) 0
            (skippy_m3u8_client_get_total_duration demux.client)))) ∧
    ((skippy_m3u8_client_get_total_duration demux.client = 0 ∨
        skippy_m3u8_client_get_total_duration demux.client = GST_CLOCK_TIME_NONE) →
      skippy_hls_demux_src_query demux
          (some (GstQuery.GST_QUERY_SEEKING GstFormat.GST_FORMAT_TIME)) = (false, none)) ∧
    (∀ fmt : GstFormat, fmt ≠ GstFormat.GST_FORMAT_TIME →
      skippy_hls_demux_src_query demux (some (GstQuery.GST_QUERY_SEEKING fmt)) = (false, none)) ∧
    (∀ (fmt : GstFormat) (duration : Nat) (is_live : Bool), fmt ≠ GstFormat.GST_FORMAT_TIME →
      skippy_hls_demux_src_query_seeking_c fmt duration is_live = (false, none)) := by
  refine ⟨?_, ?_, ?_, ?_, ?_⟩
  · intro h0 h63
    obtain ⟨hv, hs⟩ := seeking_duration_ok _ h0 h63
    unfold skippy_hls_demux_src_query
    simp only [ne_eq, not_true_eq_false, if_false, hv, hs, if_true]
  · intro is_live h0 h63
    obtain ⟨hv, hs⟩ := seeking_duration_ok _ h0 h63
    unfold skippy_hls_demux_src_query_seeking_c
    simp only [if_true, hv, hs]
  · rintro (h | h)
    · simp [skippy_hls_demux_src_query, h]
    · simp [skippy_hls_demux_src_query, h, GST_CLOCK_TIME_IS_VALID, GST_CLOCK_TIME_NONE]
  · intro fmt hfmt
    simp [skippy_hls_demux_src_query, hfmt]
  · intro fmt duration is_live hfmt
    simp [skippy_hls_demux_src_query_seeking_c, hfmt]

/-- C18, amended, on the three-item VOD playlist: seekable, range 0 to 30 s. -/
theorem src_query_seeking_witness :
    skippy_hls_demux_src_query (demux_abc 0)
        (some (GstQuery.GST_QUERY_SEEKING GstFormat.GST_FORMAT_TIME))
      = (true, some (GstQueryAnswer.seeking GstFormat.GST_FORMAT_TIME
          (!skippy_m3u8_client_is_live (demux_abc 0).client) 0
          (skippy_m3u8_client_get_total_duration (demux_abc 0).client))) :=
  (src_query_seeking (demux_abc 0)).1 (by decide) (by decide)

/-- C19. `skippy_hls_demux_query_location`, on an answered upstream URI query,
returns the redirect target when the redirect is flagged permanent and a
target is present, and the original uri in every other answered case
(`permanent = false`, or no redirect target); it returns `NULL` exactly when
the upstream query fails. -/
theorem query_location_result :
    (∀ (query : GstUriQueryAnswer) (target : String),
      query.uri_redirection_permanent = true → query.uri_redirection = some target →
      skippy_hls_demux_query_location (some query) = some target) ∧
    (∀ query : GstUriQueryAnswer,
      (query.uri_redirection_permanent = false ∨ query.uri_redirection = none) →
      skippy_hls_demux_query_location (some query) = some query.uri) ∧
    (∀ peer : Option GstUriQueryAnswer,
      skippy_hls_demux_query_location peer = none ↔ peer = none) := by
  refine ⟨?_, ?_, ?_⟩
  · intro query target hp ht
    simp [skippy_hls_demux_query_location, hp, ht]
  · rintro query (hp | ht)
    · simp [skippy_hls_demux_query_location, hp]
    · simp [skippy_hls_demux_query_location, ht]
  · intro peer
    cases peer with
    | none => simp [skippy_hls_demux_query_location]
    | some query =>
      simp only [skippy_hls_demux_query_location]
      cases hp : query.uri_redirection_permanent <;> cases ht : query.uri_redirection <;> simp

/-- C19 on the scenario of the spec: a redirect that is not permanent leaves the
original uri in place, a permanent one replaces it. -/
theorem query_location_result_witness :
    skippy_hls_demux_query_location
        (some { uri := "http://host/a.m3u8", uri_redirection := some "http://cdn/a.m3u8",
                uri_redirection_permanent := false })
      = some "http://host/a.m3u8" ∧
    skippy_hls_demux_query_location
        (some { uri := "http://host/a.m3u8", uri_redirection := some "http://cdn/a.m3u8",
                uri_redirection_permanent := true })
      = some "http://cdn/a.m3u8" :=
  ⟨query_location_result.2.1 _ (Or.inl rfl), query_location_result.1 _ _ rfl rfl⟩

/-! ## The decryptor -/

/-- A combined block has 16 bytes. -/
theorem xor_block_length (a b : List Nat) : (xor_block a b).length = 16 := by
  simp [xor_block]

/-- The CBC plaintext of `nblocks` blocks has `16 * nblocks` bytes. -/
theorem cbc_decrypt_length (nettle : Nettle) (key : List Nat) (nblocks : Nat)
    (iv src : List Nat) : (cbc_decrypt nettle key nblocks iv src).length = 16 * nblocks := by
  induction nblocks generalizing iv src with
  | zero => simp [cbc_decrypt]
  | succ n ih =>
    simp only [cbc_decrypt, List.length_append, xor_block_length, ih]
    omega

/-- With the key in hand (from the cache or from a successful fetch) the outcome
of `skippy_hls_demux_decrypt_fragment` is the one of `decrypt_with_key`. -/
theorem decrypt_fragment_ret_of_key (nettle : Nettle) (cache : Option KeyCacheEntry)
    (encrypted : List Nat) (key : String) (iv : List Nat) (key_fetch : Option (List Nat))
    (key_body : List Nat)
    (hkey : (∃ entry : KeyCacheEntry,
        cache = some entry ∧ entry.key_url = key ∧ entry.key_fragment = key_body) ∨
      ((∀ entry : KeyCacheEntry, cache = some entry → entry.key_url ≠ key) ∧
        key_fetch = some key_body)) :
    (skippy_hls_demux_decrypt_fragment nettle cache encrypted key iv key_fetch).ret
      = decrypt_with_key nettle key_body encrypted iv := by
  unfold skippy_hls_demux_decrypt_fragment
  rcases hkey with ⟨entry, hc, hu, hb⟩ | ⟨hmiss, hf⟩
  · subst hc
    simp only [hu, if_true, hb]
  · cases cache with
    | none => simp only [decrypt_fetch_key, hf]
    | some entry =>
      simp only [if_neg (hmiss entry rfl), decrypt_fetch_key, hf]

/-- The size checks of the decryptor and what follows them. -/
theorem decrypt_with_key_outcome (nettle : Nettle) (key_info encrypted_info iv : List Nat) :
    ((key_info.length ≠ 16 ∨ encrypted_info.length % 16 ≠ 0) →
      decrypt_with_key nettle key_info encrypted_info iv = DecryptOutcome.decrypt_error) ∧
    (key_info.length = 16 → encrypted_info.length % 16 = 0 → 0 < encrypted_info.length →
      ∃ data : List Nat,
        decrypt_with_key nettle key_info encrypted_info iv = DecryptOutcome.completed data) := by
  constructor
  · rintro (hk | hl)
    · simp [decrypt_with_key, hk]
    · by_cases hk : key_info.length = 16
      · simp [decrypt_with_key, hk, decrypt_fragment, hl]
      · simp [decrypt_with_key, hk]
  · intro hk hl hpos
    have hlen := cbc_decrypt_length nettle key_info (encrypted_info.length / 16) iv encrypted_info
    have hne : cbc_decrypt nettle key_info (encrypted_info.length / 16) iv encrypted_info ≠ [] := by
      intro hnil
      rw [hnil] at hlen
      simp only [List.length_nil] at hlen
      omega
    obtain ⟨last, hlast⟩ := Option.isSome_iff_exists.mp
      (List.getLast?_isSome.mpr hne)
    refine ⟨gst_buffer_resize
      (cbc_decrypt nettle key_info (encrypted_info.length / 16) iv encrypted_info)
      (sub64 (cbc_decrypt nettle key_info (encrypted_info.length / 16) iv
        encrypted_info).length last), ?_⟩
    simp [decrypt_with_key, hk, decrypt_fragment, hl, hlast]

/-- C20, as stated, fails: the padding is never validated. With a 16-byte key and
a 16-byte payload, a plaintext whose final byte is 0, and one whose final
byte is 17 (above both 16 and the payload length), are both returned as a
completed fragment instead of a DECRYPT error. -/
theorem decrypt_fragment_accepts_invalid_padding :
    cbc_decrypt nettle_id zeros16 1 zeros16 zeros16 = zeros16 ∧
    (skippy_hls_demux_decrypt_fragment nettle_id none zeros16 "k.bin" zeros16
      (some zeros16)).ret = DecryptOutcome.completed zeros16 ∧
    (cbc_decrypt nettle_id zeros16 1 zeros16 (List.replicate 15 0 ++ [17])).getLast? = some 17 ∧
    (skippy_hls_demux_decrypt_fragment nettle_id none (List.replicate 15 0 ++ [17]) "k.bin"
      zeros16 (some zeros16)).ret = DecryptOutcome.completed (List.replicate 15 0 ++ [17]) := by
  decide

/-- C20, amended. With the key in hand (cached under the same uri, or fetched
successfully), `skippy_hls_demux_decrypt_fragment` fails with a DECRYPT error
whenever the key body is not exactly 16 bytes or the length of the encrypted
payload is not a multiple of 16; for a 16-byte key and a non-empty payload
whose length is a multiple of 16 it returns a completed fragment, whatever
the bytes of the padding are. -/
theorem decrypt_fragment_checks (nettle : Nettle) (cache : Option KeyCacheEntry)
    (encrypted : List Nat) (key : String) (iv : List Nat) (key_fetch : Option (List Nat))
    (key_body : List Nat)
    (hkey : (∃ entry : KeyCacheEntry,
        cache = some entry ∧ entry.key_url = key ∧ entry.key_fragment = key_body) ∨
      ((∀ entry : KeyCacheEntry, cache = some entry → entry.key_url ≠ key) ∧
        key_fetch = some key_body)) :
    ((key_body.length ≠ 16 ∨ encrypted.length % 16 ≠ 0) →
      (skippy_hls_demux_decrypt_fragment nettle cache encrypted key iv key_fetch).ret
        = DecryptOutcome.decrypt_error) ∧
    (key_body.length = 16 → encrypted.length % 16 = 0 → 0 < encrypted.length →
      ∃ data : List Nat,
        (skippy_hls_demux_decrypt_fragment nettle cache encrypted key iv key_fetch).ret
          = DecryptOutcome.completed data) := by
  rw [decrypt_fragment_ret_of_key nettle cache encrypted key iv key_fetch key_body hkey]
  exact decrypt_with_key_outcome nettle key_body encrypted iv

/-- C20, amended, on a fetched key of 15 bytes: a DECRYPT error. -/
theorem decrypt_fragment_checks_witness :
    (skippy_hls_demux_decrypt_fragment nettle_id none zeros16 "k.bin" zeros16
      (some (List.replicate 15 0))).ret = DecryptOutcome.decrypt_error :=
  (decrypt_fragment_checks nettle_id none zeros16 "k.bin" zeros16 (some (List.replicate 15 0))
    (List.replicate 15 0) (Or.inr ⟨fun _ h => Option.noConfusion h, rfl⟩)).1 (Or.inl (by decide))

/-- With a 16-byte key and a non-empty payload of whole blocks the decryptor
returns the CBC plaintext resized to the computed unpadded size. -/
theorem decrypt_with_key_completed (nettle : Nettle) (key_info encrypted_info iv : List Nat)
    (p : Nat) (hk : key_info.length = 16) (hl : encrypted_info.length % 16 = 0)
    (hp : (cbc_decrypt nettle key_info (encrypted_info.length / 16) iv
      encrypted_info).getLast? = some p) :
    decrypt_with_key nettle key_info encrypted_info iv
      = DecryptOutcome.completed (gst_buffer_resize
          (cbc_decrypt nettle key_info (encrypted_info.length / 16) iv encrypted_info)
          (sub64 encrypted_info.length p)) := by
  have hlen := cbc_decrypt_length nettle key_info (encrypted_info.length / 16) iv encrypted_info
  have hn : 16 * (encrypted_info.length / 16) = encrypted_info.length := by omega
  simp [decrypt_with_key, hk, decrypt_fragment, hl, hp, hlen, hn]

/-- The 64-bit difference of a size and a padding byte that does not exceed it
is their difference. -/
theorem sub64_of_le (n p : Nat) (hn : n < 2 ^ 64) (hp : p ≤ n) : sub64 n p = n - p := by
  unfold sub64
  omega

/-- C21, as stated, fails when the last plaintext byte exceeds the payload
length: for a 16-byte payload whose CBC plaintext ends in the byte 200 the
fragment handed on has all 16 bytes, while `n - p` is `16 - 200`. -/
theorem decrypt_fragment_padding_byte_above_length :
    (cbc_decrypt nettle_id key16 1 zeros16 (List.replicate 15 0 ++ [200])).getLast? = some 200 ∧
    (skippy_hls_demux_decrypt_fragment nettle_id none (List.replicate 15 0 ++ [200]) "k.bin"
      zeros16 (some key16)).ret = DecryptOutcome.completed (List.replicate 15 0 ++ [200]) ∧
    ((List.replicate 15 0 ++ [200]).length : Int) ≠ 16 - 200 := by
  decide

/-- C21, amended. For every encrypted payload of length `n` accepted by the
decryptor (`n` a multiple of 16, key of 16 bytes) whose CBC plaintext is not
empty and ends in a byte `p ≤ n`, the decrypted fragment handed on is the
first `n - p` bytes of the CBC plaintext; its length is exactly `n - p`. -/
theorem decrypt_fragment_unpadded (nettle : Nettle) (cache : Option KeyCacheEntry)
    (encrypted : List Nat) (key : String) (iv : List Nat) (key_fetch : Option (List Nat))
    (key_body : List Nat) (p : Nat)
    (hkey : (∃ entry : KeyCacheEntry,
        cache = some entry ∧ entry.key_url = key ∧ entry.key_fragment = key_body) ∨
      ((∀ entry : KeyCacheEntry, cache = some entry → entry.key_url ≠ key) ∧
        key_fetch = some key_body))
    (hk : key_body.length = 16) (hl : encrypted.length % 16 = 0)
    (hn : encrypted.length < 2 ^ 64)
    (hp : (cbc_decrypt nettle key_body (encrypted.length / 16) iv encrypted).getLast? = some p)
    (hpn : p ≤ encrypted.length) :
    (skippy_hls_demux_decrypt_fragment nettle cache encrypted key iv key_fetch).ret
      = DecryptOutcome.completed
          ((cbc_decrypt nettle key_body (encrypted.length / 16) iv encrypted).take
            (encrypted.length - p)) ∧
    ((cbc_decrypt nettle key_body (encrypted.length / 16) iv encrypted).take
      (encrypted.length - p)).length = encrypted.length - p := by
  have hlen := cbc_decrypt_length nettle key_body (encrypted.length / 16) iv encrypted
  have hfull : 16 * (encrypted.length / 16) = encrypted.length := by omega
  rw [decrypt_fragment_ret_of_key nettle cache encrypted key iv key_fetch key_body hkey,
    decrypt_with_key_completed nettle key_body encrypted iv p hk hl hp,
    sub64_of_le _ _ hn hpn]
  constructor
  · unfold gst_buffer_resize
    rw [if_pos (by omega)]
  · rw [List.length_take, hlen, hfull]
    omega

/-- C21, amended, on one block whose plaintext ends in the padding byte 4: the
first 12 bytes are handed on. -/
theorem decrypt_fragment_unpadded_witness :
    (skippy_hls_demux_decrypt_fragment nettle_id none
      (List.replicate 12 7 ++ List.replicate 4 4) "k.bin" zeros16 (some key16)).ret
      = DecryptOutcome.completed (List.replicate 12 7) :=
  (decrypt_fragment_unpadded nettle_id none (List.replicate 12 7 ++ List.replicate 4 4) "k.bin"
    zeros16 (some key16) key16 4 (Or.inr ⟨fun _ h => Option.noConfusion h, rfl⟩)
    (by decide) (by decide) (by decide) (by decide) (by decide)).1

/-- C23. Key cache policy of `skippy_hls_demux_decrypt_fragment`. When the key uri
of the fragment equals the cached key uri, no key fetch is made, the cached
key bytes are used and the cache stays as it is. When the cache is empty or
holds a different uri, exactly one key fetch is made, for the key uri of the
fragment; if it succeeds the cache afterwards holds that uri with the
fetched bytes (which are the ones used), and if it fails the cache is empty.
Hence, after a successful key fetch, the next fragment with the same key uri
causes no fetch, and one with a different key uri causes a fetch of that uri. -/
theorem key_cache_policy (nettle : Nettle) (cache : Option KeyCacheEntry)
    (encrypted : List Nat) (key : String) (iv : List Nat) (key_fetch : Option (List Nat)) :
    (∀ entry : KeyCacheEntry, cache = some entry → entry.key_url = key →
      (skippy_hls_demux_decrypt_fragment nettle cache encrypted key iv key_fetch).key_fetches
        = [] ∧
      (skippy_hls_demux_decrypt_fragment nettle cache encrypted key iv key_fetch).ret
        = decrypt_with_key nettle entry.key_fragment encrypted iv ∧
      (skippy_hls_demux_decrypt_fragment nettle cache encrypted key iv key_fetch).cache
        = cache) ∧
    ((cache = none ∨ ∃ entry : KeyCacheEntry, cache = some entry ∧ entry.key_url ≠ key) →
      (skippy_hls_demux_decrypt_fragment nettle cache encrypted key iv key_fetch).key_fetches
        = [key] ∧
      (∀ body : List Nat, key_fetch = some body →
        (skippy_hls_demux_decrypt_fragment nettle cache encrypted key iv key_fetch).cache
          = some { key_url := key, key_fragment := body } ∧
        (skippy_hls_demux_decrypt_fragment nettle cache encrypted key iv key_fetch).ret
          = decrypt_with_key nettle body encrypted iv) ∧
      (key_fetch = none →
        (skippy_hls_demux_decrypt_fragment nettle cache encrypted key iv key_fetch).cache
          = none ∧
        (skippy_hls_demux_decrypt_fragment nettle cache encrypted key iv key_fetch).ret
          = DecryptOutcome.key_failed)) ∧
    (∀ (body : List Nat) (encrypted2 iv2 : List Nat) (key_fetch2 : Option (List Nat)),
      (cache = none ∨ ∃ entry : KeyCacheEntry, cache = some entry ∧ entry.key_url ≠ key) →
      key_fetch = some body →
      (skippy_hls_demux_decrypt_fragment nettle
        (skippy_hls_demux_decrypt_fragment nettle cache encrypted key iv key_fetch).cache
        encrypted2 key iv2 key_fetch2).key_fetches = [] ∧
      ∀ key2 : String, key2 ≠ key →
        (skippy_hls_demux_decrypt_fragment nettle
          (skippy_hls_demux_decrypt_fragment nettle cache encrypted key iv key_fetch).cache
          encrypted2 key2 iv2 key_fetch2).key_fetches = [key2]) := by
  have hmiss : (cache = none ∨ ∃ entry : KeyCacheEntry, cache = some entry ∧ entry.key_url ≠ key) →
      skippy_hls_demux_decrypt_fragment nettle cache encrypted key iv key_fetch
        = decrypt_fetch_key nettle encrypted key iv key_fetch := by
    rintro (hc | ⟨entry, hc, hne⟩)
    · subst hc; rfl
    · subst hc
      simp only [skippy_hls_demux_decrypt_fragment, if_neg hne]
  refine ⟨?_, ?_, ?_⟩
  · intro entry hc hu
    subst hc
    simp [skippy_hls_demux_decrypt_fragment, hu]
  · intro h
    rw [hmiss h]
    refine ⟨?_, ?_, ?_⟩
    · unfold decrypt_fetch_key
      cases key_fetch <;> rfl
    · intro body hb
      subst hb
      exact ⟨rfl, rfl⟩
    · intro hb
      subst hb
      exact ⟨rfl, rfl⟩
  · intro body encrypted2 iv2 key_fetch2 h hb
    rw [hmiss h]
    subst hb
    refine ⟨?_, ?_⟩
    · simp [decrypt_fetch_key, skippy_hls_demux_decrypt_fragment]
    · intro key2 hne
      have hne2 : ¬ key = key2 := fun h => hne h.symm
      simp only [decrypt_fetch_key, skippy_hls_demux_decrypt_fragment, if_neg hne2]
      cases key_fetch2 <;> rfl

/-- C23 on two fragments that declare the same key uri, starting with an empty
cache: the first call fetches the key, the second does not. -/
theorem key_cache_policy_witness :
    (skippy_hls_demux_decrypt_fragment nettle_id none zeros16 "k.bin" zeros16
      (some key16)).key_fetches = ["k.bin"] ∧
    (skippy_hls_demux_decrypt_fragment nettle_id
      (skippy_hls_demux_decrypt_fragment nettle_id none zeros16 "k.bin" zeros16
        (some key16)).cache
      zeros16 "k.bin" zeros16 none).key_fetches = [] :=
  ⟨((key_cache_policy nettle_id none zeros16 "k.bin" zeros16 (some key16)).2.1
      (Or.inl rfl)).1,
   ((key_cache_policy nettle_id none zeros16 "k.bin" zeros16 (some key16)).2.2
      key16 zeros16 zeros16 none (Or.inl rfl) rfl).1⟩

/-- C24, as stated, fails: a fetched key body of 15 bytes ends the call in a
DECRYPT error, but it has been installed in the cache before: the slot is
present afterwards and holds the 15 bytes; the next fragment with the same
key uri uses them from the cache, without a fetch, and fails again. -/
theorem key_cache_holds_rejected_key :
    (skippy_hls_demux_decrypt_fragment nettle_id none zeros16 "k.bin" zeros16
      (some (List.replicate 15 0))).ret = DecryptOutcome.decrypt_error ∧
    (skippy_hls_demux_decrypt_fragment nettle_id none zeros16 "k.bin" zeros16
      (some (List.replicate 15 0))).cache
      = some { key_url := "k.bin", key_fragment := List.replicate 15 0 } ∧
    (skippy_hls_demux_decrypt_fragment nettle_id
      (skippy_hls_demux_decrypt_fragment nettle_id none zeros16 "k.bin" zeros16
        (some (List.replicate 15 0))).cache
      zeros16 "k.bin" zeros16 (some key16))
      = { ret := DecryptOutcome.decrypt_error,
          cache := some { key_url := "k.bin", key_fragment := List.replicate 15 0 },
          key_fetches := [] } := by
  decide

/-- C24, amended. After every call of `skippy_hls_demux_decrypt_fragment` that
returns a completed fragment, the key cache slot is present, holds the key
uri of the call and a key of exactly 16 bytes. A fetched key body of any
other length makes the call end in a DECRYPT error, but only after it has
been installed in the slot: the slot then holds the key uri with that body. -/
theorem key_cache_after_call (nettle : Nettle) (cache : Option KeyCacheEntry)
    (encrypted : List Nat) (key : String) (iv : List Nat) (key_fetch : Option (List Nat)) :
    (∀ data : List Nat,
      (skippy_hls_demux_decrypt_fragment nettle cache encrypted key iv key_fetch).ret
        = DecryptOutcome.completed data →
      ∃ entry : KeyCacheEntry,
        (skippy_hls_demux_decrypt_fragment nettle cache encrypted key iv key_fetch).cache
          = some entry ∧
        entry.key_url = key ∧ entry.key_fragment.length = 16) ∧
    (∀ body : List Nat,
      (cache = none ∨ ∃ entry : KeyCacheEntry, cache = some entry ∧ entry.key_url ≠ key) →
      key_fetch = some body → body.length ≠ 16 →
      (skippy_hls_demux_decrypt_fragment nettle cache encrypted key iv key_fetch).ret
        = DecryptOutcome.decrypt_error ∧
      (skippy_hls_demux_decrypt_fragment nettle cache encrypted key iv key_fetch).cache
        = some { key_url := key, key_fragment := body }) := by
  have hlen16 : ∀ (k : List Nat) (data : List Nat),
      decrypt_with_key nettle k encrypted iv = DecryptOutcome.completed data →
      k.length = 16 := by
    intro k data h
    by_contra hne
    rw [(decrypt_with_key_outcome nettle k encrypted iv).1 (Or.inl hne)] at h
    cases h
  have hfetch : ∀ data : List Nat,
      (decrypt_fetch_key nettle encrypted key iv key_fetch).ret
        = DecryptOutcome.completed data →
      ∃ entry : KeyCacheEntry,
        (decrypt_fetch_key nettle encrypted key iv key_fetch).cache = some entry ∧
        entry.key_url = key ∧ entry.key_fragment.length = 16 := by
    intro data h
    unfold decrypt_fetch_key at h ⊢
    cases key_fetch with
    | none => cases h
    | some body => exact ⟨_, rfl, rfl, hlen16 body data h⟩
  constructor
  · intro data h
    unfold skippy_hls_demux_decrypt_fragment at h ⊢
    cases cache with
    | none => exact hfetch data h
    | some entry =>
      by_cases hu : entry.key_url = key
      · simp only [hu, if_true] at h ⊢
        exact ⟨entry, rfl, hu, hlen16 _ data h⟩
      · simp only [if_neg hu] at h ⊢
        exact hfetch data h
  · intro body hmiss hb hne
    have hfun : skippy_hls_demux_decrypt_fragment nettle cache encrypted key iv key_fetch
        = decrypt_fetch_key nettle encrypted key iv key_fetch := by
      rcases hmiss with hc | ⟨entry, hc, hu⟩
      · subst hc; rfl
      · subst hc
        simp only [skippy_hls_demux_decrypt_fragment, if_neg hu]
    rw [hfun]
    subst hb
    exact ⟨(decrypt_with_key_outcome nettle body encrypted iv).1 (Or.inl hne), rfl⟩

/-- C24, amended, on a fetched 16-byte key: the call completes and the slot holds
the 16 bytes. -/
theorem key_cache_after_call_witness :
    ∃ entry : KeyCacheEntry,
      (skippy_hls_demux_decrypt_fragment nettle_id none
        (List.replicate 12 7 ++ List.replicate 4 4) "k.bin" zeros16 (some key16)).cache
        = some entry ∧
      entry.key_url = "k.bin" ∧ entry.key_fragment.length = 16 :=
  (key_cache_after_call nettle_id none (List.replicate 12 7 ++ List.replicate 4 4) "k.bin"
    zeros16 (some key16)).1 (List.replicate 12 7) (by decide)

/-- C30 at the failing inputs. A 16-byte key with a 16-byte payload whose CBC
plaintext ends in the byte 17: the unpadded size `16 - 17` wraps around to
`2 ^ 64 - 1`, which is not within the 16 bytes of the buffer. A 16-byte key
with the empty payload: the checks pass and the last plaintext byte is read
at index `-1` of an empty buffer. -/
theorem unpadding_wraps_and_reads_out_of_range :
    decrypt_fragment nettle_id (List.replicate 15 0 ++ [17]).length
      (List.replicate 15 0 ++ [17]) key16 zeros16 = some (List.replicate 15 0 ++ [17]) ∧
    sub64 (List.replicate 15 0 ++ [17]).length 17 = 2 ^ 64 - 1 ∧
    ¬ (sub64 (List.replicate 15 0 ++ [17]).length 17 ≤ (List.replicate 15 0 ++ [17]).length) ∧
    decrypt_fragment nettle_id 0 [] key16 zeros16 = some [] ∧
    (skippy_hls_demux_decrypt_fragment nettle_id none [] "k.bin" zeros16 (some key16)).ret
      = DecryptOutcome.invalid_read := by
  decide

/-- The bytes of a combined block. -/
theorem xor_block_getD (a b : List Nat) (i : Nat) (hi : i < 16) :
    (xor_block a b).getD i 0 = a.getD i 0 ^^^ b.getD i 0 := by
  unfold xor_block
  rw [List.getD_eq_getElem?_getD, List.getElem?_map, List.getElem?_range hi]
  rfl

/-- A list of 16 bytes is the list of its 16 entries. -/
theorem map_getD_range (a : List Nat) (ha : a.length = 16) :
    (List.range 16).map (fun i => a.getD i 0) = a := by
  apply List.ext_getElem
  · simp [ha]
  · intro i h1 h2
    simp [List.getD_eq_getElem?_getD, List.getElem?_eq_getElem h2]

/-- Combining a 16-byte block twice with the same block gives it back. -/
theorem xor_block_cancel (a b : List Nat) (ha : a.length = 16) :
    xor_block (xor_block a b) b = a := by
  have h : xor_block (xor_block a b) b = (List.range 16).map (fun i => a.getD i 0) := by
    unfold xor_block
    apply List.map_congr_left
    intro i hi
    have hi16 : i < 16 := List.mem_range.mp hi
    have := xor_block_getD a b i hi16
    unfold xor_block at this
    rw [this, Nat.xor_cancel_right]
  rw [h, map_getD_range a ha]

/-- The CBC ciphertext of `nblocks` blocks has `16 * nblocks` bytes when the
block encryption yields 16-byte blocks. -/
theorem cbc_encrypt_length (aes_encrypt : List Nat → List Nat → List Nat) (key : List Nat)
    (hE : ∀ block : List Nat, block.length = 16 → (aes_encrypt key block).length = 16)
    (nblocks : Nat) (iv src : List Nat) :
    (cbc_encrypt aes_encrypt key nblocks iv src).length = 16 * nblocks := by
  induction nblocks generalizing iv src with
  | zero => simp [cbc_encrypt]
  | succ n ih =>
    simp only [cbc_encrypt, List.length_append, ih, hE _ (xor_block_length _ _)]
    omega

/-- CBC decryption undoes CBC encryption when the block decryption undoes the
block encryption on 16-byte blocks. -/
theorem cbc_decrypt_encrypt (nettle : Nettle) (aes_encrypt : List Nat → List Nat → List Nat)
    (key : List Nat)
    (hE : ∀ block : List Nat, block.length = 16 →
      (aes_encrypt key block).length = 16 ∧
      nettle.aes_decrypt key (aes_encrypt key block) = block)
    (nblocks : Nat) (iv src : List Nat) (hsrc : src.length = 16 * nblocks) :
    cbc_decrypt nettle key nblocks iv (cbc_encrypt aes_encrypt key nblocks iv src) = src := by
  induction nblocks generalizing iv src with
  | zero =>
    have : src = [] := List.length_eq_zero.mp (by omega)
    simp [cbc_decrypt, this]
  | succ n ih =>
    have hx := xor_block_length (src.take 16) iv
    obtain ⟨hc, hd⟩ := hE _ hx
    have htake : (src.take 16).length = 16 := by rw [List.length_take]; omega
    have hdrop : (src.drop 16).length = 16 * n := by rw [List.length_drop]; omega
    simp only [cbc_encrypt, cbc_decrypt]
    rw [List.take_left' hc, List.drop_left' hc, hd, xor_block_cancel _ _ htake,
      ih _ _ hdrop, List.take_append_drop]

/-- The padded plaintext: its length, its last byte and its unpadded prefix. -/
theorem pkcs7_pad_props (plaintext : List Nat) :
    (pkcs7_pad plaintext).length = plaintext.length + (16 - plaintext.length % 16) ∧
    (pkcs7_pad plaintext).length % 16 = 0 ∧
    (pkcs7_pad plaintext).getLast? = some (16 - plaintext.length % 16) ∧
    (pkcs7_pad plaintext).take plaintext.length = plaintext := by
  have hmod : plaintext.length % 16 < 16 := Nat.mod_lt _ (by decide)
  have hlen : (pkcs7_pad plaintext).length = plaintext.length + (16 - plaintext.length % 16) := by
    simp [pkcs7_pad]
  refine ⟨hlen, ?_, ?_, ?_⟩
  · rw [hlen]; omega
  · unfold pkcs7_pad
    obtain ⟨m, hm⟩ : ∃ m, 16 - plaintext.length % 16 = m + 1 := ⟨15 - plaintext.length % 16, by omega⟩
    rw [hm, List.replicate_succ', ← List.append_assoc, List.getLast?_append]
    simp
  · unfold pkcs7_pad
    exact List.take_left _ _

/-- C22. Round trip of the decryptor. For every plaintext `P` (of a length a
`gsize` can hold after padding), every 16-byte key and every iv: when the
block decryption of nettle undoes the block encryption under that key, the
decryptor, given the CBC encryption of `P` padded with PKCS#7 to a multiple
of 16, returns a completed fragment holding exactly `P`; so does
`skippy_hls_demux_decrypt_fragment` with that key fetched into an empty
cache. -/
theorem decrypt_roundtrip (nettle : Nettle) (aes_encrypt : List Nat → List Nat → List Nat)
    (key iv plaintext : List Nat) (key_url : String)
    (hk : key.length = 16)
    (hE : ∀ block : List Nat, block.length = 16 →
      (aes_encrypt key block).length = 16 ∧
      nettle.aes_decrypt key (aes_encrypt key block) = block)
    (hP : plaintext.length + 16 < 2 ^ 64) :
    decrypt_with_key nettle key
        (cbc_encrypt aes_encrypt key ((pkcs7_pad plaintext).length / 16) iv (pkcs7_pad plaintext))
        iv
      = DecryptOutcome.completed plaintext ∧
    (skippy_hls_demux_decrypt_fragment nettle none
        (cbc_encrypt aes_encrypt key ((pkcs7_pad plaintext).length / 16) iv (pkcs7_pad plaintext))
        key_url iv (some key)).ret
      = DecryptOutcome.completed plaintext := by
  obtain ⟨hlen, hmod, hlast, htake⟩ := pkcs7_pad_props plaintext
  have hfull : 16 * ((pkcs7_pad plaintext).length / 16) = (pkcs7_pad plaintext).length := by
    omega
  have hclen := cbc_encrypt_length aes_encrypt key (fun b hb => (hE b hb).1)
    ((pkcs7_pad plaintext).length / 16) iv (pkcs7_pad plaintext)
  rw [hfull] at hclen
  have hrt := cbc_decrypt_encrypt nettle aes_encrypt key hE
    ((pkcs7_pad plaintext).length / 16) iv (pkcs7_pad plaintext) hfull.symm
  have hmodp : plaintext.length % 16 < 16 := Nat.mod_lt _ (by decide)
  have hmain : decrypt_with_key nettle key
      (cbc_encrypt aes_encrypt key ((pkcs7_pad plaintext).length / 16) iv (pkcs7_pad plaintext))
      iv = DecryptOutcome.completed plaintext := by
    rw [decrypt_with_key_completed nettle key _ iv (16 - plaintext.length % 16) hk
      (by rw [hclen]; exact hmod) (by rw [hclen, hrt]; exact hlast)]
    rw [hclen, hrt, sub64_of_le _ _ (by rw [hlen]; omega) (by rw [hlen]; omega), hlen]
    unfold gst_buffer_resize
    rw [if_pos (by rw [hlen]; omega)]
    have : plaintext.length + (16 - plaintext.length % 16) - (16 - plaintext.length % 16)
        = plaintext.length := by omega
    rw [this, htake]
  exact ⟨hmain, hmain⟩

/-- C22 on the two-byte plaintext `hi` with the stand-in block cipher. -/
theorem decrypt_roundtrip_witness :
    decrypt_with_key nettle_id key16
        (cbc_encrypt (fun _ block => block) key16 ((pkcs7_pad [104, 105]).length / 16) zeros16
          (pkcs7_pad [104, 105]))
        zeros16
      = DecryptOutcome.completed [104, 105] :=
  (decrypt_roundtrip nettle_id (fun _ block => block) key16 zeros16 [104, 105] "k.bin"
    (by decide) (fun _ h => ⟨h, rfl⟩) (by decide)).1

/-! ## Failures, retries and the retry timer -/

/-- The retry timer is `RETRY_TIME_BASE` below the threshold. -/
theorem get_time_until_retry_below (env : Env) (demux : SkippyHLSDemux)
    (h : demux.download_failed_count < RETRY_THRESHOLD) :
    skippy_hls_demux_get_time_until_retry env demux = RETRY_TIME_BASE := by
  unfold skippy_hls_demux_get_time_until_retry
  rw [if_neg (by omega)]

/-- From the threshold on the retry timer is the exponential expression, capped. -/
theorem get_time_until_retry_from (env : Env) (demux : SkippyHLSDemux)
    (h : RETRY_THRESHOLD ≤ demux.download_failed_count) :
    skippy_hls_demux_get_time_until_retry env demux
      = min (env.exp_backoff demux.download_failed_count) RETRY_MAX_TIME_UNTIL := by
  unfold skippy_hls_demux_get_time_until_retry
  rw [if_pos h]
  simp only
  split
  · rw [Nat.min_eq_right (by omega)]
  · rw [Nat.min_eq_left (by omega)]

/-- The retry timer never exceeds `RETRY_MAX_TIME_UNTIL`, whatever the
exponential expression evaluates to. -/
theorem get_time_until_retry_le_max (env : Env) (demux : SkippyHLSDemux) :
    skippy_hls_demux_get_time_until_retry env demux ≤ RETRY_MAX_TIME_UNTIL := by
  by_cases h : RETRY_THRESHOLD ≤ demux.download_failed_count
  · rw [get_time_until_retry_from env demux h]
    exact Nat.min_le_right _ _
  · rw [get_time_until_retry_below env demux (by omega)]
    decide

/-- What `stream_loop_fetch_ret` being "failed" says about the run. -/
theorem fetch_ret_failed_inv (demux : SkippyHLSDemux) (inp : StreamLoopInput)
    (h : stream_loop_fetch_ret demux inp
      = some SkippyUriDownloaderFetchReturn.SKIPPY_URI_DOWNLOADER_FAILED) :
    (skippy_hls_check_buffer_ahead demux inp).1 = true ∧
    ∃ (fragment : SkippyFragment) (e : GError),
      skippy_m3u8_client_get_current_fragment demux.client = some fragment ∧
      inp.fetch = FetchOutcome.Failed e := by
  unfold stream_loop_fetch_ret at h
  simp only at h
  cases hg : (skippy_hls_check_buffer_ahead demux inp).1 with
  | false => rw [hg] at h; simp at h
  | true =>
    rw [hg] at h
    simp only [Bool.not_true, Bool.false_eq_true, if_false, Option.some.injEq] at h
    rw [check_buffer_ahead_pass demux inp hg] at h
    refine ⟨rfl, ?_⟩
    revert h
    unfold stream_loop_fetch
    cases hf : skippy_m3u8_client_get_current_fragment demux.client with
    | none => intro h; cases h
    | some fragment =>
      simp only
      cases hi : inp.fetch with
      | Completed t0 t1 size => intro h; cases h
      | Failed e => intro _; exact ⟨fragment, e, rfl, rfl⟩
      | Cancelled => intro h; cases h
      | Void => intro h; cases h

/-- The state after a run whose fetch fails with an error other than "not
authorized": the failure count is one higher, `continuing` is set, and the
timed wait is only made when `continuing` was not set before. -/
theorem stream_loop_of_failed_generic (env : Env) (demux : SkippyHLSDemux)
    (inp : StreamLoopInput) (fragment : SkippyFragment) (e : GError)
    (hg : (skippy_hls_check_buffer_ahead demux inp).1 = true)
    (hf : skippy_m3u8_client_get_current_fragment demux.client = some fragment)
    (hi : inp.fetch = FetchOutcome.Failed e)
    (hne : g_error_matches (some e) GErrorDomain.GST_RESOURCE_ERROR
      GST_RESOURCE_ERROR_NOT_AUTHORIZED = false) :
    skippy_hls_demux_stream_loop env demux inp =
      { demux with
        download_failed_count := demux.download_failed_count + 1
        continuing := true
        effects := demux.effects ++
          [Effect.fetch_fragment Downloader.downloader fragment
             (skippy_m3u8_client_get_uri demux.client) false false true] ++
          (if demux.continuing then []
           else [Effect.cond_wait (skippy_hls_demux_get_time_until_retry env
             { demux with download_failed_count := demux.download_failed_count + 1 })]) } := by
  unfold skippy_hls_demux_stream_loop
  simp only [hg, check_buffer_ahead_pass demux inp hg, Bool.not_true, Bool.false_eq_true,
    if_false]
  cases hc : demux.continuing <;>
    simp [stream_loop_fetch, hf, hi, stream_loop_handle_result, FetchOutcome.fetch_ret,
      FetchOutcome.err, FetchOutcome.fill, SkippyHLSDemux.emit, hne,
      skippy_hls_demux_is_caching_allowed, skippy_m3u8_client_is_caching_allowed,
      skippy_hls_stream_loop_wait_locked, hc, skippy_hls_demux_get_time_until_retry]

/-- Along failed runs the failure count rises by one per run. -/
theorem stream_loop_run_all_failed (env : Env) (inps : List StreamLoopInput)
    (demux : SkippyHLSDemux) (hall : all_failed_generic env demux inps) :
    (stream_loop_run env demux inps).download_failed_count
      = demux.download_failed_count + inps.length := by
  induction inps generalizing demux with
  | nil => rfl
  | cons inp rest ih =>
    obtain ⟨h1, hne, hrest⟩ := hall
    obtain ⟨hg, fragment, e, hf, hi⟩ := fetch_ret_failed_inv demux inp h1
    rw [hi] at hne
    have hstep := stream_loop_of_failed_generic env demux inp fragment e hg hf hi hne
    have hcount : (skippy_hls_demux_stream_loop env demux inp).download_failed_count
        = demux.download_failed_count + 1 := by rw [hstep]
    simp only [stream_loop_run, List.length_cons]
    rw [ih _ hrest, hcount]
    omega

/-- A prefix of failed runs consists of failed runs. -/
theorem all_failed_generic_take (env : Env) (inps : List StreamLoopInput)
    (demux : SkippyHLSDemux) (hall : all_failed_generic env demux inps) (k : Nat) :
    all_failed_generic env demux (inps.take k) := by
  induction inps generalizing demux k with
  | nil => simpa using hall
  | cons inp rest ih =>
    cases k with
    | zero => exact trivial
    | succ k => exact ⟨hall.1, hall.2.1, ih _ hall.2.2 k⟩

/-- The sixth power of `exp (1/6)` is `e`. -/
theorem exp_sixth_pow : Real.exp (1 / 6) ^ 6 = Real.exp 1 := by
  rw [← Real.exp_nat_mul]
  norm_num

/-- The exponential expression of the retry timer at `k = 7`, in exact
arithmetic, lies strictly between 590680206 ns and 590680207 ns. -/
theorem retry_timer_exact_seven :
    (590680206 : ℝ) < (RETRY_TIME_BASE : ℝ)
        * (Real.exp (((7 : ℕ) : ℝ) / (RETRY_THRESHOLD : ℝ)) / Real.exp 1) ∧
    (RETRY_TIME_BASE : ℝ) * (Real.exp (((7 : ℕ) : ℝ) / (RETRY_THRESHOLD : ℝ)) / Real.exp 1)
      < 590680207 := by
  have hdiv : Real.exp (((7 : ℕ) : ℝ) / (RETRY_THRESHOLD : ℝ)) / Real.exp 1
      = Real.exp (1 / 6) := by
    rw [← Real.exp_sub]
    congr 1
    simp only [RETRY_THRESHOLD]
    norm_num
  have hbase : (RETRY_TIME_BASE : ℝ) = 500000000 := by
    simp only [RETRY_TIME_BASE, GST_MSECOND]
    norm_num
  rw [hdiv, hbase]
  have hlo : (590680206 : ℝ) / 500000000 < Real.exp (1 / 6) := by
    have h := Real.exp_one_gt_d9
    rw [← exp_sixth_pow] at h
    have h2 : ((590680206 : ℝ) / 500000000) ^ 6 < Real.exp (1 / 6) ^ 6 :=
      lt_trans (by norm_num) h
    exact lt_of_pow_lt_pow_left₀ 6 (Real.exp_pos _).le h2
  have hhi : Real.exp (1 / 6) < (590680207 : ℝ) / 500000000 := by
    have h := Real.exp_one_lt_d9
    rw [← exp_sixth_pow] at h
    have h2 : Real.exp (1 / 6) ^ 6 < ((590680207 : ℝ) / 500000000) ^ 6 :=
      lt_trans h (by norm_num)
    exact lt_of_pow_lt_pow_left₀ 6 (by norm_num) h2
  constructor
  · linarith
  · linarith

/-- The exponential expression of the retry timer at `k = 6`, in exact
arithmetic, is `RETRY_TIME_BASE`. -/
theorem retry_timer_exact_six :
    (RETRY_TIME_BASE : ℝ) * (Real.exp (((6 : ℕ) : ℝ) / (RETRY_THRESHOLD : ℝ)) / Real.exp 1)
      = RETRY_TIME_BASE := by
  have hdiv : Real.exp (((6 : ℕ) : ℝ) / (RETRY_THRESHOLD : ℝ)) / Real.exp 1 = 1 := by
    have : ((6 : ℕ) : ℝ) / (RETRY_THRESHOLD : ℝ) = 1 := by
      simp only [RETRY_THRESHOLD]
      norm_num
    rw [this]
    exact div_self (Real.exp_pos 1).ne'
  rw [hdiv, mul_one]

/-- C13, as stated, fails on the last figure. After seven failed fetches in a row
(generic error, count starting at 0) the retry time the code computes from
the table of double-precision values is 590680206 ns; the table value is the
exact value `500 * exp (7/6) / e` ms cut to whole nanoseconds; and
590680206 ns is below 591.5 ms, so the wait is 591 ms to the nearest
millisecond, not 592 ms. -/
theorem seventh_retry_time_rounds_to_591_ms :
    all_failed_generic (env_double vod_abc) (demux_abc 0) failed7 ∧
    skippy_hls_demux_get_time_until_retry (env_double vod_abc)
      (stream_loop_run (env_double vod_abc) (demux_abc 0) failed7) = 590680206 ∧
    ((590680206 : ℝ) < (RETRY_TIME_BASE : ℝ)
        * (Real.exp (((7 : ℕ) : ℝ) / (RETRY_THRESHOLD : ℝ)) / Real.exp 1) ∧
      (RETRY_TIME_BASE : ℝ) * (Real.exp (((7 : ℕ) : ℝ) / (RETRY_THRESHOLD : ℝ)) / Real.exp 1)
        < 590680207) ∧
    ¬ (591500 * GST_USECOND ≤ 590680206) :=
  ⟨⟨by decide, by decide, by decide, by decide, by decide, by decide, by decide, by decide,
     by decide, by decide, by decide, by decide, by decide, by decide, trivial⟩,
   by decide, retry_timer_exact_seven, by decide⟩

/-- C13, amended. Start with `download_failed_count == 0`, let seven runs of the
streaming task function in a row end FAILED with an error other than "not
authorized" and let the eighth end COMPLETED. Then the failure count after
the `j`-th failure is `j`; the retry time
`skippy_hls_demux_get_time_until_retry` yields after failures 1 to 5 is
exactly 500 ms; after the 6th and the 7th failure it comes from the
exponential branch, and if the double-precision value of that branch is
within 1 µs of the exact `500 * exp (k/6) / e` ms for `k = 6, 7`, it is
within 1 µs of 500 ms after the 6th failure and between 590.5 ms and
591.5 ms after the 7th (591 ms to the nearest millisecond); and
`download_failed_count` is 0 after the completion. -/
theorem retry_times_of_seven_failures (env : Env) (demux : SkippyHLSDemux)
    (fs : List StreamLoopInput) (c : StreamLoopInput)
    (h0 : demux.download_failed_count = 0)
    (hlen : fs.length = 7)
    (hfail : all_failed_generic env demux fs)
    (hcomp : stream_loop_fetch_ret (stream_loop_run env demux fs) c
      = some SkippyUriDownloaderFetchReturn.SKIPPY_URI_DOWNLOADER_COMPLETED)
    (hacc : ∀ k : ℕ, 6 ≤ k → k ≤ 7 →
      |(env.exp_backoff k : ℝ) - (RETRY_TIME_BASE : ℝ)
          * (Real.exp ((k : ℝ) / (RETRY_THRESHOLD : ℝ)) / Real.exp 1)| ≤ (GST_USECOND : ℝ)) :
    (∀ j : ℕ, j ≤ 7 → (stream_loop_run env demux (fs.take j)).download_failed_count = j) ∧
    (∀ j : ℕ, 1 ≤ j → j ≤ 5 →
      skippy_hls_demux_get_time_until_retry env (stream_loop_run env demux (fs.take j))
        = 500 * GST_MSECOND) ∧
    (500 * GST_MSECOND - GST_USECOND
        ≤ skippy_hls_demux_get_time_until_retry env (stream_loop_run env demux (fs.take 6)) ∧
      skippy_hls_demux_get_time_until_retry env (stream_loop_run env demux (fs.take 6))
        ≤ 500 * GST_MSECOND + GST_USECOND) ∧
    (590500 * GST_USECOND
        < skippy_hls_demux_get_time_until_retry env (stream_loop_run env demux (fs.take 7)) ∧
      skippy_hls_demux_get_time_until_retry env (stream_loop_run env demux (fs.take 7))
        < 591500 * GST_USECOND) ∧
    (skippy_hls_demux_stream_loop env (stream_loop_run env demux fs) c).download_failed_count
      = 0 := by
  have hcount : ∀ j : ℕ, j ≤ 7 →
      (stream_loop_run env demux (fs.take j)).download_failed_count = j := by
    intro j hj
    rw [stream_loop_run_all_failed env (fs.take j) demux
      (all_failed_generic_take env fs demux hfail j), h0, List.length_take]
    omega
  have h6 := hacc 6 (by omega) (by omega)
  have h7 := hacc 7 (by omega) (by omega)
  rw [retry_timer_exact_six] at h6
  obtain ⟨hlo, hhi⟩ := retry_timer_exact_seven
  have hbase : (RETRY_TIME_BASE : ℝ) = 500000000 := by
    simp only [RETRY_TIME_BASE, GST_MSECOND]; norm_num
  have husec : (GST_USECOND : ℝ) = 1000 := by
    simp only [GST_USECOND]; norm_num
  rw [hbase, husec] at h6
  rw [husec] at h7
  rw [abs_le] at h6 h7
  have h6lo : 499999000 ≤ env.exp_backoff 6 := by
    have : (499999000 : ℝ) ≤ (env.exp_backoff 6 : ℝ) := by linarith [h6.1]
    exact_mod_cast this
  have h6hi : env.exp_backoff 6 ≤ 500001000 := by
    have : (env.exp_backoff 6 : ℝ) ≤ (500001000 : ℝ) := by linarith [h6.2]
    exact_mod_cast this
  have h7lo : 590679206 ≤ env.exp_backoff 7 := by
    have : (590679206 : ℝ) ≤ (env.exp_backoff 7 : ℝ) := by linarith [h7.1]
    exact_mod_cast this
  have h7hi : env.exp_backoff 7 ≤ 590681207 := by
    have : (env.exp_backoff 7 : ℝ) ≤ (590681207 : ℝ) := by linarith [h7.2]
    exact_mod_cast this
  refine ⟨hcount, ?_, ?_, ?_, ?_⟩
  · intro j h1 h5
    rw [get_time_until_retry_below env _ (by rw [hcount j (by omega)]; unfold RETRY_THRESHOLD; omega)]
    rfl
  · rw [get_time_until_retry_from env _ (by rw [hcount 6 (by omega)]; unfold RETRY_THRESHOLD; omega),
      hcount 6 (by omega)]
    simp only [GST_MSECOND, GST_USECOND, RETRY_MAX_TIME_UNTIL, GST_SECOND]
    omega
  · rw [get_time_until_retry_from env _ (by rw [hcount 7 (by omega)]; unfold RETRY_THRESHOLD; omega),
      hcount 7 (by omega)]
    simp only [GST_USECOND, RETRY_MAX_TIME_UNTIL, GST_SECOND]
    omega
  · obtain ⟨hg, fragment, t0, t1, size, hf, hi⟩ := fetch_ret_completed_inv _ c hcomp
    rw [stream_loop_of_completed env _ c fragment t0 t1 size hg hf hi]

/-- C13, amended, on the three-item VOD playlist with the table of
double-precision values: seven failures, then a completion. -/
theorem retry_times_of_seven_failures_witness :
    skippy_hls_demux_get_time_until_retry (env_double vod_abc)
        (stream_loop_run (env_double vod_abc) (demux_abc 0) (failed7.take 5))
      = 500 * GST_MSECOND ∧
    (590500 * GST_USECOND
        < skippy_hls_demux_get_time_until_retry (env_double vod_abc)
            (stream_loop_run (env_double vod_abc) (demux_abc 0) (failed7.take 7)) ∧
      skippy_hls_demux_get_time_until_retry (env_double vod_abc)
          (stream_loop_run (env_double vod_abc) (demux_abc 0) (failed7.take 7))
        < 591500 * GST_USECOND) ∧
    (skippy_hls_demux_stream_loop (env_double vod_abc)
      (stream_loop_run (env_double vod_abc) (demux_abc 0) failed7)
      input_completed).download_failed_count = 0 :=
  have h := retry_times_of_seven_failures (env_double vod_abc) (demux_abc 0) failed7
    input_completed rfl rfl
    ⟨by decide, by decide, by decide, by decide, by decide, by decide, by decide, by decide,
     by decide, by decide, by decide, by decide, by decide, by decide, trivial⟩
    (by decide)
    (by
      intro k h6 h7
      have hk : k = 6 ∨ k = 7 := by omega
      rcases hk with rfl | rfl
      · rw [retry_timer_exact_six]
        have : ((env_double vod_abc).exp_backoff 6 : ℝ) = (RETRY_TIME_BASE : ℝ) := by
          norm_cast
        rw [this, sub_self, abs_zero]
        simp only [GST_USECOND]; norm_num
      · obtain ⟨hlo, hhi⟩ := retry_timer_exact_seven
        have : ((env_double vod_abc).exp_backoff 7 : ℝ) = (590680206 : ℝ) := by
          norm_cast
        rw [this, abs_le]
        have husec : (GST_USECOND : ℝ) = 1000 := by simp only [GST_USECOND]; norm_num
        rw [husec]
        constructor <;> linarith)
  ⟨h.2.1 5 (by omega) (by omega), h.2.2.2.1, h.2.2.2.2⟩

/-- C14 at the failing input: a fetch that fails with "not found" (HTTP 404) with
the cursor at B. The failure count goes from 0 to 1 and no playlist fetch is
made: the trace holds the fragment fetch and the timed wait of
`RETRY_TIME_BASE` only. The same run with "not authorized" does fetch the
playlist and makes no timed wait. A second failure right after a first one
adds its fetch to the trace but no timed wait, because `continuing` is still
set from the first failure. -/
theorem stream_loop_not_found_no_refresh :
    (skippy_hls_demux_stream_loop (env_of vod_abc) (demux_abc 1)
      input_not_found).download_failed_count = 1 ∧
    (skippy_hls_demux_stream_loop (env_of vod_abc) (demux_abc 1) input_not_found).effects
      = [Effect.fetch_fragment Downloader.downloader
           (fragment_of_item
             { url := "B", start := 10 * GST_SECOND, end_ := 20 * GST_SECOND,
               duration := 10 * GST_SECOND })
           "http://host/list.m3u8" false false true,
         Effect.cond_wait RETRY_TIME_BASE] ∧
    Effect.fetch_fragment Downloader.playlist_downloader
        { skippy_fragment_new "http://host/list.m3u8" with stop_time := 30 * GST_SECOND }
        "http://host/list.m3u8" true true true
      ∈ (skippy_hls_demux_stream_loop (env_of vod_abc) (demux_abc 1)
          input_not_authorized).effects ∧
    Effect.cond_wait RETRY_TIME_BASE
      ∉ (skippy_hls_demux_stream_loop (env_of vod_abc) (demux_abc 1)
          input_not_authorized).effects ∧
    (skippy_hls_demux_stream_loop (env_of vod_abc)
      (skippy_hls_demux_stream_loop (env_of vod_abc) (demux_abc 1) input_failed)
      input_failed).effects
      = [Effect.fetch_fragment Downloader.downloader
           (fragment_of_item
             { url := "B", start := 10 * GST_SECOND, end_ := 20 * GST_SECOND,
               duration := 10 * GST_SECOND })
           "http://host/list.m3u8" false false true,
         Effect.cond_wait RETRY_TIME_BASE,
         Effect.fetch_fragment Downloader.downloader
           (fragment_of_item
             { url := "B", start := 10 * GST_SECOND, end_ := 20 * GST_SECOND,
               duration := 10 * GST_SECOND })
           "http://host/list.m3u8" false false true] := by
  decide

/-! ## Restart, the failed fetch and the buffer-ahead check -/

/-- C25, as stated, fails when the streaming task is already paused: with six
failed fetches and the task paused, `skippy_hls_demux_restart` only starts
the task again; `download_failed_count` stays 6 and no pause is made. -/
theorem restart_paused_keeps_failed_count :
    RETRY_THRESHOLD ≤ (demux_abc_paused 0).download_failed_count ∧
    (skippy_hls_demux_restart (demux_abc_paused 0)).download_failed_count = 6 ∧
    (skippy_hls_demux_restart (demux_abc_paused 0)).effects = [Effect.task_start] := by
  decide

/-- C25, amended. For every engine state with `download_failed_count >=
RETRY_THRESHOLD` whose streaming task is not paused (started or stopped),
`skippy_hls_demux_restart` pauses the engine (cancelling both downloaders),
leaves `download_failed_count == 0` and starts the streaming task. When the
task is paused it only starts the task: the count is left as it is. -/
theorem restart_resets_failed_count (demux : SkippyHLSDemux)
    (h : RETRY_THRESHOLD ≤ demux.download_failed_count) :
    (demux.stream_task ≠ GstTaskState.GST_TASK_PAUSED →
      (skippy_hls_demux_restart demux).download_failed_count = 0 ∧
      (skippy_hls_demux_restart demux).stream_task = GstTaskState.GST_TASK_STARTED ∧
      (skippy_hls_demux_restart demux).effects
        = demux.effects ++ [Effect.task_pause, Effect.task_signal,
            Effect.cancel Downloader.downloader, Effect.cancel Downloader.playlist_downloader,
            Effect.task_start]) ∧
    (demux.stream_task = GstTaskState.GST_TASK_PAUSED →
      (skippy_hls_demux_restart demux).download_failed_count = demux.download_failed_count ∧
      (skippy_hls_demux_restart demux).stream_task = GstTaskState.GST_TASK_STARTED ∧
      (skippy_hls_demux_restart demux).effects = demux.effects ++ [Effect.task_start]) := by
  constructor
  · intro hs
    have hge : demux.download_failed_count ≥ RETRY_THRESHOLD := h
    simp [skippy_hls_demux_restart, hs, hge, skippy_hls_demux_pause, gst_task_pause,
      gst_task_start, SkippyHLSDemux.emit]
  · intro hs
    simp [skippy_hls_demux_restart, hs, gst_task_start]

/-- C25, amended, on a running task after six failures: the count is reset. -/
theorem restart_resets_failed_count_witness :
    (skippy_hls_demux_restart (demux_abc_six_failures 0)).download_failed_count = 0 ∧
    (skippy_hls_demux_restart (demux_abc_six_failures 0)).stream_task
      = GstTaskState.GST_TASK_STARTED :=
  ⟨((restart_resets_failed_count (demux_abc_six_failures 0) (by decide)).1 (by decide)).1,
   ((restart_resets_failed_count (demux_abc_six_failures 0) (by decide)).1 (by decide)).2.1⟩

/-- The buffer-ahead check lets the fetch proceed only with the src pad linked. -/
theorem check_buffer_ahead_pass_srcpad (demux : SkippyHLSDemux) (inp : StreamLoopInput)
    (h : (skippy_hls_check_buffer_ahead demux inp).1 = true) : demux.srcpad = true := by
  revert h
  unfold skippy_hls_check_buffer_ahead
  cases hp : demux.srcpad
  · simp
  · intro _; rfl

/-- A playlist refresh leaves `continuing`, `srcpad`, `position` and the failure
count as they are. -/
theorem refresh_playlist_frame (env : Env) (demux : SkippyHLSDemux) (inp : StreamLoopInput) :
    (skippy_hls_demux_refresh_playlist env demux inp).2.continuing = demux.continuing ∧
    (skippy_hls_demux_refresh_playlist env demux inp).2.srcpad = demux.srcpad ∧
    (skippy_hls_demux_refresh_playlist env demux inp).2.position = demux.position ∧
    (skippy_hls_demux_refresh_playlist env demux inp).2.download_failed_count
      = demux.download_failed_count := by
  unfold skippy_hls_demux_refresh_playlist
  simp only
  split
  · split <;> exact ⟨rfl, rfl, rfl, rfl⟩
  · exact ⟨rfl, rfl, rfl, rfl⟩
  · exact ⟨rfl, rfl, rfl, rfl⟩
  · exact ⟨rfl, rfl, rfl, rfl⟩

/-- The state after a run whose fetch fails with "not authorized": the failure
count is one higher and the playlist has been refreshed; no wait is made and
`continuing` is not written. -/
theorem stream_loop_of_failed_not_authorized (env : Env) (demux : SkippyHLSDemux)
    (inp : StreamLoopInput) (fragment : SkippyFragment) (e : GError)
    (hg : (skippy_hls_check_buffer_ahead demux inp).1 = true)
    (hf : skippy_m3u8_client_get_current_fragment demux.client = some fragment)
    (hi : inp.fetch = FetchOutcome.Failed e)
    (hm : g_error_matches (some e) GErrorDomain.GST_RESOURCE_ERROR
      GST_RESOURCE_ERROR_NOT_AUTHORIZED = true) :
    skippy_hls_demux_stream_loop env demux inp =
      (skippy_hls_demux_refresh_playlist env
        { demux with
          download_failed_count := demux.download_failed_count + 1
          effects := demux.effects ++
            [Effect.fetch_fragment Downloader.downloader fragment
               (skippy_m3u8_client_get_uri demux.client) false false true] } inp).2 := by
  unfold skippy_hls_demux_stream_loop
  simp only [hg, check_buffer_ahead_pass demux inp hg, Bool.not_true, Bool.false_eq_true,
    if_false]
  simp [stream_loop_fetch, hf, hi, stream_loop_handle_result, FetchOutcome.fetch_ret,
    FetchOutcome.err, FetchOutcome.fill, SkippyHLSDemux.emit, hm,
    skippy_hls_demux_is_caching_allowed, skippy_m3u8_client_is_caching_allowed]

/-- C26, as stated, fails for the error that triggers a playlist refresh: with
`continuing == FALSE` and fragments fetched up to 50 s, a fetch that fails
with "not authorized" leaves `continuing` at `FALSE`; at a playback position
of 5 s the next run does not pass the buffer-ahead check but waits. -/
theorem stream_loop_not_authorized_leaves_continuing :
    stream_loop_fetch_ret (demux_abc_ahead 1) input_not_authorized
      = some SkippyUriDownloaderFetchReturn.SKIPPY_URI_DOWNLOADER_FAILED ∧
    (skippy_hls_demux_stream_loop (env_of vod_abc) (demux_abc_ahead 1)
      input_not_authorized).continuing = false ∧
    (skippy_hls_check_buffer_ahead
      (skippy_hls_demux_stream_loop (env_of vod_abc) (demux_abc_ahead 1) input_not_authorized)
      input_playing).1 = false := by
  decide

/-- C26, amended. For every run of the streaming task function whose fetch returns
FAILED with an error other than "not authorized", `continuing` is `TRUE`
when the run ends, so the next run passes the buffer-ahead check without
waiting. When the error is "not authorized" (the one that triggers a
playlist refresh and skips the wait), `continuing` is left as it was before
the run. -/
theorem stream_loop_failed_continuing (env : Env) (demux : SkippyHLSDemux)
    (inp : StreamLoopInput)
    (h : stream_loop_fetch_ret demux inp
      = some SkippyUriDownloaderFetchReturn.SKIPPY_URI_DOWNLOADER_FAILED) :
    (g_error_matches inp.fetch.err GErrorDomain.GST_RESOURCE_ERROR
        GST_RESOURCE_ERROR_NOT_AUTHORIZED = false →
      (skippy_hls_demux_stream_loop env demux inp).continuing = true ∧
      ∀ next : StreamLoopInput,
        skippy_hls_check_buffer_ahead (skippy_hls_demux_stream_loop env demux inp) next
          = (true, skippy_hls_demux_stream_loop env demux inp)) ∧
    (g_error_matches inp.fetch.err GErrorDomain.GST_RESOURCE_ERROR
        GST_RESOURCE_ERROR_NOT_AUTHORIZED = true →
      (skippy_hls_demux_stream_loop env demux inp).continuing = demux.continuing) := by
  obtain ⟨hg, fragment, e, hf, hi⟩ := fetch_ret_failed_inv demux inp h
  have hpad := check_buffer_ahead_pass_srcpad demux inp hg
  rw [hi]
  simp only [FetchOutcome.err]
  constructor
  · intro hne
    have hstep := stream_loop_of_failed_generic env demux inp fragment e hg hf hi hne
    have hc : (skippy_hls_demux_stream_loop env demux inp).continuing = true := by rw [hstep]
    have hp : (skippy_hls_demux_stream_loop env demux inp).srcpad = true := by
      rw [hstep]; exact hpad
    exact ⟨hc, fun next => check_buffer_ahead_continuing _ next hp hc⟩
  · intro hm
    rw [stream_loop_of_failed_not_authorized env demux inp fragment e hg hf hi hm]
    exact (refresh_playlist_frame env _ inp).1

/-- C26, amended, on a fetch that fails with a generic error. -/
theorem stream_loop_failed_continuing_witness :
    (skippy_hls_demux_stream_loop (env_of vod_abc) (demux_abc 1) input_failed).continuing
      = true :=
  ((stream_loop_failed_continuing (env_of vod_abc) (demux_abc 1) input_failed (by decide)).1
    (by decide)).1

/-- The timeout of the buffer-ahead wait: when the engine position exceeds the
64-bit sum of playback position and buffer duration, the 64-bit difference
is the engine position minus that sum, and it is positive. -/
theorem gate_timeout (position pos mbd : Nat) (hpos : position < 2 ^ 64)
    (h : add64 pos mbd < position) :
    sub64 (sub64 position pos) mbd = position - add64 pos mbd ∧
    0 < sub64 (sub64 position pos) mbd := by
  unfold add64 at h ⊢
  unfold sub64
  omega

/-- C27. Buffer-ahead check (`skippy_hls_check_buffer_ahead`), for an engine
position that is a `GstClockTime`. With the src pad linked it waits, and
returns `FALSE` (the run ends without a fetch), if and only if `continuing`
is `FALSE`, the playback position `pos` is known (not
`GST_CLOCK_TIME_NONE`), `max_buffer_duration` is known, `pos >= 2 *
RETRY_TIME_BASE` (1 s) and the engine position exceeds `pos +
max_buffer_duration` (64-bit sum). The wait is then a timed wait with
timeout `position - pos - max_buffer_duration` in unsigned 64-bit
arithmetic, which is the engine position minus that sum and is strictly
positive. In every other linked case it returns `TRUE` and changes nothing;
with no src pad it returns `FALSE` after a short sleep. Whenever it returns
`FALSE` the run of the streaming task function ends there, in the state the
check left. -/
theorem check_buffer_ahead_gate (demux : SkippyHLSDemux) (inp : StreamLoopInput)
    (hpos : demux.position < 2 ^ 64) :
    2 * RETRY_TIME_BASE = GST_SECOND ∧
    (demux.srcpad = true →
      ((skippy_hls_check_buffer_ahead demux inp).1 = false ↔
        (demux.continuing = false ∧
          to_guint64 (skippy_hls_demux_query_position inp) ≠ GST_CLOCK_TIME_NONE ∧
          inp.max_buffer_duration % 2 ^ 64 ≠ GST_CLOCK_TIME_NONE ∧
          2 * RETRY_TIME_BASE ≤ to_guint64 (skippy_hls_demux_query_position inp) ∧
          add64 (to_guint64 (skippy_hls_demux_query_position inp))
            (inp.max_buffer_duration % 2 ^ 64) < demux.position)) ∧
      ((skippy_hls_check_buffer_ahead demux inp).1 = false →
        (skippy_hls_check_buffer_ahead demux inp).2
          = { demux with
              effects := demux.effects ++
                [Effect.cond_wait
                  (sub64 (sub64 demux.position
                    (to_guint64 (skippy_hls_demux_query_position inp)))
                    (inp.max_buffer_duration % 2 ^ 64))]
              continuing := inp.buffer_wait_signalled } ∧
        sub64 (sub64 demux.position (to_guint64 (skippy_hls_demux_query_position inp)))
            (inp.max_buffer_duration % 2 ^ 64)
          = demux.position
            - add64 (to_guint64 (skippy_hls_demux_query_position inp))
                (inp.max_buffer_duration % 2 ^ 64) ∧
        0 < sub64 (sub64 demux.position (to_guint64 (skippy_hls_demux_query_position inp)))
            (inp.max_buffer_duration % 2 ^ 64)) ∧
      ((skippy_hls_check_buffer_ahead demux inp).1 = true →
        (skippy_hls_check_buffer_ahead demux inp).2 = demux)) ∧
    (demux.srcpad = false →
      skippy_hls_check_buffer_ahead demux inp = (false, demux.emit (Effect.usleep 100))) ∧
    (∀ env : Env, (skippy_hls_check_buffer_ahead demux inp).1 = false →
      skippy_hls_demux_stream_loop env demux inp
        = (skippy_hls_check_buffer_ahead demux inp).2) := by
  refine ⟨by decide, ?_, ?_, ?_⟩
  · intro hpad
    by_cases hc : demux.continuing = true
    · have hres : skippy_hls_check_buffer_ahead demux inp = (true, demux) :=
        check_buffer_ahead_continuing demux inp hpad hc
      rw [hres]
      simp [hc]
    · have hcf : demux.continuing = false := by simpa using hc
      by_cases hcond : to_guint64 (skippy_hls_demux_query_position inp) ≠ GST_CLOCK_TIME_NONE
          ∧ inp.max_buffer_duration % 2 ^ 64 ≠ GST_CLOCK_TIME_NONE
          ∧ to_guint64 (skippy_hls_demux_query_position inp) ≥ 2 * RETRY_TIME_BASE
          ∧ demux.position > add64 (to_guint64 (skippy_hls_demux_query_position inp))
              (inp.max_buffer_duration % 2 ^ 64)
      · have hres : skippy_hls_check_buffer_ahead demux inp
            = (false, { demux with
                effects := demux.effects ++
                  [Effect.cond_wait
                    (sub64 (sub64 demux.position
                      (to_guint64 (skippy_hls_demux_query_position inp)))
                      (inp.max_buffer_duration % 2 ^ 64))]
                continuing := inp.buffer_wait_signalled }) := by
          unfold skippy_hls_check_buffer_ahead skippy_hls_stream_loop_wait_locked
          simp only [hpad, hcf, Bool.not_true, Bool.false_eq_true, if_false, if_pos hcond]
        rw [hres]
        obtain ⟨h1, h2, h3, h4⟩ := hcond
        refine ⟨?_, ?_, ?_⟩
        · exact ⟨fun _ => ⟨hcf, h1, h2, h3, h4⟩, fun _ => rfl⟩
        · intro _
          exact ⟨rfl, gate_timeout _ _ _ hpos h4⟩
        · intro h; cases h
      · have hres : skippy_hls_check_buffer_ahead demux inp = (true, demux) := by
          unfold skippy_hls_check_buffer_ahead
          simp only [hpad, hcf, Bool.not_true, Bool.false_eq_true, if_false, if_neg hcond]
        rw [hres]
        refine ⟨?_, ?_, ?_⟩
        · constructor
          · intro h; cases h
          · rintro ⟨-, h1, h2, h3, h4⟩
            exact absurd ⟨h1, h2, h3, h4⟩ hcond
        · intro h; cases h
        · intro _; rfl
  · intro hpad
    unfold skippy_hls_check_buffer_ahead
    simp [hpad]
  · intro env h
    unfold skippy_hls_demux_stream_loop
    simp [h]

/-- C27 with fragments fetched up to 50 s, playback at 5 s and a buffer duration
of 30 s: the check returns `FALSE` after a timed wait of 15 s. -/
theorem check_buffer_ahead_gate_witness :
    (skippy_hls_check_buffer_ahead (demux_abc_ahead 1) input_playing).1 = false ∧
    (skippy_hls_check_buffer_ahead (demux_abc_ahead 1) input_playing).2.effects
      = [Effect.cond_wait (15 * GST_SECOND)] ∧
    ((skippy_hls_check_buffer_ahead (demux_abc_ahead 1) input_playing).1 = false ↔
      ((demux_abc_ahead 1).continuing = false ∧
        to_guint64 (skippy_hls_demux_query_position input_playing) ≠ GST_CLOCK_TIME_NONE ∧
        input_playing.max_buffer_duration % 2 ^ 64 ≠ GST_CLOCK_TIME_NONE ∧
        2 * RETRY_TIME_BASE ≤ to_guint64 (skippy_hls_demux_query_position input_playing) ∧
        add64 (to_guint64 (skippy_hls_demux_query_position input_playing))
          (input_playing.max_buffer_duration % 2 ^ 64) < (demux_abc_ahead 1).position)) :=
  ⟨by decide, by decide,
   ((check_buffer_ahead_gate (demux_abc_ahead 1) input_playing (by decide)).2.1 rfl).1⟩

/-! ## The order of effects of a seek -/

/-- A seek is accepted exactly when the playlist is not live and the event is in
TIME format. -/
theorem handle_seek_accepted_iff (demux : SkippyHLSDemux) (event : GstSeekEvent) :
    (skippy_hls_demux_handle_seek demux event).1 = true ↔
      (skippy_m3u8_client_is_live demux.client = false ∧
        event.format = GstFormat.GST_FORMAT_TIME) := by
  unfold skippy_hls_demux_handle_seek
  by_cases hl : skippy_m3u8_client_is_live demux.client = true
  · simp [hl]
  · by_cases hfmt : event.format = GstFormat.GST_FORMAT_TIME
    · simp [hl, hfmt]
    · simp [hl, hfmt]

/-- C28. For every accepted seek, `skippy_hls_demux_handle_seek` appends to the
trace of calls, in this order: the task pause, the signal of the task
condition and the cancel of both downloaders (this is
`skippy_hls_demux_pause`), the segment update of the downloader, then, if
and only if the FLUSH flag is set, flush-start followed by flush-stop to the
queue sink (once each; with the flag clear no flush event at all), and last
the task start. The cursor is the one `skippy_m3u8_client_seek_to` leaves
from the client as it was at the pause. The state handed to the final
`gst_task_start` has the streaming task paused, as has the state after
`skippy_hls_demux_pause`, and no call between pause and start is a fetch. -/
theorem handle_seek_effects (demux : SkippyHLSDemux) (event : GstSeekEvent)
    (h : (skippy_hls_demux_handle_seek demux event).1 = true) :
    (skippy_hls_demux_pause demux).effects
      = demux.effects ++ [Effect.task_pause, Effect.task_signal,
          Effect.cancel Downloader.downloader,
          Effect.cancel Downloader.playlist_downloader] ∧
    (skippy_hls_demux_pause demux).stream_task = GstTaskState.GST_TASK_PAUSED ∧
    (event.flags &&& GST_SEEK_FLAG_FLUSH ≠ 0 →
      (skippy_hls_demux_handle_seek demux event).2.effects
        = demux.effects ++ [Effect.task_pause, Effect.task_signal,
            Effect.cancel Downloader.downloader,
            Effect.cancel Downloader.playlist_downloader,
            Effect.segment_do_seek event,
            Effect.send_event QueueEvent.flush_start,
            Effect.send_event QueueEvent.flush_stop,
            Effect.task_start]) ∧
    (event.flags &&& GST_SEEK_FLAG_FLUSH = 0 →
      (skippy_hls_demux_handle_seek demux event).2.effects
        = demux.effects ++ [Effect.task_pause, Effect.task_signal,
            Effect.cancel Downloader.downloader,
            Effect.cancel Downloader.playlist_downloader,
            Effect.segment_do_seek event,
            Effect.task_start]) ∧
    (∃ paused : SkippyHLSDemux,
      (skippy_hls_demux_handle_seek demux event).2 = gst_task_start paused ∧
      paused.stream_task = GstTaskState.GST_TASK_PAUSED ∧
      paused.client
        = (skippy_m3u8_client_seek_to (skippy_hls_demux_pause demux).client
            (to_guint64 event.start)).2 ∧
      ∃ between : List Effect,
        paused.effects = (skippy_hls_demux_pause demux).effects ++ between ∧
        ∀ (d : Downloader) (fragment : SkippyFragment) (referrer : String)
          (compress refresh allow_cache : Bool),
          Effect.fetch_fragment d fragment referrer compress refresh allow_cache ∉ between) := by
  obtain ⟨hl, hfmt⟩ := (handle_seek_accepted_iff demux event).mp h
  refine ⟨by simp [skippy_hls_demux_pause, gst_task_pause, SkippyHLSDemux.emit], rfl, ?_, ?_, ?_⟩
  · intro hf
    unfold skippy_hls_demux_handle_seek
    simp [hl, hfmt, hf, skippy_hls_demux_pause, gst_task_pause, gst_task_start,
      SkippyHLSDemux.emit]
  · intro hf
    unfold skippy_hls_demux_handle_seek
    simp [hl, hfmt, hf, skippy_hls_demux_pause, gst_task_pause, gst_task_start,
      SkippyHLSDemux.emit]
  · by_cases hf : event.flags &&& GST_SEEK_FLAG_FLUSH ≠ 0
    · refine ⟨((({ skippy_hls_demux_pause demux with
          client := (skippy_m3u8_client_seek_to (skippy_hls_demux_pause demux).client
            (to_guint64 event.start)).2 }).emit (Effect.segment_do_seek event)).emit
          (Effect.send_event QueueEvent.flush_start)).emit
          (Effect.send_event QueueEvent.flush_stop), ?_, rfl, rfl,
        [Effect.segment_do_seek event, Effect.send_event QueueEvent.flush_start,
          Effect.send_event QueueEvent.flush_stop], ?_, ?_⟩
      · unfold skippy_hls_demux_handle_seek
        simp [hl, hfmt, hf]
      · simp [SkippyHLSDemux.emit]
      · intro d fragment referrer compress refresh allow_cache hmem
        simp at hmem
    · refine ⟨({ skippy_hls_demux_pause demux with
          client := (skippy_m3u8_client_seek_to (skippy_hls_demux_pause demux).client
            (to_guint64 event.start)).2 }).emit (Effect.segment_do_seek event), ?_, rfl, rfl,
        [Effect.segment_do_seek event], ?_, ?_⟩
      · unfold skippy_hls_demux_handle_seek
        simp [hl, hfmt, hf]
      · simp [SkippyHLSDemux.emit]
      · intro d fragment referrer compress refresh allow_cache hmem
        simp at hmem

/-- C28 on a seek to 15 s with the FLUSH flag in the three-item VOD playlist. -/
theorem handle_seek_effects_witness :
    (skippy_hls_demux_handle_seek (demux_abc 0)
      (seek_event (15 * GST_SECOND) GST_SEEK_FLAG_FLUSH)).2.effects
      = [Effect.task_pause, Effect.task_signal,
          Effect.cancel Downloader.downloader,
          Effect.cancel Downloader.playlist_downloader,
          Effect.segment_do_seek (seek_event (15 * GST_SECOND) GST_SEEK_FLAG_FLUSH),
          Effect.send_event QueueEvent.flush_start,
          Effect.send_event QueueEvent.flush_stop,
          Effect.task_start] :=
  (handle_seek_effects (demux_abc 0) (seek_event (15 * GST_SECOND) GST_SEEK_FLAG_FLUSH)
    (by decide)).2.2.1 (by decide)

/-! ## The result of a playlist refresh -/

/-- The result of `skippy_hls_demux_refresh_playlist` on a completed fetch, by the
integer value of the load result. -/
theorem refresh_playlist_completed (env : Env) (demux : SkippyHLSDemux)
    (inp : StreamLoopInput)
    (hc : inp.playlist_fetch.fetch_ret
      = SkippyUriDownloaderFetchReturn.SKIPPY_URI_DOWNLOADER_COMPLETED) :
    ((skippy_hls_demux_refresh_playlist env demux inp).1 = true ↔
      env.error_value (skippy_m3u8_client_load_playlist env demux.client
        (some (skippy_m3u8_client_get_current_playlist demux.client))
        inp.playlist_buffer).1 ≠ 0) := by
  unfold skippy_hls_demux_refresh_playlist
  simp only [hc]
  by_cases hz : env.error_value (skippy_m3u8_client_load_playlist env demux.client
      (some (skippy_m3u8_client_get_current_playlist demux.client))
      inp.playlist_buffer).1 = 0
  · simp [hz, skippy_hls_demux_post_stat_msg, SkippyHLSDemux.emit]
  · simp [hz, skippy_hls_demux_post_stat_msg, SkippyHLSDemux.emit]

/-- The result of `skippy_hls_demux_refresh_playlist` on a fetch that did not
complete. -/
theorem refresh_playlist_not_completed (env : Env) (demux : SkippyHLSDemux)
    (inp : StreamLoopInput)
    (hc : inp.playlist_fetch.fetch_ret
      ≠ SkippyUriDownloaderFetchReturn.SKIPPY_URI_DOWNLOADER_COMPLETED) :
    (skippy_hls_demux_refresh_playlist env demux inp).1 = false := by
  unfold skippy_hls_demux_refresh_playlist
  simp only
  split
  · rename_i h
    exact absurd h hc
  · rfl
  · rfl
  · rfl

/-- C29, where the code departs from it. `skippy_hls_demux_refresh_playlist`
tests the load result with `!`, that is, for the integer value 0:
it returns `TRUE` exactly on a completed fetch whose load result has a
non-zero value, and `FALSE` on every fetch that did not complete. Hence for
every assignment of distinct values to the three codes one code is treated
the wrong way round: a completed refresh whose load returns that code
returns `TRUE` exactly when the code is an error. With the codes numbered
as in the public enum (invalid UTF-8 content 0, incomplete 1, no error
last) a completed fetch of a playlist the parser finds incomplete returns
`TRUE` and raises no element error; with `NO_ERROR` numbered 0 a completed
fetch of a complete playlist raises the STREAM/DECODE error and returns
`FALSE`. -/
theorem refresh_playlist_tests_for_zero :
    (∀ (env : Env) (demux : SkippyHLSDemux) (inp : StreamLoopInput),
      (skippy_hls_demux_refresh_playlist env demux inp).1 = true ↔
        (inp.playlist_fetch.fetch_ret
            = SkippyUriDownloaderFetchReturn.SKIPPY_URI_DOWNLOADER_COMPLETED ∧
          env.error_value (skippy_m3u8_client_load_playlist env demux.client
            (some (skippy_m3u8_client_get_current_playlist demux.client))
            inp.playlist_buffer).1 ≠ 0)) ∧
    (∀ env : Env,
      env.error_value SkippyHlsInternalError.PLAYLIST_INVALID_UTF_CONTENT
        ≠ env.error_value SkippyHlsInternalError.PLAYLIST_INCOMPLETE →
      ∃ c : SkippyHlsInternalError,
        ∀ (demux : SkippyHLSDemux) (inp : StreamLoopInput),
          inp.playlist_fetch.fetch_ret
            = SkippyUriDownloaderFetchReturn.SKIPPY_URI_DOWNLOADER_COMPLETED →
          (skippy_m3u8_client_load_playlist env demux.client
            (some (skippy_m3u8_client_get_current_playlist demux.client))
            inp.playlist_buffer).1 = c →
          ((skippy_hls_demux_refresh_playlist env demux inp).1 = true ↔
            c ≠ SkippyHlsInternalError.NO_ERROR)) ∧
    ((skippy_m3u8_client_load_playlist (env_header vod_abc_incomplete) (demux_abc 1).client
        (some (skippy_m3u8_client_get_current_playlist (demux_abc 1).client))
        input_not_authorized.playlist_buffer).1
        = SkippyHlsInternalError.PLAYLIST_INCOMPLETE ∧
      input_not_authorized.playlist_fetch.fetch_ret
        = SkippyUriDownloaderFetchReturn.SKIPPY_URI_DOWNLOADER_COMPLETED ∧
      (skippy_hls_demux_refresh_playlist (env_header vod_abc_incomplete) (demux_abc 1)
        input_not_authorized).1 = true ∧
      Effect.element_error GErrorDomain.GST_STREAM_ERROR GST_STREAM_ERROR_DECODE
        ∉ (skippy_hls_demux_refresh_playlist (env_header vod_abc_incomplete) (demux_abc 1)
            input_not_authorized).2.effects) ∧
    ((skippy_m3u8_client_load_playlist (env_of vod_abc) (demux_abc 1).client
        (some (skippy_m3u8_client_get_current_playlist (demux_abc 1).client))
        input_not_authorized.playlist_buffer).1
        = SkippyHlsInternalError.NO_ERROR ∧
      (skippy_hls_demux_refresh_playlist (env_of vod_abc) (demux_abc 1)
        input_not_authorized).1 = false ∧
      Effect.element_error GErrorDomain.GST_STREAM_ERROR GST_STREAM_ERROR_DECODE
        ∈ (skippy_hls_demux_refresh_playlist (env_of vod_abc) (demux_abc 1)
            input_not_authorized).2.effects) := by
  refine ⟨?_, ?_, ⟨by decide, by decide, by decide, by decide⟩,
    ⟨by decide, by decide, by decide⟩⟩
  · intro env demux inp
    by_cases hc : inp.playlist_fetch.fetch_ret
        = SkippyUriDownloaderFetchReturn.SKIPPY_URI_DOWNLOADER_COMPLETED
    · rw [refresh_playlist_completed env demux inp hc]
      simp [hc]
    · rw [refresh_playlist_not_completed env demux inp hc]
      simp [hc]
  · intro env hd
    by_cases h0 : env.error_value SkippyHlsInternalError.NO_ERROR = 0
    · refine ⟨SkippyHlsInternalError.NO_ERROR, ?_⟩
      intro demux inp hc hl
      rw [refresh_playlist_completed env demux inp hc, hl]
      simp [h0]
    · by_cases h1 : env.error_value SkippyHlsInternalError.PLAYLIST_INVALID_UTF_CONTENT = 0
      · refine ⟨SkippyHlsInternalError.PLAYLIST_INCOMPLETE, ?_⟩
        intro demux inp hc hl
        rw [refresh_playlist_completed env demux inp hc, hl]
        have h2 : env.error_value SkippyHlsInternalError.PLAYLIST_INCOMPLETE ≠ 0 := by
          intro h2
          exact hd (h1.trans h2.symm)
        simp [h2]
      · refine ⟨SkippyHlsInternalError.PLAYLIST_INVALID_UTF_CONTENT, ?_⟩
        intro demux inp hc hl
        rw [refresh_playlist_completed env demux inp hc, hl]
        simp [h1]

end SkippyHLS
